import Mathlib

/-!
# raygui: style property store, UTF-8 codec and text-box editing core

A shallow embedding of parts of `src/raygui.c`:

* the style table `guiStyle` with `GuiSetStyle`, `GuiGetStyle`, `GuiLoadStyleDefault`;
* the UTF-8 codec `CodepointToUTF8`, `GetCodepointNext`;
* the edit-mode keyboard handling of `GuiTextBox`.

Machine integers: `int` is an `Int`, a byte (`char`) is a `Nat` below 256, an
`unsigned int` slot of the style table is a `Nat` below `2^32`.
-/

namespace Raygui

/-! ## Style property store -/

def RAYGUI_MAX_CONTROLS : Nat := 16
def RAYGUI_MAX_PROPS_BASE : Nat := 16
def RAYGUI_MAX_PROPS_EXTENDED : Nat := 8

-- GuiControl
def DEFAULT : Nat := 0
def LABEL : Nat := 1
def BUTTON : Nat := 2
def TOGGLE : Nat := 3
def SLIDER : Nat := 4
def PROGRESSBAR : Nat := 5
def CHECKBOX : Nat := 6
def COMBOBOX : Nat := 7
def DROPDOWNBOX : Nat := 8
def TEXTBOX : Nat := 9
def VALUEBOX : Nat := 10
def SPINNER : Nat := 11
def LISTVIEW : Nat := 12
def COLORPICKER : Nat := 13
def SCROLLBAR : Nat := 14
def STATUSBAR : Nat := 15

-- GuiControlProperty (base properties)
def BORDER_COLOR_NORMAL : Nat := 0
def BASE_COLOR_NORMAL : Nat := 1
def TEXT_COLOR_NORMAL : Nat := 2
def BORDER_COLOR_FOCUSED : Nat := 3
def BASE_COLOR_FOCUSED : Nat := 4
def TEXT_COLOR_FOCUSED : Nat := 5
def BORDER_COLOR_PRESSED : Nat := 6
def BASE_COLOR_PRESSED : Nat := 7
def TEXT_COLOR_PRESSED : Nat := 8
def BORDER_COLOR_DISABLED : Nat := 9
def BASE_COLOR_DISABLED : Nat := 10
def TEXT_COLOR_DISABLED : Nat := 11
def BORDER_WIDTH : Nat := 12
def TEXT_PADDING : Nat := 13
def TEXT_ALIGNMENT : Nat := 14

-- GuiDefaultProperty (extended properties of DEFAULT)
def TEXT_SIZE : Nat := 16
def TEXT_SPACING : Nat := 17
def LINE_COLOR : Nat := 18
def BACKGROUND_COLOR : Nat := 19
def TEXT_LINE_SPACING : Nat := 20
def TEXT_ALIGNMENT_VERTICAL : Nat := 21
def TEXT_WRAP_MODE : Nat := 22

-- extended properties by control
def GROUP_PADDING : Nat := 16
def SLIDER_WIDTH : Nat := 16
def SLIDER_PADDING : Nat := 17
def PROGRESS_PADDING : Nat := 16
def ARROWS_SIZE : Nat := 16
def ARROWS_VISIBLE : Nat := 17
def SCROLL_SLIDER_PADDING : Nat := 18
def SCROLL_SLIDER_SIZE : Nat := 19
def SCROLL_PADDING : Nat := 20
def SCROLL_SPEED : Nat := 21
def CHECK_PADDING : Nat := 16
def COMBO_BUTTON_WIDTH : Nat := 16
def COMBO_BUTTON_SPACING : Nat := 17
def ARROW_PADDING : Nat := 16
def DROPDOWN_ITEMS_SPACING : Nat := 17
def TEXT_READONLY : Nat := 16
def SPIN_BUTTON_WIDTH : Nat := 16
def SPIN_BUTTON_SPACING : Nat := 17
def LIST_ITEMS_HEIGHT : Nat := 16
def LIST_ITEMS_SPACING : Nat := 17
def SCROLLBAR_WIDTH : Nat := 18
def SCROLLBAR_SIDE : Nat := 19
def COLOR_SELECTOR_SIZE : Nat := 16
def HUEBAR_WIDTH : Nat := 17
def HUEBAR_PADDING : Nat := 18
def HUEBAR_SELECTOR_HEIGHT : Nat := 19
def HUEBAR_SELECTOR_OVERFLOW : Nat := 20

def TEXT_ALIGN_LEFT : Int := 0
def TEXT_ALIGN_CENTER : Int := 1
def TEXT_ALIGN_RIGHT : Int := 2
def TEXT_ALIGN_MIDDLE : Int := 1
def SCROLLBAR_RIGHT_SIDE : Int := 1

/-- Conversion of an `int` to `unsigned int` (the assignment `guiStyle[..] = value`). -/
def toUInt32 (v : Int) : Nat := (v % 4294967296).toNat

/-- Conversion of an `unsigned int` to `int` (the `return guiStyle[..]` of `GuiGetStyle`). -/
def toInt32 (n : Nat) : Int := if n < 2147483648 then (n : Int) else (n : Int) - 4294967296

/-- The style globals: `guiStyle` (addressed by flat index, the C array has the
indices below `16*(16 + 8) = 384`) and the lazy-initialisation flag `guiStyleLoaded`. -/
structure StyleState where
  guiStyle : Nat → Nat
  guiStyleLoaded : Bool

/-- The globals at program start: `guiStyle = { 0 }`, `guiStyleLoaded = false`. -/
def initialStyle : StyleState := ⟨fun _ => 0, false⟩

/-- Flat index of slot `(control, property)`. -/
def slot (control property : Nat) : Nat :=
  control * (RAYGUI_MAX_PROPS_BASE + RAYGUI_MAX_PROPS_EXTENDED) + property

/-- The assignment `guiStyle[i] = v`. -/
def writeSlot (g : Nat → Nat) (i v : Nat) : Nat → Nat := fun j => if j = i then v else g j

/-- The loop `for (int i = 1; i < RAYGUI_MAX_CONTROLS; i++) guiStyle[i*24 + property] = value;`
with `n` iterations left and loop variable `i`. -/
def propagate (property value : Nat) : Nat → Nat → (Nat → Nat) → (Nat → Nat)
  | 0, _, g => g
  | n + 1, i, g => propagate property value n (i + 1) (writeSlot g (slot i property) value)

/-- Body of `GuiSetStyle` after the lazy-load check. -/
def setStyleBody (s : StyleState) (control property : Nat) (value : Int) : StyleState :=
  let g := writeSlot s.guiStyle (slot control property) (toUInt32 value)
  if control = 0 ∧ property < RAYGUI_MAX_PROPS_BASE then
    { s with guiStyle := propagate property (toUInt32 value) (RAYGUI_MAX_CONTROLS - 1) 1 g }
  else
    { s with guiStyle := g }

/-- The `GuiSetStyle(control, property, value)` calls of `GuiLoadStyleDefault`, in order. -/
def defaultStyleCalls : List (Nat × Nat × Int) :=
  [ (DEFAULT, BORDER_COLOR_NORMAL, 0x838383ff),
    (DEFAULT, BASE_COLOR_NORMAL, 0xc9c9c9ff),
    (DEFAULT, TEXT_COLOR_NORMAL, 0x686868ff),
    (DEFAULT, BORDER_COLOR_FOCUSED, 0x5bb2d9ff),
    (DEFAULT, BASE_COLOR_FOCUSED, 0xc9effeff),
    (DEFAULT, TEXT_COLOR_FOCUSED, 0x6c9bbcff),
    (DEFAULT, BORDER_COLOR_PRESSED, 0x0492c7ff),
    (DEFAULT, BASE_COLOR_PRESSED, 0x97e8ffff),
    (DEFAULT, TEXT_COLOR_PRESSED, 0x368bafff),
    (DEFAULT, BORDER_COLOR_DISABLED, 0xb5c1c2ff),
    (DEFAULT, BASE_COLOR_DISABLED, 0xe6e9e9ff),
    (DEFAULT, TEXT_COLOR_DISABLED, 0xaeb7b8ff),
    (DEFAULT, BORDER_WIDTH, 1),
    (DEFAULT, TEXT_PADDING, 0),
    (DEFAULT, TEXT_ALIGNMENT, TEXT_ALIGN_CENTER),
    (DEFAULT, TEXT_SIZE, 10),
    (DEFAULT, TEXT_SPACING, 1),
    (DEFAULT, LINE_COLOR, 0x90abb5ff),
    (DEFAULT, BACKGROUND_COLOR, 0xf5f5f5ff),
    (DEFAULT, TEXT_LINE_SPACING, 15),
    (DEFAULT, TEXT_ALIGNMENT_VERTICAL, TEXT_ALIGN_MIDDLE),
    (LABEL, TEXT_ALIGNMENT, TEXT_ALIGN_LEFT),
    (BUTTON, BORDER_WIDTH, 2),
    (SLIDER, TEXT_PADDING, 4),
    (PROGRESSBAR, TEXT_PADDING, 4),
    (CHECKBOX, TEXT_PADDING, 4),
    (CHECKBOX, TEXT_ALIGNMENT, TEXT_ALIGN_RIGHT),
    (DROPDOWNBOX, TEXT_PADDING, 0),
    (DROPDOWNBOX, TEXT_ALIGNMENT, TEXT_ALIGN_CENTER),
    (TEXTBOX, TEXT_PADDING, 4),
    (TEXTBOX, TEXT_ALIGNMENT, TEXT_ALIGN_LEFT),
    (VALUEBOX, TEXT_PADDING, 0),
    (VALUEBOX, TEXT_ALIGNMENT, TEXT_ALIGN_LEFT),
    (SPINNER, TEXT_PADDING, 0),
    (SPINNER, TEXT_ALIGNMENT, TEXT_ALIGN_LEFT),
    (STATUSBAR, TEXT_PADDING, 8),
    (STATUSBAR, TEXT_ALIGNMENT, TEXT_ALIGN_LEFT),
    (TOGGLE, GROUP_PADDING, 2),
    (SLIDER, SLIDER_WIDTH, 16),
    (SLIDER, SLIDER_PADDING, 1),
    (PROGRESSBAR, PROGRESS_PADDING, 1),
    (CHECKBOX, CHECK_PADDING, 1),
    (COMBOBOX, COMBO_BUTTON_WIDTH, 32),
    (COMBOBOX, COMBO_BUTTON_SPACING, 2),
    (DROPDOWNBOX, ARROW_PADDING, 16),
    (DROPDOWNBOX, DROPDOWN_ITEMS_SPACING, 2),
    (SPINNER, SPIN_BUTTON_WIDTH, 24),
    (SPINNER, SPIN_BUTTON_SPACING, 2),
    (SCROLLBAR, BORDER_WIDTH, 0),
    (SCROLLBAR, ARROWS_VISIBLE, 0),
    (SCROLLBAR, ARROWS_SIZE, 6),
    (SCROLLBAR, SCROLL_SLIDER_PADDING, 0),
    (SCROLLBAR, SCROLL_SLIDER_SIZE, 16),
    (SCROLLBAR, SCROLL_PADDING, 0),
    (SCROLLBAR, SCROLL_SPEED, 12),
    (LISTVIEW, LIST_ITEMS_HEIGHT, 28),
    (LISTVIEW, LIST_ITEMS_SPACING, 2),
    (LISTVIEW, SCROLLBAR_WIDTH, 12),
    (LISTVIEW, SCROLLBAR_SIDE, SCROLLBAR_RIGHT_SIDE),
    (COLORPICKER, COLOR_SELECTOR_SIZE, 8),
    (COLORPICKER, HUEBAR_WIDTH, 16),
    (COLORPICKER, HUEBAR_PADDING, 8),
    (COLORPICKER, HUEBAR_SELECTOR_HEIGHT, 8),
    (COLORPICKER, HUEBAR_SELECTOR_OVERFLOW, 2) ]

/-- Runs a list of `GuiSetStyle` calls with the given implementation of the call. -/
def runCalls (set : StyleState → Nat → Nat → Int → Option StyleState) :
    List (Nat × Nat × Int) → StyleState → Option StyleState
  | [], s => some s
  | (c, p, v) :: rest, s =>
    match set s c p v with
    | none => none
    | some s1 => runCalls set rest s1

mutual
/-- `GuiSetStyle`: the call depth of the mutual recursion with `GuiLoadStyleDefault`
is bounded by the first argument; `none` means the bound was reached. -/
def GuiSetStyle : Nat → StyleState → Nat → Nat → Int → Option StyleState
  | 0, _, _, _, _ => none
  | fuel + 1, s, control, property, value =>
    match (if s.guiStyleLoaded = false then GuiLoadStyleDefault fuel s else some s) with
    | none => none
    | some s1 => some (setStyleBody s1 control property value)
/-- `GuiLoadStyleDefault`, style table part (the reset of `guiFont` at its end is not
part of the style table). -/
def GuiLoadStyleDefault : Nat → StyleState → Option StyleState
  | 0, _ => none
  | fuel + 1, s =>
    runCalls (fun st c p v => GuiSetStyle fuel st c p v) defaultStyleCalls
      { s with guiStyleLoaded := true }
end

/-- `GuiGetStyle`: returns the globals after the call and the value read. -/
def GuiGetStyle : Nat → StyleState → Nat → Nat → Option (StyleState × Int)
  | 0, _, _, _ => none
  | fuel + 1, s, control, property =>
    match (if s.guiStyleLoaded = false then GuiLoadStyleDefault fuel s else some s) with
    | none => none
    | some s1 => some (s1, toInt32 (s1.guiStyle (slot control property)))

/-- The table after `GuiLoadStyleDefault` expressed without the call-depth bound:
the flag is set, then the bodies of the `GuiSetStyle` calls run in order. -/
def loadDefaultBody (s : StyleState) : StyleState :=
  defaultStyleCalls.foldl (fun st x => setStyleBody st x.1 x.2.1 x.2.2)
    { s with guiStyleLoaded := true }

/-! ## UTF-8 codec -/

/-- A byte buffer (`char[]`); every byte is stored as its unsigned value `0..255`. -/
abbrev Buf := List Nat

/-- The read `text[i]`. An index outside the buffer (undefined behaviour in C) reads 0. -/
def rd (t : Buf) (i : Int) : Nat := if i < 0 then 0 else t.getD i.toNat 0

/-- The write `text[i] = v`. A write outside the buffer (undefined behaviour in C) is
dropped. -/
def wr (t : Buf) (i : Int) (v : Nat) : Buf := if i < 0 then t else t.set i.toNat v

/-- The cast `(char)x` of an `int`, as an unsigned byte. -/
def toChar (x : Int) : Nat := (x % 256).toNat

/-- The C library `strlen`: number of bytes before the first NUL. -/
def strlen : Buf → Nat
  | [] => 0
  | b :: rest => if b = 0 then 0 else strlen rest + 1

/-- `CodepointToUTF8(codepoint, &byteSize)`. The first argument is the content of the
function's `static char utf8[6]` before the call; the result is its content after the call
(what the returned pointer points to) and `*byteSize`. The bytes built by the masks are
below 256, so the `(char)` casts keep them. -/
def CodepointToUTF8 (utf8 : Buf) (codepoint : Int) : Buf × Int :=
  let n := codepoint.toNat
  if codepoint ≤ 0x7f then
    (wr utf8 0 (toChar codepoint), 1)
  else if codepoint ≤ 0x7ff then
    let u0 := wr utf8 0 (((n >>> 6) &&& 0x1f) ||| 0xc0)
    let u1 := wr u0 1 ((n &&& 0x3f) ||| 0x80)
    (u1, 2)
  else if codepoint ≤ 0xffff then
    let u0 := wr utf8 0 (((n >>> 12) &&& 0x0f) ||| 0xe0)
    let u1 := wr u0 1 (((n >>> 6) &&& 0x3f) ||| 0x80)
    let u2 := wr u1 2 ((n &&& 0x3f) ||| 0x80)
    (u2, 3)
  else if codepoint ≤ 0x10ffff then
    let u0 := wr utf8 0 (((n >>> 18) &&& 0x07) ||| 0xf0)
    let u1 := wr u0 1 (((n >>> 12) &&& 0x3f) ||| 0x80)
    let u2 := wr u1 2 (((n >>> 6) &&& 0x3f) ||| 0x80)
    let u3 := wr u2 3 ((n &&& 0x3f) ||| 0x80)
    (u3, 4)
  else
    (utf8, 0)

/-- `GetCodepointNext(text + off, &codepointSize)`: the codepoint returned and
`*codepointSize`. -/
def GetCodepointNext (text : Buf) (off : Int) : Int × Int :=
  let p0 := rd text off
  let p1 := rd text (off + 1)
  let p2 := rd text (off + 2)
  let p3 := rd text (off + 3)
  if 0xf0 = (0xf8 &&& p0) then
    if ((p1 &&& 0xC0) ^^^ 0x80) ≠ 0 ∨ ((p2 &&& 0xC0) ^^^ 0x80) ≠ 0
        ∨ ((p3 &&& 0xC0) ^^^ 0x80) ≠ 0 then (0x3f, 1)
    else
      (((((((0x07 &&& p0) <<< 18) ||| ((0x3f &&& p1) <<< 12)) ||| ((0x3f &&& p2) <<< 6))
        ||| (0x3f &&& p3) : Nat) : Int), 4)
  else if 0xe0 = (0xf0 &&& p0) then
    if ((p1 &&& 0xC0) ^^^ 0x80) ≠ 0 ∨ ((p2 &&& 0xC0) ^^^ 0x80) ≠ 0 then (0x3f, 1)
    else
      ((((((0x0f &&& p0) <<< 12) ||| ((0x3f &&& p1) <<< 6)) ||| (0x3f &&& p2) : Nat) : Int), 3)
  else if 0xc0 = (0xe0 &&& p0) then
    if ((p1 &&& 0xC0) ^^^ 0x80) ≠ 0 then (0x3f, 1)
    else
      (((((0x1f &&& p0) <<< 6) ||| (0x3f &&& p1) : Nat) : Int), 2)
  else if 0x00 = (0x80 &&& p0) then
    ((p0 : Int), 1)
  else
    (0x3f, 1)

/-- The loop `do ptr--; while (ptr[0] is a continuation byte 10xxxxxx)` with a bound on
the number of steps; the result is the offset reached. -/
def backToLead (text : Buf) : Nat → Int → Int
  | 0, i => i
  | n + 1, i =>
    if (rd text (i - 1) &&& 0xC0) = 0x80 then backToLead text n (i - 1) else i - 1

/-- Modelled from the spec: `GetCodepointPrevious` is declared in the source ("Get
previous codepoint in a UTF-8 encoded string, 0x3f('?') is returned on failure") but its
definition is not part of it. The spec has Backspace and Left act on exactly one codepoint
"of correct, possibly multi-byte, width" before the cursor: the model steps back from
`text + off` over the continuation bytes to the lead byte and decodes there, returning the
codepoint and its byte size. -/
def GetCodepointPrevious (text : Buf) (off : Int) : Int × Int :=
  GetCodepointNext text (backToLead text (off.toNat + 1) off)

/-! ## Text box editing (`GuiTextBox`) -/

def RAYGUI_TEXTBOX_AUTO_CURSOR_COOLDOWN : Int := 40
def RAYGUI_TEXTBOX_AUTO_CURSOR_DELAY : Int := 1

/-- The local `bool multiline = false;` of `GuiTextBox`. -/
def multiline : Bool := false

/-- The globals and the caller's buffer that `GuiTextBox` works on; `utf8` is the static
buffer of `CodepointToUTF8`. -/
structure TextBoxState where
  text : Buf
  textBoxCursorIndex : Int
  autoCursorCooldownCounter : Int
  autoCursorDelayCounter : Int
  utf8 : Buf
  deriving DecidableEq

/-- What one call of `GuiTextBox` polls from the input backend. `mouseTextIndex` is the
outcome of the glyph scan of the "move cursor position with mouse" block: `some k` when
the pointer is over the text bounds and the scan placed the mouse cursor
(`mouseCursor.x >= 0`) at byte index `k`, else `none`. -/
structure TextBoxInput where
  charPressed : Int
  pressedEnter : Bool
  pressedHome : Bool
  pressedEnd : Bool
  pressedDelete : Bool
  downDelete : Bool
  pressedBackspace : Bool
  downBackspace : Bool
  pressedLeft : Bool
  downLeft : Bool
  pressedRight : Bool
  downRight : Bool
  downUp : Bool
  downDown : Bool
  mouseInBounds : Bool
  mouseLeftPressed : Bool
  mouseTextIndex : Option Int
  deriving DecidableEq

/-- A frame without any input. -/
def noInput : TextBoxInput :=
  { charPressed := 0, pressedEnter := false, pressedHome := false, pressedEnd := false,
    pressedDelete := false, downDelete := false, pressedBackspace := false,
    downBackspace := false, pressedLeft := false, downLeft := false, pressedRight := false,
    downRight := false, downUp := false, downDown := false, mouseInBounds := true,
    mouseLeftPressed := false, mouseTextIndex := none }

/-- The variables of the edit-mode block of `GuiTextBox`: the buffer, the two globals it
updates, and the locals `textLength`, `codepointSize`. -/
structure Edit where
  text : Buf
  textBoxCursorIndex : Int
  autoCursorDelayCounter : Int
  textLength : Int
  codepointSize : Int
  utf8 : Buf
  deriving DecidableEq

/-- The loop `for (int i = textLength + codepointSize; i > textBoxCursorIndex; i--)
text[i] = text[i - codepointSize];` with `n` iterations left: `i = cursor + n`. -/
def moveForward (codepointSize cursor : Int) : Nat → Buf → Buf
  | 0, t => t
  | n + 1, t =>
    moveForward codepointSize cursor n
      (wr t (cursor + ((n + 1 : Nat) : Int)) (rd t (cursor + ((n + 1 : Nat) : Int) - codepointSize)))

/-- The loop `for (int i = 0; i < codepointSize; i++) text[textBoxCursorIndex + i] =
charEncoded[i];` with `n` iterations left and loop variable `i`. -/
def copyEncoded (charEncoded : Buf) (cursor : Int) : Nat → Int → Buf → Buf
  | 0, _, t => t
  | n + 1, i, t => copyEncoded charEncoded cursor n (i + 1) (wr t (cursor + i) (rd charEncoded i))

/-- The loop `for (int i = start; i < textLength; i++) text[i] = text[i + size];` with `n`
iterations left and loop variable `i`. -/
def moveBackward (size : Int) : Nat → Int → Buf → Buf
  | 0, _, t => t
  | n + 1, i, t => moveBackward size n (i + 1) (wr t i (rd t (i + size)))

/-- Encoding of the typed codepoint and the "add codepoint to text" block. -/
def insertStep (bufferSize codepoint : Int) (e : Edit) : Edit :=
  let enc := CodepointToUTF8 e.utf8 codepoint
  let charEncoded := enc.1
  let codepointSize := enc.2
  let e1 : Edit := { e with utf8 := charEncoded, codepointSize := codepointSize }
  if ((multiline = true ∧ codepoint = 10) ∨ codepoint ≥ 32)
      ∧ (e.textLength + codepointSize) < bufferSize then
    let t1 := moveForward codepointSize e.textBoxCursorIndex
      ((e.textLength + codepointSize) - e.textBoxCursorIndex).toNat e.text
    let t2 := copyEncoded charEncoded e.textBoxCursorIndex codepointSize.toNat 0 t1
    let textLength := e.textLength + codepointSize
    { e1 with
      text := wr t2 textLength 0
      textBoxCursorIndex := e.textBoxCursorIndex + codepointSize
      textLength := textLength }
  else e1

/-- The "move cursor to start" line. -/
def homeStep (inp : TextBoxInput) (e : Edit) : Edit :=
  if e.textLength > 0 ∧ inp.pressedHome = true then { e with textBoxCursorIndex := 0 } else e

/-- The "move cursor to end" line. -/
def endStep (inp : TextBoxInput) (e : Edit) : Edit :=
  if e.textLength > e.textBoxCursorIndex ∧ inp.pressedEnd = true then
    { e with textBoxCursorIndex := e.textLength }
  else e

/-- The "delete codepoint from text, after current cursor position" block. -/
def deleteStep (inp : TextBoxInput) (cooldown : Int) (e : Edit) : Edit :=
  if e.textLength > e.textBoxCursorIndex ∧ (inp.pressedDelete = true ∨
      (inp.downDelete = true ∧ cooldown ≥ RAYGUI_TEXTBOX_AUTO_CURSOR_COOLDOWN)) then
    let e1 : Edit := { e with autoCursorDelayCounter := e.autoCursorDelayCounter + 1 }
    if inp.pressedDelete = true ∨
        Int.tmod e1.autoCursorDelayCounter RAYGUI_TEXTBOX_AUTO_CURSOR_DELAY = 0 then
      let nextCodepointSize := (GetCodepointNext e1.text e1.textBoxCursorIndex).2
      let t1 := moveBackward nextCodepointSize
        (e1.textLength - e1.textBoxCursorIndex).toNat e1.textBoxCursorIndex e1.text
      let textLength := e1.textLength - e1.codepointSize
      { e1 with text := wr t1 textLength 0, textLength := textLength }
    else e1
  else e

/-- The "delete codepoint from text, before current cursor position" block. -/
def backspaceStep (inp : TextBoxInput) (cooldown : Int) (e : Edit) : Edit :=
  if e.textLength > 0 ∧ (inp.pressedBackspace = true ∨
      (inp.downBackspace = true ∧ cooldown ≥ RAYGUI_TEXTBOX_AUTO_CURSOR_COOLDOWN)) then
    let e1 : Edit := { e with autoCursorDelayCounter := e.autoCursorDelayCounter + 1 }
    if inp.pressedBackspace = true ∨
        Int.tmod e1.autoCursorDelayCounter RAYGUI_TEXTBOX_AUTO_CURSOR_DELAY = 0 then
      let prevCodepointSize := (GetCodepointPrevious e1.text e1.textBoxCursorIndex).2
      let t1 := moveBackward prevCodepointSize
        (e1.textLength - (e1.textBoxCursorIndex - prevCodepointSize)).toNat
        (e1.textBoxCursorIndex - prevCodepointSize) e1.text
      let e2 : Edit :=
        if e1.textBoxCursorIndex > 0 then
          { e1 with
            text := t1
            textBoxCursorIndex := e1.textBoxCursorIndex - e1.codepointSize
            textLength := e1.textLength - e1.codepointSize }
        else { e1 with text := t1 }
      { e2 with text := wr e2.text e2.textLength 0 }
    else e1
  else e

/-- The "move cursor position with keys" block. -/
def arrowStep (inp : TextBoxInput) (cooldown : Int) (e : Edit) : Edit :=
  if inp.pressedLeft = true ∨
      (inp.downLeft = true ∧ cooldown > RAYGUI_TEXTBOX_AUTO_CURSOR_COOLDOWN) then
    let e1 : Edit := { e with autoCursorDelayCounter := e.autoCursorDelayCounter + 1 }
    if inp.pressedLeft = true ∨
        Int.tmod e1.autoCursorDelayCounter RAYGUI_TEXTBOX_AUTO_CURSOR_DELAY = 0 then
      let prevCodepointSize := (GetCodepointPrevious e1.text e1.textBoxCursorIndex).2
      if e1.textBoxCursorIndex ≥ prevCodepointSize then
        { e1 with textBoxCursorIndex := e1.textBoxCursorIndex - prevCodepointSize }
      else e1
    else e1
  else if inp.pressedRight = true ∨
      (inp.downRight = true ∧ cooldown > RAYGUI_TEXTBOX_AUTO_CURSOR_COOLDOWN) then
    let e1 : Edit := { e with autoCursorDelayCounter := e.autoCursorDelayCounter + 1 }
    if inp.pressedRight = true ∨
        Int.tmod e1.autoCursorDelayCounter RAYGUI_TEXTBOX_AUTO_CURSOR_DELAY = 0 then
      let nextCodepointSize := (GetCodepointNext e1.text e1.textBoxCursorIndex).2
      if (e1.textBoxCursorIndex + nextCodepointSize) ≤ e1.textLength then
        { e1 with textBoxCursorIndex := e1.textBoxCursorIndex + nextCodepointSize }
      else e1
    else e1
  else e

/-- The "place cursor at required index on mouse click" line. -/
def mouseStep (inp : TextBoxInput) (e : Edit) : Edit :=
  match inp.mouseTextIndex with
  | some k => if inp.mouseLeftPressed = true then { e with textBoxCursorIndex := k } else e
  | none => e

/-- The "finish text editing on ENTER or mouse click outside bounds" block: the cursor
index and `result`. -/
def exitStep (inp : TextBoxInput) (e : Edit) : Edit × Int :=
  if (multiline = false ∧ inp.pressedEnter = true) ∨
      (inp.mouseInBounds = false ∧ inp.mouseLeftPressed = true) then
    ({ e with textBoxCursorIndex := 0 }, 1)
  else (e, 0)

/-- The update part of `GuiTextBox(bounds, text, bufferSize, editMode)` without the loop
`while (textWidth >= textBounds.width)` at the start of its edit-mode block: the globals
and the buffer after the call, and the value returned, once that loop has exited.
`editable` is the outcome of the condition that guards the update (state not disabled, text
box not read-only, GUI not locked, no slider dragged, wrap mode none). The loop, which
computes the text index offset used by drawing and the glyph scan and which has to exit for
the call to return, is `textIndexOffsetLoop`; the call as a whole, with `bounds` and the
font, is `GuiTextBoxCall`. The drawing part is left out. -/
def GuiTextBox (bufferSize : Int) (editMode editable : Bool) (inp : TextBoxInput)
    (s : TextBoxState) : TextBoxState × Int :=
  let keyDown := inp.downLeft = true ∨ inp.downRight = true ∨ inp.downUp = true
    ∨ inp.downDown = true ∨ inp.downBackspace = true ∨ inp.downDelete = true
  let cooldown : Int := if keyDown then s.autoCursorCooldownCounter + 1 else 0
  let delay : Int := if keyDown then s.autoCursorDelayCounter else 0
  let s1 : TextBoxState :=
    { s with autoCursorCooldownCounter := cooldown, autoCursorDelayCounter := delay }
  if editable = true then
    if editMode = true then
      let textLength : Int := (strlen s1.text : Nat)
      let codepoint : Int :=
        if multiline = true ∧ inp.pressedEnter = true then 10 else inp.charPressed
      let cursor :=
        if s1.textBoxCursorIndex > textLength then textLength else s1.textBoxCursorIndex
      let e0 : Edit :=
        { text := s1.text, textBoxCursorIndex := cursor, autoCursorDelayCounter := delay,
          textLength := textLength, codepointSize := 0, utf8 := s1.utf8 }
      let e1 := insertStep bufferSize codepoint e0
      let e2 := homeStep inp e1
      let e3 := endStep inp e2
      let e4 := deleteStep inp cooldown e3
      let e5 := backspaceStep inp cooldown e4
      let e6 := arrowStep inp cooldown e5
      let e7 := mouseStep inp e6
      let r := exitStep inp e7
      ({ text := r.1.text, textBoxCursorIndex := r.1.textBoxCursorIndex,
         autoCursorCooldownCounter := cooldown,
         autoCursorDelayCounter := r.1.autoCursorDelayCounter, utf8 := r.1.utf8 }, r.2)
    else if inp.mouseInBounds = true ∧ inp.mouseLeftPressed = true then
      ({ s1 with textBoxCursorIndex := (strlen s1.text : Nat) }, 1)
    else (s1, 0)
  else (s1, 0)

/-- The bytes of `text` from offset `i` on form a sequence of codepoints that
`GetCodepointNext` decodes without error up to the terminating NUL (`n` bounds the number
of codepoints): the text is well-formed UTF-8 from `i`, and `i` is a codepoint boundary. -/
def wellFormedFrom (text : Buf) : Nat → Int → Bool
  | 0, i => rd text i = 0
  | n + 1, i =>
    if rd text i = 0 then true
    else
      let r := GetCodepointNext text i
      let b := rd text i
      if r.2 = 1 ∧ ¬ (b < 0x80) then false
      else wellFormedFrom text n (i + r.2)

/-- The offsets at which `GetCodepointNext`, started at offset `i` and advanced by the size
it reports, begins a codepoint, up to and including the offset of the terminating NUL
(`n` bounds the number of codepoints): the codepoint boundaries of the text. -/
def boundaries (text : Buf) : Nat → Int → List Int
  | 0, i => [i]
  | n + 1, i =>
    if rd text i = 0 then [i]
    else i :: boundaries text n (i + (GetCodepointNext text i).2)

/-- The text is well-formed UTF-8 up to its terminating NUL. -/
def wellFormed (text : Buf) : Bool := wellFormedFrom text text.length 0

/-- The offset `i` is a codepoint boundary of the text (the offset of the NUL included). -/
def isBoundary (text : Buf) (i : Int) : Bool := (boundaries text text.length 0).contains i

/-- An edit frame in which only Backspace is pressed. -/
def backspaceInput : TextBoxInput :=
  { noInput with pressedBackspace := true, downBackspace := true }

/-- The text "aé" (`61 C3 A9`) in a buffer of 8 bytes with the cursor at its end. -/
def textAE : TextBoxState :=
  { text := [0x61, 0xC3, 0xA9, 0, 0, 0, 0, 0], textBoxCursorIndex := 3,
    autoCursorCooldownCounter := 0, autoCursorDelayCounter := 0, utf8 := [0, 0, 0, 0, 0, 0] }

/-- The text "éé" (`C3 A9 C3 A9`) in a buffer of 8 bytes with the cursor between the two
codepoints. -/
def textEE : TextBoxState :=
  { text := [0xC3, 0xA9, 0xC3, 0xA9, 0, 0, 0, 0], textBoxCursorIndex := 2,
    autoCursorCooldownCounter := 0, autoCursorDelayCounter := 0, utf8 := [0, 0, 0, 0, 0, 0] }

/-- The text "é" (`C3 A9`) in a buffer of 8 bytes with the cursor at its end. -/
def textE : TextBoxState :=
  { text := [0xC3, 0xA9, 0, 0, 0, 0, 0, 0], textBoxCursorIndex := 2,
    autoCursorCooldownCounter := 0, autoCursorDelayCounter := 0, utf8 := [0, 0, 0, 0, 0, 0] }

/-- An edit frame in which only the character 'd' is typed. -/
def typeD : TextBoxInput := { noInput with charPressed := 100 }

/-- The text "abc" filling a buffer of 4 bytes, with the cursor at its end. -/
def textABC : TextBoxState :=
  { text := [0x61, 0x62, 0x63, 0], textBoxCursorIndex := 3,
    autoCursorCooldownCounter := 0, autoCursorDelayCounter := 0, utf8 := [0, 0, 0, 0, 0, 0] }

/-- A continuation byte `10xxxxxx`, that is `0x80..0xBF`. -/
def isContinuation (b : Nat) : Bool := decide (0x80 ≤ b ∧ b ≤ 0xBF)

/-! ## Session state, geometry and input

Coordinates and values of C type `float` are rationals: arithmetic on them is exact, a
division by zero yields 0, and the cast `(int)x` truncates towards zero. -/

-- GuiState
def STATE_NORMAL : Int := 0
def STATE_FOCUSED : Int := 1
def STATE_PRESSED : Int := 2
def STATE_DISABLED : Int := 3

def TEXT_WRAP_NONE : Int := 0

structure Vector2 where
  x : ℚ
  y : ℚ
  deriving DecidableEq

structure Rectangle where
  x : ℚ
  y : ℚ
  width : ℚ
  height : ℚ
  deriving DecidableEq

/-- The rectangle `{ 0, 0, 0, 0 }`. -/
def zeroRectangle : Rectangle := ⟨0, 0, 0, 0⟩

/-- `CheckCollisionPointRec(point, rec)`. -/
def CheckCollisionPointRec (point : Vector2) (r : Rectangle) : Bool :=
  decide ((point.x ≥ r.x) ∧ (point.x ≤ (r.x + r.width)) ∧
    (point.y ≥ r.y) ∧ (point.y ≤ (r.y + r.height)))

/-- The macro `CHECK_BOUNDS_ID(src, dst)`. -/
def CHECK_BOUNDS_ID (src dst : Rectangle) : Bool :=
  decide ((src.x = dst.x) ∧ (src.y = dst.y) ∧ (src.width = dst.width) ∧
    (src.height = dst.height))

/-- The cast `(int)x` of a `float`: truncation towards zero. -/
def truncToInt (q : ℚ) : Int := if 0 ≤ q then Int.floor q else Int.ceil q

/-- The globals `guiState`, `guiLocked`, `guiSliderDragging`, `guiSliderActive`. -/
structure GuiSession where
  guiState : Int
  guiLocked : Bool
  guiSliderDragging : Bool
  guiSliderActive : Rectangle
  deriving DecidableEq

/-- The session globals at program start. -/
def initialSession : GuiSession :=
  { guiState := STATE_NORMAL, guiLocked := false, guiSliderDragging := false,
    guiSliderActive := zeroRectangle }

def GuiEnable (g : GuiSession) : GuiSession :=
  if g.guiState = STATE_DISABLED then { g with guiState := STATE_NORMAL } else g

def GuiDisable (g : GuiSession) : GuiSession :=
  if g.guiState = STATE_NORMAL then { g with guiState := STATE_DISABLED } else g

def GuiLock (g : GuiSession) : GuiSession := { g with guiLocked := true }

def GuiUnlock (g : GuiSession) : GuiSession := { g with guiLocked := false }

def GuiSetState (g : GuiSession) (state : Int) : GuiSession := { g with guiState := state }

/-- What a control polls from the input backend during one call: `GetMousePosition()`,
`IsMouseButtonDown/Pressed/Released(MOUSE_LEFT_BUTTON)`, `GetMouseWheelMove()`,
`GetCharPressed()`, and the keys the controls below look at. -/
structure GuiInput where
  mousePosition : Vector2
  mouseLeftDown : Bool
  mouseLeftPressed : Bool
  mouseLeftReleased : Bool
  mouseWheelMove : ℚ
  charPressed : Int
  keyPressedBackspace : Bool
  keyPressedEnter : Bool
  keyDownLeftControl : Bool
  keyDownLeftShift : Bool
  deriving DecidableEq

/-- The value `GuiGetStyle(control, property)` returns on a loaded style table. -/
def getStyle (st : StyleState) (control property : Nat) : Int :=
  toInt32 (st.guiStyle (slot control property))

/-- The condition that guards the update part of `GuiTextBox`: state not disabled, text
box not read-only, GUI not locked, no slider dragged, wrap mode none. -/
def textBoxEditable (st : StyleState) (g : GuiSession) : Bool :=
  decide ((g.guiState ≠ STATE_DISABLED) ∧
    getStyle st TEXTBOX TEXT_READONLY = 0 ∧
    g.guiLocked = false ∧
    g.guiSliderDragging = false ∧
    (getStyle st DEFAULT TEXT_WRAP_MODE = TEXT_WRAP_NONE))

/-- The update part of `GuiButton(bounds, text)`: the derived `state` and `result`. -/
def GuiButton (g : GuiSession) (inp : GuiInput) (bounds : Rectangle) : Int × Int :=
  let state := g.guiState
  if (state ≠ STATE_DISABLED) ∧ g.guiLocked = false ∧ g.guiSliderDragging = false then
    if CheckCollisionPointRec inp.mousePosition bounds = true then
      let state1 := if inp.mouseLeftDown = true then STATE_PRESSED else STATE_FOCUSED
      let result := if inp.mouseLeftReleased = true then 1 else 0
      (state1, result)
    else (state, 0)
  else (state, 0)

/-! ## Value box (`GuiValueBox`) -/

def RAYGUI_VALUEBOX_MAX_CHARS : Int := 32

/-- The loop of `TextToInteger`: `value = value*10 + (text[i] - '0')` while `text[i]` is a
digit; the end of the list stands for the terminating NUL. Overflow of `int` (undefined
behaviour in C) is not modelled. -/
def TextToIntegerLoop : List Nat → Int → Int
  | [], value => value
  | c :: rest, value =>
    if (c ≥ 48) ∧ (c ≤ 57) then TextToIntegerLoop rest (value * 10 + ((c : Int) - 48))
    else value

/-- `TextToInteger(text)`. -/
def TextToInteger (text : List Nat) : Int :=
  match text with
  | c :: rest =>
    if c = 43 ∨ c = 45 then
      TextToIntegerLoop rest 0 * (if c = 45 then -1 else 1)
    else TextToIntegerLoop text 0
  | [] => 0

/-- The characters `sprintf(textValue, "%i", value)` writes before the NUL. -/
def formatInt (value : Int) : List Nat :=
  if value < 0 then 45 :: (Nat.toDigits 10 value.natAbs).map Char.toNat
  else (Nat.toDigits 10 value.natAbs).map Char.toNat

/-- The update part of `GuiValueBox(bounds, text, value, minValue, maxValue, editMode)`:
`*value` after the call, the derived `state` and `result`. `GetTextWidth` is the text
measure of the current font. -/
def GuiValueBox (GetTextWidth : List Nat → Int) (g : GuiSession) (inp : GuiInput)
    (bounds : Rectangle) (value minValue maxValue : Int) (editMode : Bool) :
    Int × Int × Int :=
  let state := g.guiState
  let textValue := formatInt value
  if (state ≠ STATE_DISABLED) ∧ g.guiLocked = false ∧ g.guiSliderDragging = false then
    if editMode = true then
      let keyCount : Int := (textValue.length : Nat)
      let typed : Bool :=
        decide (keyCount < RAYGUI_VALUEBOX_MAX_CHARS ∧
          ((GetTextWidth textValue : Int) : ℚ) < bounds.width ∧
          (inp.charPressed ≥ 48) ∧ (inp.charPressed ≤ 57))
      let textValue1 := if typed = true then textValue ++ [toChar inp.charPressed] else textValue
      let erased : Bool := decide (textValue1.length > 0 ∧ inp.keyPressedBackspace = true)
      let textValue2 := if erased = true then textValue1.dropLast else textValue1
      let valueHasChanged := typed || erased
      let value1 := if valueHasChanged = true then TextToInteger textValue2 else value
      let result : Int :=
        if inp.keyPressedEnter = true ∨
            (CheckCollisionPointRec inp.mousePosition bounds = false ∧
              inp.mouseLeftPressed = true) then 1 else 0
      (value1, STATE_PRESSED, result)
    else
      let value1 :=
        if value > maxValue then maxValue else if value < minValue then minValue else value
      if CheckCollisionPointRec inp.mousePosition bounds = true then
        (value1, STATE_FOCUSED, if inp.mouseLeftPressed = true then 1 else 0)
      else (value1, state, 0)
  else (value, state, 0)

/-! ## Sliders and color bars -/

/-- What a drag-capable control leaves behind: the session globals, the bound value, the
derived `state`. -/
structure DragResult where
  session : GuiSession
  value : ℚ
  state : Int
  deriving DecidableEq

/-- The clamp at the end of the update part of `GuiSliderPro`. -/
def clampSlider (value minValue maxValue : ℚ) : ℚ :=
  if value > maxValue then maxValue else if value < minValue then minValue else value

/-- The expression `((maxValue - minValue)*(mousePoint.x - (float)(bounds.x +
sliderWidth/2)))/(float)(bounds.width - sliderWidth) + minValue` of `GuiSliderPro`;
`sliderWidth/2` is a division of `int`. -/
def sliderValueAt (mouseX : ℚ) (bounds : Rectangle) (minValue maxValue : ℚ)
    (sliderWidth : Int) : ℚ :=
  ((maxValue - minValue) * (mouseX - (bounds.x + ((Int.tdiv sliderWidth 2 : Int) : ℚ))))
    / (bounds.width - (sliderWidth : ℚ)) + minValue

/-- The update part of `GuiSliderPro(bounds, textLeft, textRight, value, minValue,
maxValue, sliderWidth)` for a non-NULL `value`. -/
def GuiSliderPro (st : StyleState) (g : GuiSession) (inp : GuiInput) (bounds : Rectangle)
    (value minValue maxValue : ℚ) (sliderWidth : Int) : DragResult :=
  let state := g.guiState
  let borderWidth : Int := getStyle st SLIDER BORDER_WIDTH
  let sliderPadding : Int := getStyle st SLIDER SLIDER_PADDING
  let sliderValue : Int :=
    truncToInt (((value - minValue) / (maxValue - minValue))
      * (bounds.width - ((2 * borderWidth : Int) : ℚ)))
  let slider0 : Rectangle :=
    { x := bounds.x, y := bounds.y + (borderWidth : ℚ) + (sliderPadding : ℚ), width := 0,
      height := bounds.height - ((2 * borderWidth : Int) : ℚ) - ((2 * sliderPadding : Int) : ℚ) }
  let slider : Rectangle :=
    if sliderWidth > 0 then
      { slider0 with
        x := slider0.x + ((sliderValue - Int.tdiv sliderWidth 2 : Int) : ℚ)
        width := (sliderWidth : ℚ) }
    else if sliderWidth = 0 then
      { slider0 with x := slider0.x + (borderWidth : ℚ), width := (sliderValue : ℚ) }
    else slider0
  if (state ≠ STATE_DISABLED) ∧ g.guiLocked = false then
    let mousePoint := inp.mousePosition
    let r : DragResult :=
      if g.guiSliderDragging = true then
        if inp.mouseLeftDown = true then
          if CHECK_BOUNDS_ID bounds g.guiSliderActive = true then
            { session := g
              value := sliderValueAt mousePoint.x bounds minValue maxValue sliderWidth
              state := STATE_PRESSED }
          else { session := g, value := value, state := state }
        else
          { session := { g with guiSliderDragging := false, guiSliderActive := zeroRectangle }
            value := value, state := state }
      else if CheckCollisionPointRec mousePoint bounds = true then
        if inp.mouseLeftDown = true then
          let g1 : GuiSession := { g with guiSliderDragging := true, guiSliderActive := bounds }
          if CheckCollisionPointRec mousePoint slider = false then
            { session := g1
              value := sliderValueAt mousePoint.x bounds minValue maxValue sliderWidth
              state := STATE_PRESSED }
          else { session := g1, value := value, state := STATE_PRESSED }
        else { session := g, value := value, state := STATE_FOCUSED }
      else { session := g, value := value, state := state }
    { r with value := clampSlider r.value minValue maxValue }
  else { session := g, value := value, state := state }

/-- The lines `*alpha = (mousePoint.x - bounds.x)/bounds.width;` and the two clamps
after it in `GuiColorBarAlpha`. -/
def alphaAt (mouseX : ℚ) (bounds : Rectangle) : ℚ :=
  let a := (mouseX - bounds.x) / bounds.width
  let a1 := if a ≤ 0 then 0 else a
  if a1 ≥ 1 then 1 else a1

/-- The update part of `GuiColorBarAlpha(bounds, text, alpha)`. -/
def GuiColorBarAlpha (st : StyleState) (g : GuiSession) (inp : GuiInput) (bounds : Rectangle)
    (alpha : ℚ) : DragResult :=
  let state := g.guiState
  let selectorHeight : Int := getStyle st COLORPICKER HUEBAR_SELECTOR_HEIGHT
  let selectorOverflow : Int := getStyle st COLORPICKER HUEBAR_SELECTOR_OVERFLOW
  let selector : Rectangle :=
    { x := bounds.x + alpha * bounds.width - ((Int.tdiv selectorHeight 2 : Int) : ℚ)
      y := bounds.y - (selectorOverflow : ℚ)
      width := (selectorHeight : ℚ)
      height := bounds.height + ((selectorOverflow * 2 : Int) : ℚ) }
  if (state ≠ STATE_DISABLED) ∧ g.guiLocked = false then
    let mousePoint := inp.mousePosition
    if g.guiSliderDragging = true then
      if inp.mouseLeftDown = true then
        if CHECK_BOUNDS_ID bounds g.guiSliderActive = true then
          { session := g, value := alphaAt mousePoint.x bounds, state := STATE_PRESSED }
        else { session := g, value := alpha, state := state }
      else
        { session := { g with guiSliderDragging := false, guiSliderActive := zeroRectangle }
          value := alpha, state := state }
    else if CheckCollisionPointRec mousePoint bounds = true ∨
        CheckCollisionPointRec mousePoint selector = true then
      if inp.mouseLeftDown = true then
        { session := { g with guiSliderDragging := true, guiSliderActive := bounds }
          value := alphaAt mousePoint.x bounds, state := STATE_PRESSED }
      else { session := g, value := alpha, state := STATE_FOCUSED }
    else { session := g, value := alpha, state := state }
  else { session := g, value := alpha, state := state }

/-- The lines `*hue = (mousePoint.y - bounds.y)*360/bounds.height;` and the two clamps
after it in `GuiColorBarHue`. -/
def hueAt (mouseY : ℚ) (bounds : Rectangle) : ℚ :=
  let h := (mouseY - bounds.y) * 360 / bounds.height
  let h1 := if h ≤ 0 then 0 else h
  if h1 ≥ 359 then 359 else h1

/-- The update part of `GuiColorBarHue(bounds, text, hue)`. -/
def GuiColorBarHue (st : StyleState) (g : GuiSession) (inp : GuiInput) (bounds : Rectangle)
    (hue : ℚ) : DragResult :=
  let state := g.guiState
  let selectorHeight : Int := getStyle st COLORPICKER HUEBAR_SELECTOR_HEIGHT
  let selectorOverflow : Int := getStyle st COLORPICKER HUEBAR_SELECTOR_OVERFLOW
  let selector : Rectangle :=
    { x := bounds.x - (selectorOverflow : ℚ)
      y := bounds.y + hue / 360 * bounds.height - ((Int.tdiv selectorHeight 2 : Int) : ℚ)
      width := bounds.width + ((selectorOverflow * 2 : Int) : ℚ)
      height := (selectorHeight : ℚ) }
  if (state ≠ STATE_DISABLED) ∧ g.guiLocked = false then
    let mousePoint := inp.mousePosition
    if g.guiSliderDragging = true then
      if inp.mouseLeftDown = true then
        if CHECK_BOUNDS_ID bounds g.guiSliderActive = true then
          { session := g, value := hueAt mousePoint.y bounds, state := STATE_PRESSED }
        else { session := g, value := hue, state := state }
      else
        { session := { g with guiSliderDragging := false, guiSliderActive := zeroRectangle }
          value := hue, state := state }
    else if CheckCollisionPointRec mousePoint bounds = true ∨
        CheckCollisionPointRec mousePoint selector = true then
      if inp.mouseLeftDown = true then
        { session := { g with guiSliderDragging := true, guiSliderActive := bounds }
          value := hueAt mousePoint.y bounds, state := STATE_PRESSED }
      else { session := g, value := hue, state := STATE_FOCUSED }
    else { session := g, value := hue, state := state }
  else { session := g, value := hue, state := state }

/-! ## Scroll bar and scroll panel -/

def RAYGUI_WINDOWBOX_STATUSBAR_HEIGHT : Int := 24
def RAYGUI_MIN_SCROLLBAR_WIDTH : Int := 40
def RAYGUI_MIN_SCROLLBAR_HEIGHT : Int := 40
def SCROLLBAR_LEFT_SIDE : Int := 0

/-- What `GuiScrollBar` leaves behind: the session globals, the value returned, the derived
`state`, and the rectangles `scrollbar` and `slider` (the thumb) that it draws. -/
structure ScrollBarResult where
  session : GuiSession
  value : Int
  state : Int
  scrollbar : Rectangle
  slider : Rectangle
  deriving DecidableEq

/-- The expression `(int)(((float)(mouse - start - sliderLength/2)*valueRange)/(length -
sliderLength) + minValue)` that `GuiScrollBar` uses to place the value under the pointer. -/
def scrollValueAt (mouse start length sliderLength : ℚ) (valueRange minValue : Int) : Int :=
  truncToInt (((mouse - start - sliderLength / 2) * (valueRange : ℚ))
    / (length - sliderLength) + (minValue : ℚ))

/-- The two lines `if (value > maxValue) value = maxValue; if (value < minValue) value =
minValue;` of `GuiScrollBar`. -/
def normalizeValue (value minValue maxValue : Int) : Int :=
  let v := if value > maxValue then maxValue else value
  if v < minValue then minValue else v

/-- The body of the block `if ((state != STATE_DISABLED) && !guiLocked)` of `GuiScrollBar`
up to its final "normalize value" lines, given the rectangles, the normalized `value` and
the value `positionValue` of the pointer position computed before it: the session globals,
`value` and `state` it leaves. -/
def scrollBarUpdate (g : GuiSession) (inp : GuiInput)
    (bounds arrowUpLeft arrowDownRight slider : Rectangle)
    (value positionValue valueRange scrollSpeed : Int) : GuiSession × Int × Int :=
  let state := g.guiState
  let mousePoint := inp.mousePosition
  if g.guiSliderDragging = true then
    if inp.mouseLeftDown = true ∧
        CheckCollisionPointRec mousePoint arrowUpLeft = false ∧
        CheckCollisionPointRec mousePoint arrowDownRight = false then
      if CHECK_BOUNDS_ID bounds g.guiSliderActive = true then
        (g, positionValue, STATE_PRESSED)
      else (g, value, state)
    else
      ({ g with guiSliderDragging := false, guiSliderActive := zeroRectangle }, value, state)
  else if CheckCollisionPointRec mousePoint bounds = true then
    let wheel : Int := truncToInt inp.mouseWheelMove
    let value1 := if wheel ≠ 0 then value + wheel else value
    if inp.mouseLeftPressed = true then
      let g1 : GuiSession := { g with guiSliderDragging := true, guiSliderActive := bounds }
      let value2 :=
        if CheckCollisionPointRec mousePoint arrowUpLeft = true then
          value1 - Int.tdiv valueRange scrollSpeed
        else if CheckCollisionPointRec mousePoint arrowDownRight = true then
          value1 + Int.tdiv valueRange scrollSpeed
        else if CheckCollisionPointRec mousePoint slider = false then positionValue
        else value1
      (g1, value2, STATE_PRESSED)
    else (g, value1, STATE_FOCUSED)
  else (g, value, state)

/-- `GuiScrollBar(bounds, value, minValue, maxValue)` without the drawing calls. -/
def GuiScrollBar (st : StyleState) (g : GuiSession) (inp : GuiInput) (bounds : Rectangle)
    (value0 minValue maxValue : Int) : ScrollBarResult :=
  let state := g.guiState
  let borderWidth : Int := getStyle st SCROLLBAR BORDER_WIDTH
  let scrollPadding : Int := getStyle st SCROLLBAR SCROLL_PADDING
  let sliderPadding : Int := getStyle st SCROLLBAR SCROLL_SLIDER_PADDING
  let isVertical : Bool := if bounds.width > bounds.height then false else true
  let spinnerSize : Int :=
    if getStyle st SCROLLBAR ARROWS_VISIBLE ≠ 0 then
      (if isVertical = true then truncToInt bounds.width - 2 * borderWidth
       else truncToInt bounds.height - 2 * borderWidth)
    else 0
  let value := normalizeValue value0 minValue maxValue
  let valueRange : Int := maxValue - minValue
  let sliderSize0 : Int := getStyle st SCROLLBAR SCROLL_SLIDER_SIZE
  let arrowUpLeft : Rectangle :=
    { x := bounds.x + (borderWidth : ℚ), y := bounds.y + (borderWidth : ℚ),
      width := (spinnerSize : ℚ), height := (spinnerSize : ℚ) }
  let arrowDownRight : Rectangle :=
    if isVertical = true then
      { x := bounds.x + (borderWidth : ℚ)
        y := bounds.y + bounds.height - (spinnerSize : ℚ) - (borderWidth : ℚ)
        width := (spinnerSize : ℚ), height := (spinnerSize : ℚ) }
    else
      { x := bounds.x + bounds.width - (spinnerSize : ℚ) - (borderWidth : ℚ)
        y := bounds.y + (borderWidth : ℚ)
        width := (spinnerSize : ℚ), height := (spinnerSize : ℚ) }
  let scrollbar : Rectangle :=
    if isVertical = true then
      { x := bounds.x + (borderWidth : ℚ) + (scrollPadding : ℚ)
        y := arrowUpLeft.y + arrowUpLeft.height
        width := bounds.width - ((2 * (borderWidth + scrollPadding) : Int) : ℚ)
        height := bounds.height - arrowUpLeft.height - arrowDownRight.height
          - ((2 * borderWidth : Int) : ℚ) }
    else
      { x := arrowUpLeft.x + arrowUpLeft.width
        y := bounds.y + (borderWidth : ℚ) + (scrollPadding : ℚ)
        width := bounds.width - arrowUpLeft.width - arrowDownRight.width
          - ((2 * borderWidth : Int) : ℚ)
        height := bounds.height - ((2 * (borderWidth + scrollPadding) : Int) : ℚ) }
  let sliderSize : Int :=
    if isVertical = true then
      (if (sliderSize0 : ℚ) ≥ scrollbar.height then truncToInt scrollbar.height - 2
       else sliderSize0)
    else
      (if (sliderSize0 : ℚ) ≥ scrollbar.width then truncToInt scrollbar.width - 2
       else sliderSize0)
  let slider : Rectangle :=
    if isVertical = true then
      { x := bounds.x + (borderWidth : ℚ) + (sliderPadding : ℚ)
        y := scrollbar.y + ((truncToInt ((((value - minValue : Int) : ℚ) / (valueRange : ℚ))
          * (scrollbar.height - (sliderSize : ℚ))) : Int) : ℚ)
        width := bounds.width - ((2 * (borderWidth + sliderPadding) : Int) : ℚ)
        height := (sliderSize : ℚ) }
    else
      { x := scrollbar.x + ((truncToInt ((((value - minValue : Int) : ℚ) / (valueRange : ℚ))
          * (scrollbar.width - (sliderSize : ℚ))) : Int) : ℚ)
        y := bounds.y + (borderWidth : ℚ) + (sliderPadding : ℚ)
        width := (sliderSize : ℚ)
        height := bounds.height - ((2 * (borderWidth + sliderPadding) : Int) : ℚ) }
  let positionValue : Int :=
    if isVertical = true then
      scrollValueAt inp.mousePosition.y scrollbar.y scrollbar.height slider.height
        valueRange minValue
    else
      scrollValueAt inp.mousePosition.x scrollbar.x scrollbar.width slider.width
        valueRange minValue
  if (state ≠ STATE_DISABLED) ∧ g.guiLocked = false then
    let r := scrollBarUpdate g inp bounds arrowUpLeft arrowDownRight slider value positionValue
      valueRange (getStyle st SCROLLBAR SCROLL_SPEED)
    { session := r.1, value := normalizeValue r.2.1 minValue maxValue, state := r.2.2,
      scrollbar := scrollbar, slider := slider }
  else
    { session := g, value := value, state := state, scrollbar := scrollbar, slider := slider }

/-- What `GuiScrollPanel` leaves behind: the style table (restored at the end), the session
globals, `*scroll`, `*view`, the derived `state`, the rectangles passed as bounds to the two
`GuiScrollBar` calls, the `SCROLL_SLIDER_SIZE` set before each of them, and what these
calls did (`none` when the bar is not shown). -/
structure ScrollPanelResult where
  style : StyleState
  session : GuiSession
  scroll : Vector2
  view : Rectangle
  state : Int
  horizontalScrollBar : Rectangle
  verticalScrollBar : Rectangle
  horizontalSliderSize : Int
  verticalSliderSize : Int
  horizontal : Option ScrollBarResult
  vertical : Option ScrollBarResult

/-- The panel `bounds` of `GuiScrollPanel` after the two adjustments at its start: the
height raised to twice the status bar height, and the header bar cut off when `text` is
given (`hasText` is `text != NULL`). -/
def scrollPanelBounds (bounds0 : Rectangle) (hasText : Bool) : Rectangle :=
  let bounds1 : Rectangle :=
    if bounds0.height < ((RAYGUI_WINDOWBOX_STATUSBAR_HEIGHT : Int) : ℚ) * 2 then
      { bounds0 with height := ((RAYGUI_WINDOWBOX_STATUSBAR_HEIGHT : Int) : ℚ) * 2 }
    else bounds0
  if hasText = true then
    { bounds1 with
      y := bounds1.y + (((RAYGUI_WINDOWBOX_STATUSBAR_HEIGHT : Int) : ℚ) - 1)
      height := bounds1.height - (((RAYGUI_WINDOWBOX_STATUSBAR_HEIGHT : Int) : ℚ) + 1) }
  else bounds1

/-- The locals of `GuiScrollPanel` that describe its two scroll bars: whether each is
shown, the space each takes, the rectangles after the "minimum width/height" lines, and
the wheel speed these lines set. -/
structure ScrollPanelBars where
  hasHorizontalScrollBar : Bool
  hasVerticalScrollBar : Bool
  horizontalScrollBarWidth : Int
  verticalScrollBarWidth : Int
  horizontalScrollBar : Rectangle
  verticalScrollBar : Rectangle
  mouseWheelSpeed : ℚ

/-- The part of `GuiScrollPanel` from `bool hasHorizontalScrollBar = ...` to the end of the
block "Make sure scroll bars have a minimum width/height", on the adjusted `bounds`. -/
def scrollPanelBars (st : StyleState) (bounds content : Rectangle) : ScrollPanelBars :=
  let mouseWheelSpeed0 : ℚ := 20
  let borderWidth : Int := getStyle st DEFAULT BORDER_WIDTH
  let scrollBarWidth : Int := getStyle st LISTVIEW SCROLLBAR_WIDTH
  let leftSide : Bool := decide (getStyle st LISTVIEW SCROLLBAR_SIDE = SCROLLBAR_LEFT_SIDE)
  let hasH0 : Bool := decide (content.width > bounds.width - ((2 * borderWidth : Int) : ℚ))
  let hasV0 : Bool := decide (content.height > bounds.height - ((2 * borderWidth : Int) : ℚ))
  let hasHorizontalScrollBar : Bool :=
    if hasH0 = false then
      decide (hasV0 = true ∧ content.width >
        (bounds.width - ((2 * borderWidth : Int) : ℚ) - (scrollBarWidth : ℚ)))
    else hasH0
  let hasVerticalScrollBar : Bool :=
    if hasV0 = false then
      decide (hasHorizontalScrollBar = true ∧ content.height >
        (bounds.height - ((2 * borderWidth : Int) : ℚ) - (scrollBarWidth : ℚ)))
    else hasV0
  let horizontalScrollBarWidth : Int := if hasHorizontalScrollBar = true then scrollBarWidth else 0
  let verticalScrollBarWidth : Int := if hasVerticalScrollBar = true then scrollBarWidth else 0
  let horizontalScrollBar0 : Rectangle :=
    { x := (if leftSide = true then bounds.x + (verticalScrollBarWidth : ℚ) else bounds.x)
        + (borderWidth : ℚ)
      y := bounds.y + bounds.height - (horizontalScrollBarWidth : ℚ) - (borderWidth : ℚ)
      width := bounds.width - (verticalScrollBarWidth : ℚ) - ((2 * borderWidth : Int) : ℚ)
      height := (horizontalScrollBarWidth : ℚ) }
  let verticalScrollBar0 : Rectangle :=
    { x := (if leftSide = true then bounds.x + (borderWidth : ℚ)
        else bounds.x + bounds.width - (verticalScrollBarWidth : ℚ) - (borderWidth : ℚ))
      y := bounds.y + (borderWidth : ℚ)
      width := (verticalScrollBarWidth : ℚ)
      height := bounds.height - (horizontalScrollBarWidth : ℚ) - ((2 * borderWidth : Int) : ℚ) }
  let horizontalTooSmall : Bool :=
    decide (horizontalScrollBar0.width < ((RAYGUI_MIN_SCROLLBAR_WIDTH : Int) : ℚ))
  let horizontalScrollBar : Rectangle :=
    if horizontalTooSmall = true then
      { horizontalScrollBar0 with width := ((RAYGUI_MIN_SCROLLBAR_WIDTH : Int) : ℚ) }
    else horizontalScrollBar0
  let verticalTooSmall : Bool :=
    decide (verticalScrollBar0.height < ((RAYGUI_MIN_SCROLLBAR_HEIGHT : Int) : ℚ))
  let verticalScrollBar : Rectangle :=
    if verticalTooSmall = true then
      { verticalScrollBar0 with height := ((RAYGUI_MIN_SCROLLBAR_HEIGHT : Int) : ℚ) }
    else verticalScrollBar0
  let mouseWheelSpeed : ℚ :=
    if horizontalTooSmall = true ∨ verticalTooSmall = true then 30 else mouseWheelSpeed0
  { hasHorizontalScrollBar := hasHorizontalScrollBar
    hasVerticalScrollBar := hasVerticalScrollBar
    horizontalScrollBarWidth := horizontalScrollBarWidth
    verticalScrollBarWidth := verticalScrollBarWidth
    horizontalScrollBar := horizontalScrollBar
    verticalScrollBar := verticalScrollBar
    mouseWheelSpeed := mouseWheelSpeed }

/-- The argument of `GuiSetStyle(SCROLLBAR, SCROLL_SLIDER_SIZE, ...)` before each
`GuiScrollBar` call of `GuiScrollPanel`: `(int)(((length - 2*borderWidth - otherBar)
/(int)contentLength)*((int)length - 2*borderWidth - otherBar))`, where `length` is the
width or height of the panel and `otherBar` the space taken by the other scroll bar. -/
def scrollPanelSliderSize (length contentLength : ℚ) (borderWidth otherBar : Int) : Int :=
  truncToInt (((length - ((2 * borderWidth : Int) : ℚ) - (otherBar : ℚ))
      / ((truncToInt contentLength : Int) : ℚ))
    * ((truncToInt length - 2 * borderWidth - otherBar : Int) : ℚ))

/-- `GuiScrollPanel(bounds, text, content, scroll, view)` without the drawing calls, on a
loaded style table and for non-NULL `scroll` and `view`; `hasText` is `text != NULL`. -/
def GuiScrollPanel (st : StyleState) (g : GuiSession) (inp : GuiInput) (bounds0 : Rectangle)
    (hasText : Bool) (content : Rectangle) (scroll : Vector2) : ScrollPanelResult :=
  let state := g.guiState
  let scrollPos0 := scroll
  let bounds : Rectangle := scrollPanelBounds bounds0 hasText
  let borderWidth : Int := getStyle st DEFAULT BORDER_WIDTH
  let leftSide : Bool := decide (getStyle st LISTVIEW SCROLLBAR_SIDE = SCROLLBAR_LEFT_SIDE)
  let bars : ScrollPanelBars := scrollPanelBars st bounds content
  let hasHorizontalScrollBar : Bool := bars.hasHorizontalScrollBar
  let hasVerticalScrollBar : Bool := bars.hasVerticalScrollBar
  let horizontalScrollBarWidth : Int := bars.horizontalScrollBarWidth
  let verticalScrollBarWidth : Int := bars.verticalScrollBarWidth
  let horizontalScrollBar : Rectangle := bars.horizontalScrollBar
  let verticalScrollBar : Rectangle := bars.verticalScrollBar
  let mouseWheelSpeed : ℚ := bars.mouseWheelSpeed
  let view0 : Rectangle :=
    if leftSide = true then
      { x := bounds.x + (verticalScrollBarWidth : ℚ) + (borderWidth : ℚ)
        y := bounds.y + (borderWidth : ℚ)
        width := bounds.width - ((2 * borderWidth : Int) : ℚ) - (verticalScrollBarWidth : ℚ)
        height := bounds.height - ((2 * borderWidth : Int) : ℚ)
          - (horizontalScrollBarWidth : ℚ) }
    else
      { x := bounds.x + (borderWidth : ℚ)
        y := bounds.y + (borderWidth : ℚ)
        width := bounds.width - ((2 * borderWidth : Int) : ℚ) - (verticalScrollBarWidth : ℚ)
        height := bounds.height - ((2 * borderWidth : Int) : ℚ)
          - (horizontalScrollBarWidth : ℚ) }
  let view1 : Rectangle :=
    if view0.width > content.width then { view0 with width := content.width } else view0
  let view : Rectangle :=
    if view1.height > content.height then { view1 with height := content.height } else view1
  let horizontalMin : ℚ :=
    (if leftSide = true then (-(verticalScrollBarWidth : ℚ)) else 0) - (borderWidth : ℚ)
  let horizontalMax : ℚ :=
    if hasHorizontalScrollBar = true then
      content.width - bounds.width + (verticalScrollBarWidth : ℚ) + (borderWidth : ℚ)
        - (if leftSide = true then (verticalScrollBarWidth : ℚ) else 0)
    else -(borderWidth : ℚ)
  let verticalMin : ℚ := if hasVerticalScrollBar = true then 0 else -1
  let verticalMax : ℚ :=
    if hasVerticalScrollBar = true then
      content.height - bounds.height + (horizontalScrollBarWidth : ℚ) + (borderWidth : ℚ)
    else -(borderWidth : ℚ)
  let hovered : Bool :=
    decide ((state ≠ STATE_DISABLED) ∧ g.guiLocked = false ∧
      CheckCollisionPointRec inp.mousePosition bounds = true)
  let state1 : Int :=
    if hovered = true then
      (if inp.mouseLeftDown = true then STATE_PRESSED else STATE_FOCUSED)
    else state
  let wheelMove := inp.mouseWheelMove
  let scrollPos1 : Vector2 :=
    if hovered = true then
      if hasHorizontalScrollBar = true ∧
          (inp.keyDownLeftControl = true ∨ inp.keyDownLeftShift = true) then
        { scrollPos0 with x := scrollPos0.x + wheelMove * mouseWheelSpeed }
      else { scrollPos0 with y := scrollPos0.y + wheelMove * mouseWheelSpeed }
    else scrollPos0
  let x1 := if scrollPos1.x > -horizontalMin then -horizontalMin else scrollPos1.x
  let x2 := if x1 < -horizontalMax then -horizontalMax else x1
  let y1 := if scrollPos1.y > -verticalMin then -verticalMin else scrollPos1.y
  let y2 := if y1 < -verticalMax then -verticalMax else y1
  let slider : Int := getStyle st SCROLLBAR SCROLL_SLIDER_SIZE
  let horizontalSliderSize : Int :=
    scrollPanelSliderSize bounds.width content.width borderWidth verticalScrollBarWidth
  let stH : StyleState :=
    if hasHorizontalScrollBar = true then
      setStyleBody st SCROLLBAR SCROLL_SLIDER_SIZE horizontalSliderSize
    else st
  let horizontal : Option ScrollBarResult :=
    if hasHorizontalScrollBar = true then
      some (GuiScrollBar (setStyleBody st SCROLLBAR SCROLL_SLIDER_SIZE horizontalSliderSize)
        g inp horizontalScrollBar (truncToInt (-x2))
        (truncToInt horizontalMin) (truncToInt horizontalMax))
    else none
  let gH : GuiSession := match horizontal with
    | some r => r.session
    | none => g
  let x3 : ℚ := match horizontal with
    | some r => -((r.value : Int) : ℚ)
    | none => 0
  let verticalSliderSize : Int :=
    scrollPanelSliderSize bounds.height content.height
      (getStyle stH DEFAULT BORDER_WIDTH) horizontalScrollBarWidth
  let stV : StyleState :=
    if hasVerticalScrollBar = true then
      setStyleBody stH SCROLLBAR SCROLL_SLIDER_SIZE verticalSliderSize
    else stH
  let vertical : Option ScrollBarResult :=
    if hasVerticalScrollBar = true then
      some (GuiScrollBar (setStyleBody stH SCROLLBAR SCROLL_SLIDER_SIZE verticalSliderSize)
        gH inp verticalScrollBar (truncToInt (-y2))
        (truncToInt verticalMin) (truncToInt verticalMax))
    else none
  let gV : GuiSession := match vertical with
    | some r => r.session
    | none => gH
  let y3 : ℚ := match vertical with
    | some r => -((r.value : Int) : ℚ)
    | none => 0
  { style := setStyleBody stV SCROLLBAR SCROLL_SLIDER_SIZE slider
    session := gV
    scroll := { x := x3, y := y3 }
    view := view
    state := state1
    horizontalScrollBar := horizontalScrollBar
    verticalScrollBar := verticalScrollBar
    horizontalSliderSize := horizontalSliderSize
    verticalSliderSize := verticalSliderSize
    horizontal := horizontal
    vertical := vertical }

/-- The text "abcdef" filling a buffer of 7 bytes, with the cursor at its start. -/
def textABCDEF : TextBoxState :=
  { text := [0x61, 0x62, 0x63, 0x64, 0x65, 0x66, 0], textBoxCursorIndex := 0,
    autoCursorCooldownCounter := 0, autoCursorDelayCounter := 0, utf8 := [0, 0, 0, 0, 0, 0] }

/-- An edit frame in which only Delete is pressed. -/
def deleteInput : TextBoxInput := { noInput with pressedDelete := true, downDelete := true }

/-- An edit frame in which Delete is pressed and the character U+20AC (3 bytes in UTF-8)
comes out of the character queue. -/
def deleteEuroInput : TextBoxInput :=
  { noInput with charPressed := 0x20AC, pressedDelete := true, downDelete := true }

/-! ## Calls that touch the session globals -/

/-- A call of one of the four drag-capable controls with its arguments and the input it
polls, or of one of the setters of the global state. -/
inductive SessionCall where
  | sliderPro (st : StyleState) (inp : GuiInput) (bounds : Rectangle)
      (value minValue maxValue : ℚ) (sliderWidth : Int)
  | scrollBar (st : StyleState) (inp : GuiInput) (bounds : Rectangle)
      (value minValue maxValue : Int)
  | colorBarAlpha (st : StyleState) (inp : GuiInput) (bounds : Rectangle) (alpha : ℚ)
  | colorBarHue (st : StyleState) (inp : GuiInput) (bounds : Rectangle) (hue : ℚ)
  | enable
  | disable
  | lock
  | unlock
  | setState (state : Int)

/-- The session globals after a call. -/
def applyCall (g : GuiSession) : SessionCall → GuiSession
  | .sliderPro st inp bounds value minValue maxValue sliderWidth =>
    (GuiSliderPro st g inp bounds value minValue maxValue sliderWidth).session
  | .scrollBar st inp bounds value minValue maxValue =>
    (GuiScrollBar st g inp bounds value minValue maxValue).session
  | .colorBarAlpha st inp bounds alpha => (GuiColorBarAlpha st g inp bounds alpha).session
  | .colorBarHue st inp bounds hue => (GuiColorBarHue st g inp bounds hue).session
  | .enable => GuiEnable g
  | .disable => GuiDisable g
  | .lock => GuiLock g
  | .unlock => GuiUnlock g
  | .setState state => GuiSetState g state

/-- The `bounds` argument of a control call. -/
def callBounds : SessionCall → Option Rectangle
  | .sliderPro _ _ bounds _ _ _ _ => some bounds
  | .scrollBar _ _ bounds _ _ _ => some bounds
  | .colorBarAlpha _ _ bounds _ => some bounds
  | .colorBarHue _ _ bounds _ => some bounds
  | _ => none

/-- The session globals after a sequence of calls made from program start. -/
def runSession (calls : List SessionCall) : GuiSession := calls.foldl applyCall initialSession

/-- The value the spec gives a dragged slider: the linear map that sends pointer
`x = bounds.x` to `minValue` and `x = bounds.x + bounds.width - sliderWidth` to `maxValue`
(before the clamp). -/
def specSliderValueAt (mouseX : ℚ) (bounds : Rectangle) (minValue maxValue : ℚ)
    (sliderWidth : Int) : ℚ :=
  minValue + (maxValue - minValue) * (mouseX - bounds.x) / (bounds.width - (sliderWidth : ℚ))

/-- The value the spec gives a hovered scroll bar after `wheel` notches:
`clamp(value + wheel*(valueRange / SCROLL_SPEED), minValue, maxValue)`. -/
def specWheelValue (value wheel minValue maxValue scrollSpeed : Int) : Int :=
  normalizeValue (value + wheel * Int.tdiv (maxValue - minValue) scrollSpeed) minValue maxValue

/-- An input without any key or button, with the pointer at the given position. -/
def pointerAt (x y : ℚ) : GuiInput :=
  { mousePosition := ⟨x, y⟩, mouseLeftDown := false, mouseLeftPressed := false,
    mouseLeftReleased := false, mouseWheelMove := 0, charPressed := 0,
    keyPressedBackspace := false, keyPressedEnter := false, keyDownLeftControl := false,
    keyDownLeftShift := false }

/-- The default style, loaded on the zero-initialised table. -/
def defaultStyle : StyleState := loadDefaultBody initialStyle

/-- The session globals during a drag owned by the control with bounds `r`. -/
def draggingSession (r : Rectangle) : GuiSession :=
  { initialSession with guiSliderDragging := true, guiSliderActive := r }

/-- The three ways a call may treat the drag globals: leave them, end an active drag
(flag cleared, identifier reset to the zero rectangle), or start a drag while none is
active (flag set, identifier set to the bounds of the call). -/
def dragTransition (g g1 : GuiSession) (bounds : Option Rectangle) : Prop :=
  (g1.guiSliderDragging = g.guiSliderDragging ∧ g1.guiSliderActive = g.guiSliderActive) ∨
  (g.guiSliderDragging = true ∧ g1.guiSliderDragging = false ∧
    g1.guiSliderActive = zeroRectangle) ∨
  (g.guiSliderDragging = false ∧ g1.guiSliderDragging = true ∧
    bounds = some g1.guiSliderActive)

/-- The scroll panel of the scenario "content far larger than bounds": panel
`{0, 0, 200, 40}` without header, content 100 x 100000, default style (configured
`SCROLL_SLIDER_SIZE` 16), pointer outside the panel, scroll offset zero. -/
def scrollPanelExample : ScrollPanelResult :=
  GuiScrollPanel defaultStyle initialSession (pointerAt 300 300) ⟨0, 0, 200, 40⟩ false
    ⟨0, 0, 100, 100000⟩ ⟨0, 0⟩

/-- The `GuiScrollBar` call `GuiScrollBar({187, 1, 12, 46}, 0, 0, 99953)` with
`SCROLL_SLIDER_SIZE` set to 0. -/
def scrollPanelExampleBar : ScrollBarResult :=
  GuiScrollBar (setStyleBody defaultStyle SCROLLBAR SCROLL_SLIDER_SIZE 0) initialSession
    (pointerAt 300 300) ⟨187, 1, 12, 46⟩ 0 0 99953

/-! ## Colour conversion -/

/-- The raylib type `Vector3`. -/
structure Vector3 where
  x : ℚ
  y : ℚ
  z : ℚ
  deriving DecidableEq

/-- `ConvertRGBtoHSV(rgb)`; the constant `0.00001f` is the rational `1/100000`. -/
def ConvertRGBtoHSV (rgb : Vector3) : Vector3 :=
  let min0 : ℚ := if rgb.x < rgb.y then rgb.x else rgb.y
  let min : ℚ := if min0 < rgb.z then min0 else rgb.z
  let max0 : ℚ := if rgb.x > rgb.y then rgb.x else rgb.y
  let max : ℚ := if max0 > rgb.z then max0 else rgb.z
  let delta : ℚ := max - min
  if delta < 1 / 100000 then { x := 0, y := 0, z := max }
  else if max > 0 then
    let hx : ℚ :=
      if rgb.x ≥ max then (rgb.y - rgb.z) / delta
      else if rgb.y ≥ max then 2 + (rgb.z - rgb.x) / delta
      else 4 + (rgb.x - rgb.y) / delta
    let hx60 : ℚ := hx * 60
    { x := if hx60 < 0 then hx60 + 360 else hx60, y := delta / max, z := max }
  else { x := 0, y := 0, z := max }

/-- `ConvertHSVtoRGB(hsv)`; `(long)hh` truncates towards zero, and the `switch` sends every
`i` other than 0..4 to its `case 5: default:` arm. -/
def ConvertHSVtoRGB (hsv : Vector3) : Vector3 :=
  if hsv.y ≤ 0 then { x := hsv.z, y := hsv.z, z := hsv.z }
  else
    let hh0 : ℚ := if hsv.x ≥ 360 then 0 else hsv.x
    let hh : ℚ := hh0 / 60
    let i : Int := truncToInt hh
    let ff : ℚ := hh - (i : ℚ)
    let p : ℚ := hsv.z * (1 - hsv.y)
    let q : ℚ := hsv.z * (1 - (hsv.y * ff))
    let t : ℚ := hsv.z * (1 - (hsv.y * (1 - ff)))
    if i = 0 then { x := hsv.z, y := t, z := p }
    else if i = 1 then { x := q, y := hsv.z, z := p }
    else if i = 2 then { x := p, y := hsv.z, z := t }
    else if i = 3 then { x := p, y := q, z := hsv.z }
    else if i = 4 then { x := t, y := p, z := hsv.z }
    else { x := hsv.z, y := p, z := q }

/-! ## Icon marker (`GetTextIcon`) -/

/-- The loop `while ((pos < 4) && (text[pos] >= '0') && (text[pos] <= '9'))
{ iconValue[pos - 1] = text[pos]; pos++; }` of `GetTextIcon` with `n` iterations left (it
runs at most 3 times from `pos = 1`): the buffer `iconValue` and `pos` after it. -/
def iconDigits (text : Buf) : Nat → Int → Buf → Buf × Int
  | 0, pos, iconValue => (iconValue, pos)
  | n + 1, pos, iconValue =>
    if pos < 4 ∧ rd text pos ≥ 48 ∧ rd text pos ≤ 57 then
      iconDigits text n (pos + 1) (wr iconValue (pos - 1) (rd text pos))
    else (iconValue, pos)

/-- `GetTextIcon(text, &iconId)` (icons compiled in): the number of bytes by which the
returned pointer is advanced from `text`, and `*iconId`. -/
def GetTextIcon (text : Buf) : Int × Int :=
  if rd text 0 = 35 then
    let r := iconDigits text 3 1 [0, 0, 0, 0]
    let pos := r.2
    if rd text pos = 35 then
      let iconId := TextToInteger r.1
      if iconId ≥ 0 then (pos + 1, iconId) else (0, iconId)
    else (0, -1)
  else (0, -1)

/-- The byte is a decimal digit `'0'..'9'`. -/
def isDigit (b : Nat) : Bool := decide (48 ≤ b ∧ b ≤ 57)

/-! ## Style files (`GuiLoadStyleFromMemory`) -/

/-- The `memcpy` of two bytes at `fileDataPtr + off` into a `short` (16 bits, two's
complement, little-endian). -/
def readInt16 (data : Buf) (off : Int) : Int :=
  let u : Int := ((rd data off + 256 * rd data (off + 1) : Nat) : Int)
  if u < 32768 then u else u - 65536

/-- The `memcpy` of four bytes at `fileDataPtr + off` into an `unsigned int` (32 bits,
little-endian). -/
def readUInt32 (data : Buf) (off : Int) : Nat :=
  rd data off + 256 * rd data (off + 1) + 65536 * rd data (off + 2)
    + 16777216 * rd data (off + 3)

/-- The `memcpy` of four bytes at `fileDataPtr + off` into an `int`. -/
def readInt32 (data : Buf) (off : Int) : Int := toInt32 (readUInt32 data off % 4294967296)

/-- The loop `for (int i = 1; i < RAYGUI_MAX_CONTROLS; i++) GuiSetStyle(i, (int)propertyId,
propertyValue);` of the style loader with `n` iterations left and loop variable `i`. -/
def setStyleControls (property : Nat) (value : Int) : Nat → Nat → StyleState → Option StyleState
  | 0, _, s => some s
  | n + 1, i, s =>
    match GuiSetStyle 3 s i property value with
    | none => none
    | some s1 => setStyleControls property value n (i + 1) s1

/-- The loop `for (int i = 0; i < propertyCount; i++)` of `GuiLoadStyleFromMemory` with `n`
iterations left and `fileDataPtr` at offset `off`: the style globals and the offset after
it. A negative control or property id (an index before `guiStyle`, undefined behaviour in
C) gives `none`. -/
def loadStyleProperties (data : Buf) : Nat → Int → StyleState → Option (StyleState × Int)
  | 0, off, s => some (s, off)
  | n + 1, off, s =>
    let controlId := readInt16 data off
    let propertyId := readInt16 data (off + 2)
    let propertyValue : Int := toInt32 (readUInt32 data (off + 2 + 2) % 4294967296)
    if controlId < 0 ∨ propertyId < 0 then none
    else
      let s1 : Option StyleState :=
        if controlId = 0 then
          match GuiSetStyle 3 s 0 propertyId.toNat propertyValue with
          | none => none
          | some s0 =>
            if propertyId < (RAYGUI_MAX_PROPS_BASE : Int) then
              setStyleControls propertyId.toNat propertyValue (RAYGUI_MAX_CONTROLS - 1) 1 s0
            else some s0
        else GuiSetStyle 3 s controlId.toNat propertyId.toNat propertyValue
      match s1 with
      | none => none
      | some s2 => loadStyleProperties data n (off + 8) s2

/-- `GuiLoadStyleFromMemory(fileData, dataSize)`, effect on the style globals. The font
section of the file acts on them only through `GuiSetFont`, which loads the default style
when the style is not loaded yet and the font it is given has a texture; `fontTexture` says
whether that font (loaded by raylib, or the default font) has `texture.id > 0`. -/
def GuiLoadStyleFromMemory (fontTexture : Bool) (s : StyleState) (fileData : Buf) :
    Option StyleState :=
  let propertyCount := readInt32 fileData (4 + 2 + 2)
  if rd fileData 0 = 114 ∧ rd fileData 1 = 71 ∧ rd fileData 2 = 83 ∧ rd fileData 3 = 32 then
    match loadStyleProperties fileData propertyCount.toNat 12 s with
    | none => none
    | some (s1, off) =>
      let fontDataSize := readInt32 fileData off
      if fontDataSize > 0 ∧ fontTexture = true ∧ s1.guiStyleLoaded = false then
        GuiLoadStyleDefault 3 s1
      else some s1
  else some s

/-- A style file with a good signature, version 400, one property record
(`BUTTON`, `BORDER_WIDTH`, 5) and no font. -/
def styleFileExample : Buf :=
  [114, 71, 83, 32, 144, 1, 0, 0, 1, 0, 0, 0,
   2, 0, 12, 0, 5, 0, 0, 0,
   0, 0, 0, 0]

/-- The same file with the signature "rGSx". -/
def styleFileBadSignature : Buf :=
  [114, 71, 83, 120, 144, 1, 0, 0, 1, 0, 0, 0,
   2, 0, 12, 0, 5, 0, 0, 0,
   0, 0, 0, 0]

/-! ## Toggle slider (`GuiToggleSlider`) -/

def RAYGUI_TEXTSPLIT_MAX_ITEMS : Int := 128
def RAYGUI_TEXTSPLIT_MAX_TEXT_SIZE : Nat := 1024

/-- The loop `for (int i = 0; i < RAYGUI_TEXTSPLIT_MAX_TEXT_SIZE; i++)` of `GuiTextSplit`
with `n` iterations left and loop variable `i`, reduced to the variable `counter`. -/
def textSplitCounter (text : Buf) (delimiter : Nat) : Nat → Int → Int → Int
  | 0, _, counter => counter
  | n + 1, i, counter =>
    if rd text i = 0 then counter
    else if rd text i = delimiter ∨ rd text i = 10 then
      if counter + 1 = RAYGUI_TEXTSPLIT_MAX_ITEMS then counter + 1
      else textSplitCounter text delimiter n (i + 1) (counter + 1)
    else textSplitCounter text delimiter n (i + 1) counter

/-- The `*count` that `GuiTextSplit(text, delimiter, &count, NULL)` reports. -/
def GuiTextSplitCount (text : Buf) (delimiter : Nat) : Int :=
  textSplitCounter text delimiter RAYGUI_TEXTSPLIT_MAX_TEXT_SIZE 0 1

/-- What `GuiToggleSlider` leaves behind: `*active`, the value returned and the derived
`state`. -/
structure ToggleSliderResult where
  active : Int
  result : Int
  state : Int
  deriving DecidableEq

/-- `GuiToggleSlider(bounds, text, active)` without the drawing calls, for non-NULL `text`
and `active`. -/
def GuiToggleSlider (g : GuiSession) (inp : GuiInput) (bounds : Rectangle) (text : Buf)
    (active : Int) : ToggleSliderResult :=
  let itemCount := GuiTextSplitCount text 59
  let r : ToggleSliderResult :=
    if (g.guiState ≠ STATE_DISABLED) ∧ g.guiLocked = false then
      let r1 : ToggleSliderResult :=
        if CheckCollisionPointRec inp.mousePosition bounds = true then
          if inp.mouseLeftDown = true then
            { active := active, result := 0, state := STATE_PRESSED }
          else if inp.mouseLeftReleased = true then
            { active := active + 1, result := 1, state := STATE_PRESSED }
          else { active := active, result := 0, state := STATE_FOCUSED }
        else { active := active, result := 0, state := g.guiState }
      if r1.active ≠ 0 ∧ r1.state ≠ STATE_FOCUSED then { r1 with state := STATE_PRESSED }
      else r1
    else { active := active, result := 0, state := g.guiState }
  if r.active ≥ itemCount then { r with active := 0 } else r

/-- The item text "A;B" (two items). -/
def textAB : Buf := [65, 59, 66, 0]

/-! ## Runs of frames of a text box -/

/-- The globals and the buffer after a run of frames with one edit-mode call of
`GuiTextBox` per frame (the update guard holds in every frame). -/
def runFrames (bufferSize : Int) (inputs : List TextBoxInput) (s : TextBoxState) :
    TextBoxState :=
  inputs.foldl (fun st inp => (GuiTextBox bufferSize true true inp st).1) s

/-- The inputs of `n` frames in which a key is pressed on frame 1 and then held. -/
def holdKey (pressed held : TextBoxInput) (n : Nat) : List TextBoxInput :=
  pressed :: List.replicate (n - 1) held

def leftPressed : TextBoxInput := { noInput with pressedLeft := true, downLeft := true }
def leftHeld : TextBoxInput := { noInput with downLeft := true }
def rightPressed : TextBoxInput := { noInput with pressedRight := true, downRight := true }
def rightHeld : TextBoxInput := { noInput with downRight := true }
def deleteHeld : TextBoxInput := { noInput with downDelete := true }
def backspaceHeld : TextBoxInput := { noInput with downBackspace := true }

/-- The text "abcdefgh" in a buffer of 16 bytes with the cursor after "abcd" and the
repeat counters at 0. -/
def textABCDEFGH : TextBoxState :=
  { text := [0x61, 0x62, 0x63, 0x64, 0x65, 0x66, 0x67, 0x68, 0, 0, 0, 0, 0, 0, 0, 0],
    textBoxCursorIndex := 4, autoCursorCooldownCounter := 0, autoCursorDelayCounter := 0,
    utf8 := [0, 0, 0, 0, 0, 0] }

/-! ## Text measuring and the mouse scan of `GuiTextBox`

The font enters through `glyphWidth`: for a codepoint, the value the code computes for the
local `glyphWidth` (the advance of its glyph, or the width of its rectangle, times the
scale factor). `spacing` is `GuiGetStyle(DEFAULT, TEXT_SPACING)`. -/

def RAYGUI_ICON_SIZE : Int := 16
def ICON_TEXT_PADDING : Int := 4
def MAX_LINE_BUFFER_SIZE : Nat := 256

/-- The loop `for (int i = 1; (i < 5) && (text[i] != '\0'); i++) if (text[i] == '#')
{ textIconOffset = i; break; }` of `GetTextWidth(text + off)` with `n` iterations left:
the value of `textIconOffset` after it. -/
def textIconOffsetLoop (text : Buf) (off : Int) : Nat → Int → Int
  | 0, _ => 0
  | n + 1, i =>
    if i < 5 ∧ rd text (off + i) ≠ 0 then
      if rd text (off + i) = 35 then i else textIconOffsetLoop text off n (i + 1)
    else 0

/-- The loop of `GetTextWidth` that counts the bytes before the first NUL or line break,
with `n` iterations left. -/
def lineSizeLoop (text : Buf) (base : Int) : Nat → Int → Int
  | 0, size => size
  | n + 1, size =>
    if rd text (base + size) ≠ 0 ∧ rd text (base + size) ≠ 10 then
      lineSizeLoop text base n (size + 1)
    else size

/-- The loop `for (int i = 0, codepointSize = 0; i < size; i += codepointSize)` of
`GetTextWidth` with `n` iterations left: the value of `textSize.x` after it. -/
def measureLoop (glyphWidth : Int → ℚ) (spacing : Int) (text : Buf) (base size : Int) :
    Nat → Int → ℚ → ℚ
  | 0, _, x => x
  | n + 1, i, x =>
    if i < size then
      measureLoop glyphWidth spacing text base size n
        (i + (GetCodepointNext text (base + i)).2)
        (x + (glyphWidth (GetCodepointNext text (base + i)).1 + (spacing : ℚ)))
    else x

/-- `GetTextWidth(text + off)` for a font with a texture. -/
def GetTextWidth (glyphWidth : Int → ℚ) (spacing : Int) (text : Buf) (off : Int) : Int :=
  if rd text off ≠ 0 then
    let textIconOffset : Int :=
      if rd text off = 35 then textIconOffsetLoop text off 4 1 else 0
    let base := off + textIconOffset
    let size := lineSizeLoop text base MAX_LINE_BUFFER_SIZE 0
    let x := measureLoop glyphWidth spacing text base size size.toNat 0 0
    let x1 : ℚ :=
      if textIconOffset > 0 then x + ((RAYGUI_ICON_SIZE - ICON_TEXT_PADDING : Int) : ℚ) else x
    truncToInt x1
  else 0

/-- The locals of the "move cursor position with mouse" block that its scan updates. -/
structure MouseScan where
  mouseCursorX : ℚ
  mouseCursorIndex : Int
  glyphWidth : ℚ
  widthToMouseX : ℚ
  deriving DecidableEq

/-- The loop `for (int i = textIndexOffset; i < textLength; i++)` of the mouse block with
`n` iterations left and loop variable `i`. -/
def mouseScanLoop (glyphWidth : Int → ℚ) (spacing : Int) (text : Buf)
    (textBoundsX mouseX : ℚ) : Nat → Int → MouseScan → MouseScan
  | 0, _, m => m
  | n + 1, i, m =>
    let gw := glyphWidth (GetCodepointNext text i).1
    if mouseX ≤ textBoundsX + (m.widthToMouseX + gw / 2) then
      { m with mouseCursorX := textBoundsX + m.widthToMouseX, mouseCursorIndex := i,
               glyphWidth := gw }
    else
      mouseScanLoop glyphWidth spacing text textBoundsX mouseX n (i + 1)
        { m with glyphWidth := gw, widthToMouseX := m.widthToMouseX + (gw + (spacing : ℚ)) }

/-- The scan of the mouse block of `GuiTextBox` for a pointer over the text bounds:
`some mouseCursorIndex` when it ends with `mouseCursor.x >= 0`, else `none`. This is the
input field `mouseTextIndex` of the text box. -/
def mouseCursorScan (glyphWidth : Int → ℚ) (spacing : Int) (text : Buf)
    (textIndexOffset : Int) (textBoundsX mouseX : ℚ) : Option Int :=
  let textLength : Int := (strlen text : Nat)
  let m0 : MouseScan :=
    { mouseCursorX := -1, mouseCursorIndex := 0, glyphWidth := 0, widthToMouseX := 0 }
  let m1 := mouseScanLoop glyphWidth spacing text textBoundsX mouseX
    (textLength - textIndexOffset).toNat textIndexOffset m0
  let textEndWidth := GetTextWidth glyphWidth spacing text textIndexOffset
  let m2 : MouseScan :=
    if mouseX ≥ textBoundsX + (textEndWidth : ℚ) - m1.glyphWidth / 2 then
      { m1 with mouseCursorX := textBoundsX + (textEndWidth : ℚ),
                mouseCursorIndex := (strlen text : Nat) }
    else m1
  if m2.mouseCursorX ≥ 0 then some m2.mouseCursorIndex else none

/-- The scan as the spec words it: glyphs are scanned codepoint by codepoint from the
first visible one (`i` advances by the size of the codepoint), and the result is the byte
offset of the first codepoint whose glyph centre the pointer has not passed (`n`
iterations left); `none` when the pointer has passed them all. -/
def specMouseScan (glyphWidth : Int → ℚ) (spacing : Int) (text : Buf)
    (textBoundsX mouseX : ℚ) : Nat → Int → ℚ → Option Int
  | 0, _, _ => none
  | n + 1, i, width =>
    if rd text i = 0 then none
    else if mouseX ≤ textBoundsX + (width + glyphWidth (GetCodepointNext text i).1 / 2) then
      some i
    else
      specMouseScan glyphWidth spacing text textBoundsX mouseX n
        (i + (GetCodepointNext text i).2)
        (width + (glyphWidth (GetCodepointNext text i).1 + (spacing : ℚ)))

/-- The text "éa" (`C3 A9 61`) in a buffer of 8 bytes with the cursor at 0. -/
def textEA : TextBoxState :=
  { text := [0xC3, 0xA9, 0x61, 0, 0, 0, 0, 0], textBoxCursorIndex := 0,
    autoCursorCooldownCounter := 0, autoCursorDelayCounter := 0, utf8 := [0, 0, 0, 0, 0, 0] }

/-- A font in which every glyph is 10 wide. -/
def glyphWidth10 : Int → ℚ := fun _ => 10

/-! ## Bytes read by the decoder -/

/-- The offsets, from the start of `text`, of the bytes that
`GetCodepointNext(text + off, &codepointSize)` reads, in the order of the first read. The
operator `||` of the "10xxxxxx checks" evaluates its right operand only when the left one
is 0, and the bytes of a sequence are read again only after all its checks passed. -/
def GetCodepointNextReads (text : Buf) (off : Int) : List Int :=
  let p0 := rd text off
  if 0xf0 = (0xf8 &&& p0) then
    if ((rd text (off + 1) &&& 0xC0) ^^^ 0x80) ≠ 0 then [off, off + 1]
    else if ((rd text (off + 2) &&& 0xC0) ^^^ 0x80) ≠ 0 then [off, off + 1, off + 2]
    else [off, off + 1, off + 2, off + 3]
  else if 0xe0 = (0xf0 &&& p0) then
    if ((rd text (off + 1) &&& 0xC0) ^^^ 0x80) ≠ 0 then [off, off + 1]
    else [off, off + 1, off + 2]
  else if 0xc0 = (0xe0 &&& p0) then [off, off + 1]
  else [off]

/-- The loop `for (int c = 0, codepointSize = 0; c < lineSize; c += codepointSize)` over a
text up to its terminating NUL, with `n` iterations left: the value of `c` when it ends
(or when the iterations run out). -/
def advanceBySize (text : Buf) : Nat → Int → Int
  | 0, c => c
  | n + 1, c =>
    if c < (strlen text : Nat) then advanceBySize text n (c + (GetCodepointNext text c).2)
    else c

/-! ## Buffer indices used by the edit operations -/

/-- The indices of `text` used by the loop `for (int i = textLength + codepointSize;
i > textBoxCursorIndex; i--) text[i] = text[i - codepointSize];` with `n` iterations left
(`i = cursor + n`): for each iteration the index read, then the index written. -/
def moveForwardAccesses (codepointSize cursor : Int) : Nat → List Int
  | 0 => []
  | n + 1 =>
    (cursor + ((n + 1 : Nat) : Int) - codepointSize) :: (cursor + ((n + 1 : Nat) : Int))
      :: moveForwardAccesses codepointSize cursor n

/-- The indices of `text` written by the loop `for (int i = 0; i < codepointSize; i++)
text[textBoxCursorIndex + i] = charEncoded[i];` with `n` iterations left. -/
def copyEncodedAccesses (cursor : Int) : Nat → Int → List Int
  | 0, _ => []
  | n + 1, i => (cursor + i) :: copyEncodedAccesses cursor n (i + 1)

/-- The indices of `text` used by the loop `for (int i = start; i < textLength; i++)
text[i] = text[i + size];` with `n` iterations left: the index read, then the one
written. -/
def moveBackwardAccesses (size : Int) : Nat → Int → List Int
  | 0, _ => []
  | n + 1, i => (i + size) :: i :: moveBackwardAccesses size n (i + 1)

/-- The indices of `text` used by the "add codepoint to text" block, in order. -/
def insertAccesses (bufferSize codepoint : Int) (e : Edit) : List Int :=
  let codepointSize := (CodepointToUTF8 e.utf8 codepoint).2
  if ((multiline = true ∧ codepoint = 10) ∨ codepoint ≥ 32)
      ∧ (e.textLength + codepointSize) < bufferSize then
    moveForwardAccesses codepointSize e.textBoxCursorIndex
        ((e.textLength + codepointSize) - e.textBoxCursorIndex).toNat
      ++ copyEncodedAccesses e.textBoxCursorIndex codepointSize.toNat 0
      ++ [e.textLength + codepointSize]
  else []

/-- The indices of `text` used by the Delete block, in order: the bytes `GetCodepointNext`
reads, the loop, and the final write of the NUL. -/
def deleteAccesses (inp : TextBoxInput) (cooldown : Int) (e : Edit) : List Int :=
  if e.textLength > e.textBoxCursorIndex ∧ (inp.pressedDelete = true ∨
      (inp.downDelete = true ∧ cooldown ≥ RAYGUI_TEXTBOX_AUTO_CURSOR_COOLDOWN)) then
    if inp.pressedDelete = true ∨
        Int.tmod (e.autoCursorDelayCounter + 1) RAYGUI_TEXTBOX_AUTO_CURSOR_DELAY = 0 then
      let nextCodepointSize := (GetCodepointNext e.text e.textBoxCursorIndex).2
      GetCodepointNextReads e.text e.textBoxCursorIndex
        ++ moveBackwardAccesses nextCodepointSize
            (e.textLength - e.textBoxCursorIndex).toNat e.textBoxCursorIndex
        ++ [e.textLength - e.codepointSize]
    else []
  else []

/-- The indices of `text` used by the statements of the Backspace block itself, in order:
the loop and the final write of the NUL (the reads made inside `GetCodepointPrevious` are
not listed). -/
def backspaceAccesses (inp : TextBoxInput) (cooldown : Int) (e : Edit) : List Int :=
  if e.textLength > 0 ∧ (inp.pressedBackspace = true ∨
      (inp.downBackspace = true ∧ cooldown ≥ RAYGUI_TEXTBOX_AUTO_CURSOR_COOLDOWN)) then
    if inp.pressedBackspace = true ∨
        Int.tmod (e.autoCursorDelayCounter + 1) RAYGUI_TEXTBOX_AUTO_CURSOR_DELAY = 0 then
      let prevCodepointSize := (GetCodepointPrevious e.text e.textBoxCursorIndex).2
      moveBackwardAccesses prevCodepointSize
          (e.textLength - (e.textBoxCursorIndex - prevCodepointSize)).toNat
          (e.textBoxCursorIndex - prevCodepointSize)
        ++ [if e.textBoxCursorIndex > 0 then e.textLength - e.codepointSize else e.textLength]
    else []
  else []

/-- The indices of `text` used by the insertion, Delete and Backspace blocks of one
edit-mode call of `GuiTextBox` whose update guard holds, in order. -/
def GuiTextBoxAccesses (bufferSize : Int) (inp : TextBoxInput) (s : TextBoxState) :
    List Int :=
  let keyDown := inp.downLeft = true ∨ inp.downRight = true ∨ inp.downUp = true
    ∨ inp.downDown = true ∨ inp.downBackspace = true ∨ inp.downDelete = true
  let cooldown : Int := if keyDown then s.autoCursorCooldownCounter + 1 else 0
  let delay : Int := if keyDown then s.autoCursorDelayCounter else 0
  let textLength : Int := (strlen s.text : Nat)
  let codepoint : Int :=
    if multiline = true ∧ inp.pressedEnter = true then 10 else inp.charPressed
  let cursor := if s.textBoxCursorIndex > textLength then textLength else s.textBoxCursorIndex
  let e0 : Edit :=
    { text := s.text, textBoxCursorIndex := cursor, autoCursorDelayCounter := delay,
      textLength := textLength, codepointSize := 0, utf8 := s.utf8 }
  let e1 := insertStep bufferSize codepoint e0
  let e3 := endStep inp (homeStep inp e1)
  let e4 := deleteStep inp cooldown e3
  insertAccesses bufferSize codepoint e0 ++ deleteAccesses inp cooldown e3
    ++ backspaceAccesses inp cooldown e4

/-- The empty text in a buffer of 8 bytes. -/
def textEmpty : TextBoxState :=
  { text := [0, 0, 0, 0, 0, 0, 0, 0], textBoxCursorIndex := 0,
    autoCursorCooldownCounter := 0, autoCursorDelayCounter := 0, utf8 := [0, 0, 0, 0, 0, 0] }

/-- The text "é" (`C3 A9`) filling a buffer of 3 bytes, with the cursor at its start. -/
def textEFull : TextBoxState :=
  { text := [0xC3, 0xA9, 0], textBoxCursorIndex := 0,
    autoCursorCooldownCounter := 0, autoCursorDelayCounter := 0, utf8 := [0, 0, 0, 0, 0, 0] }

/-- An edit frame in which only the character U+20AC (3 bytes in UTF-8) is typed. -/
def typeEuro : TextBoxInput := { noInput with charPressed := 0x20AC }

/-! ## The whole call of `GuiTextBox`: text bounds and the text index offset loop -/

/-- `GetTextBounds(control, bounds)`; every case of its `switch` falls through to
`default`. -/
def GetTextBounds (st : StyleState) (control : Nat) (bounds : Rectangle) : Rectangle :=
  let x0 : ℚ := bounds.x + (getStyle st control BORDER_WIDTH : ℚ)
  { x := if getStyle st control TEXT_ALIGNMENT = TEXT_ALIGN_RIGHT then
        x0 - (getStyle st control TEXT_PADDING : ℚ)
      else x0 + (getStyle st control TEXT_PADDING : ℚ)
    y := bounds.y + (getStyle st control BORDER_WIDTH : ℚ)
      + (getStyle st control TEXT_PADDING : ℚ)
    width := bounds.width - ((2 * getStyle st control BORDER_WIDTH : Int) : ℚ)
      - ((2 * getStyle st control TEXT_PADDING : Int) : ℚ)
    height := bounds.height - ((2 * getStyle st control BORDER_WIDTH : Int) : ℚ)
      - ((2 * getStyle st control TEXT_PADDING : Int) : ℚ) }

/-- The loop `while (textWidth >= textBounds.width) { GetCodepointNext(text +
textIndexOffset, &nextCodepointSize); textIndexOffset += nextCodepointSize; textWidth =
GetTextWidth(text + textIndexOffset) - GetTextWidth(text + textBoxCursorIndex); }` of
`GuiTextBox`, from the values of `textIndexOffset` and `textWidth` given, with `n` tests of
the loop condition left: `some textIndexOffset` when the loop exits, `none` when it is still
running after `n` tests. -/
def textIndexOffsetLoop (glyphWidth : Int → ℚ) (spacing : Int) (text : Buf)
    (textBoxCursorIndex : Int) (width : ℚ) : Nat → Int → Int → Option Int
  | 0, _, _ => none
  | n + 1, textIndexOffset, textWidth =>
    if (textWidth : ℚ) ≥ width then
      textIndexOffsetLoop glyphWidth spacing text textBoxCursorIndex width n
        (textIndexOffset + (GetCodepointNext text textIndexOffset).2)
        (GetTextWidth glyphWidth spacing text
            (textIndexOffset + (GetCodepointNext text textIndexOffset).2)
          - GetTextWidth glyphWidth spacing text textBoxCursorIndex)
    else some textIndexOffset

/-- The call `GuiTextBox(bounds, text, bufferSize, editMode)` as a whole, for a font with a
texture: `textBounds` and `textWidth` are computed on entry; under the guard of the update
and in edit mode the text index offset loop runs first, and the rest of the call is
`GuiTextBox`. The result is `none` when the loop has not exited after `fuel` tests of its
condition: the call has not returned. -/
def GuiTextBoxCall (fuel : Nat) (glyphWidth : Int → ℚ) (st : StyleState) (g : GuiSession)
    (bounds : Rectangle) (bufferSize : Int) (editMode : Bool) (inp : TextBoxInput)
    (s : TextBoxState) : Option (TextBoxState × Int) :=
  let textBounds := GetTextBounds st TEXTBOX bounds
  let spacing := getStyle st DEFAULT TEXT_SPACING
  let textWidth : Int := GetTextWidth glyphWidth spacing s.text 0
    - GetTextWidth glyphWidth spacing s.text s.textBoxCursorIndex
  if textBoxEditable st g = true ∧ editMode = true then
    match textIndexOffsetLoop glyphWidth spacing s.text s.textBoxCursorIndex textBounds.width
        fuel 0 textWidth with
    | some _ => some (GuiTextBox bufferSize editMode (textBoxEditable st g) inp s)
    | none => none
  else some (GuiTextBox bufferSize editMode (textBoxEditable st g) inp s)

/-- An edit frame in which only Enter is pressed. -/
def enterInput : TextBoxInput := { noInput with pressedEnter := true }

/-! ## Theorems: style property store -/

theorem setStyleBody_loaded (s : StyleState) (c p : Nat) (v : Int) :
    (setStyleBody s c p v).guiStyleLoaded = s.guiStyleLoaded := by
  unfold setStyleBody
  split <;> rfl

theorem GuiSetStyle_of_loaded (f : Nat) (s : StyleState) (c p : Nat) (v : Int)
    (h : s.guiStyleLoaded = true) :
    GuiSetStyle (f + 1) s c p v = some (setStyleBody s c p v) := by
  simp [GuiSetStyle, h]

theorem runCalls_of_loaded (f : Nat) (calls : List (Nat × Nat × Int)) (s : StyleState)
    (h : s.guiStyleLoaded = true) :
    runCalls (fun st c p v => GuiSetStyle (f + 1) st c p v) calls s
      = some (calls.foldl (fun st x => setStyleBody st x.1 x.2.1 x.2.2) s) := by
  induction calls generalizing s with
  | nil => rfl
  | cons x rest ih =>
    obtain ⟨c, p, v⟩ := x
    simp only [runCalls, List.foldl_cons]
    rw [GuiSetStyle_of_loaded f s c p v h]
    exact ih _ (by rw [setStyleBody_loaded]; exact h)

theorem foldl_setStyleBody_loaded (calls : List (Nat × Nat × Int)) (s : StyleState) :
    (calls.foldl (fun st x => setStyleBody st x.1 x.2.1 x.2.2) s).guiStyleLoaded
      = s.guiStyleLoaded := by
  induction calls generalizing s with
  | nil => rfl
  | cons x rest ih => simp only [List.foldl_cons]; rw [ih, setStyleBody_loaded]

theorem loadDefaultBody_loaded (s : StyleState) : (loadDefaultBody s).guiStyleLoaded = true := by
  unfold loadDefaultBody
  rw [foldl_setStyleBody_loaded]

theorem GuiLoadStyleDefault_eq (f : Nat) (s : StyleState) :
    GuiLoadStyleDefault (f + 2) s = some (loadDefaultBody s) := by
  rw [GuiLoadStyleDefault, runCalls_of_loaded f _ _ rfl]
  rfl

/-- The globals seen by the body of an accessor: loaded lazily when needed. -/
theorem GuiSetStyle_eq (f : Nat) (s : StyleState) (c p : Nat) (v : Int) :
    GuiSetStyle (f + 3) s c p v
      = some (setStyleBody (if s.guiStyleLoaded = false then loadDefaultBody s else s) c p v) := by
  rw [GuiSetStyle, GuiLoadStyleDefault_eq]
  by_cases h : s.guiStyleLoaded = false <;> simp [h]

theorem GuiGetStyle_eq (f : Nat) (s : StyleState) (c p : Nat) :
    GuiGetStyle (f + 3) s c p
      = some ((if s.guiStyleLoaded = false then loadDefaultBody s else s),
          toInt32 ((if s.guiStyleLoaded = false then loadDefaultBody s else s).guiStyle
            (slot c p))) := by
  rw [GuiGetStyle, GuiLoadStyleDefault_eq]
  by_cases h : s.guiStyleLoaded = false <;> simp [h]

theorem GuiGetStyle_of_loaded (f : Nat) (s : StyleState) (c p : Nat)
    (h : s.guiStyleLoaded = true) :
    GuiGetStyle (f + 1) s c p = some (s, toInt32 (s.guiStyle (slot c p))) := by
  simp [GuiGetStyle, h]

theorem slot_inj (c p c1 p1 : Nat) (hp : p < 24) (hp1 : p1 < 24) :
    slot c1 p1 = slot c p ↔ c1 = c ∧ p1 = p := by
  simp only [slot, RAYGUI_MAX_PROPS_BASE, RAYGUI_MAX_PROPS_EXTENDED]
  omega

theorem propagate_miss (p v : Nat) (n i : Nat) (g : Nat → Nat) (j : Nat)
    (h : ∀ k, i ≤ k → k < i + n → j ≠ slot k p) :
    propagate p v n i g j = g j := by
  induction n generalizing i g with
  | zero => rfl
  | succ n ih =>
    rw [propagate, ih (i + 1) _ (fun k h1 h2 => h k (by omega) (by omega))]
    have h2 : j ≠ slot i p := h i (le_refl i) (by omega)
    simp [writeSlot, h2]

theorem propagate_hit (p v : Nat) (n i : Nat) (g : Nat → Nat) (k : Nat)
    (h1 : i ≤ k) (h2 : k < i + n) :
    propagate p v n i g (slot k p) = v := by
  induction n generalizing i g with
  | zero => omega
  | succ n ih =>
    rw [propagate]
    by_cases hk : k = i
    · subst hk
      rw [propagate_miss]
      · simp [writeSlot]
      · intro k1 hk1 _ e
        simp only [slot, RAYGUI_MAX_PROPS_BASE, RAYGUI_MAX_PROPS_EXTENDED] at e
        omega
    · exact ih (i + 1) _ (by omega) (by omega)

/-- What `GuiSetStyle` does to each slot of the table once the style is loaded. -/
theorem setStyleBody_slot (s : StyleState) (c p c1 p1 : Nat) (v : Int)
    (hp : p < 24) (hp1 : p1 < 24) (hc1 : c1 < 16) :
    (setStyleBody s c p v).guiStyle (slot c1 p1)
      = if (c1 = c ∧ p1 = p) ∨ (c = 0 ∧ p < 16 ∧ p1 = p) then toUInt32 v
        else s.guiStyle (slot c1 p1) := by
  unfold setStyleBody
  by_cases hd : c = 0 ∧ p < RAYGUI_MAX_PROPS_BASE
  · simp only [if_pos hd]
    simp only [RAYGUI_MAX_PROPS_BASE, RAYGUI_MAX_CONTROLS] at hd ⊢
    obtain ⟨hc, hpb⟩ := hd
    subst hc
    by_cases hpp : p1 = p
    · subst hpp
      have hr : (c1 = 0 ∧ p1 = p1) ∨ (0 = 0 ∧ p1 < 16 ∧ p1 = p1) := Or.inr ⟨rfl, hpb, rfl⟩
      rw [if_pos hr]
      by_cases h0 : c1 = 0
      · subst h0
        rw [propagate_miss]
        · simp [writeSlot]
        · intro k hk1 _ hk3
          have := (slot_inj k p1 0 p1 hp hp).1 hk3
          omega
      · exact propagate_hit p1 _ _ 1 _ c1 (by omega) (by omega)
    · have h2 : ¬ ((c1 = 0 ∧ p1 = p) ∨ (0 = 0 ∧ p < 16 ∧ p1 = p)) := by tauto
      have h3 : slot c1 p1 ≠ slot 0 p := fun e => hpp ((slot_inj 0 p c1 p1 hp hp1).1 e).2
      rw [if_neg h2, propagate_miss]
      · simp [writeSlot, h3]
      · intro k _ _ hk3
        exact hpp ((slot_inj k p c1 p1 hp hp1).1 hk3).2
  · simp only [if_neg hd]
    simp only [RAYGUI_MAX_PROPS_BASE] at hd
    by_cases he : c1 = c ∧ p1 = p
    · obtain ⟨h1, h2⟩ := he
      subst h1 h2
      simp [writeSlot]
    · have h2 : ¬ ((c1 = c ∧ p1 = p) ∨ (c = 0 ∧ p < 16 ∧ p1 = p)) := by tauto
      have h3 : slot c1 p1 ≠ slot c p := fun e => he ((slot_inj c p c1 p1 hp hp1).1 e)
      rw [if_neg h2]
      simp [writeSlot, h3]

theorem toInt32_toUInt32 (v : Int) (h1 : -2147483648 ≤ v) (h2 : v < 2147483648) :
    toInt32 (toUInt32 v) = v := by
  unfold toInt32 toUInt32
  split <;> omega

theorem lazy_loaded (s : StyleState) :
    (if s.guiStyleLoaded = false then loadDefaultBody s else s).guiStyleLoaded = true := by
  by_cases h : s.guiStyleLoaded = false
  · rw [if_pos h]
    exact loadDefaultBody_loaded s
  · rw [if_neg h]
    simpa using h

/-- C1: for every base property `p < 16`, every 32-bit value `v` and every control kind
`k < 16`, from any state of the style globals, `GuiSetStyle(DEFAULT, p, v)` returns and a
following `GuiGetStyle(k, p)` returns `v` (and leaves the globals as they are). -/
theorem style_default_propagates (s : StyleState) (fuel p k : Nat) (v : Int)
    (hfuel : 3 ≤ fuel) (hp : p < RAYGUI_MAX_PROPS_BASE) (hk : k < RAYGUI_MAX_CONTROLS)
    (hv1 : -2147483648 ≤ v) (hv2 : v < 2147483648) :
    ∃ s1, GuiSetStyle fuel s DEFAULT p v = some s1 ∧
      GuiGetStyle fuel s1 k p = some (s1, v) := by
  obtain ⟨f, rfl⟩ : ∃ f, fuel = f + 3 := ⟨fuel - 3, by omega⟩
  simp only [RAYGUI_MAX_PROPS_BASE, RAYGUI_MAX_CONTROLS] at hp hk
  refine ⟨_, GuiSetStyle_eq f s DEFAULT p v, ?_⟩
  rw [GuiGetStyle_of_loaded (f + 2) _ k p (by rw [setStyleBody_loaded]; exact lazy_loaded s),
    setStyleBody_slot _ DEFAULT p k p v (by omega) (by omega) hk,
    if_pos (Or.inr ⟨rfl, hp, rfl⟩), toInt32_toUInt32 v hv1 hv2]

theorem style_default_propagates_witness :
    (3 ≤ 3 ∧ BORDER_WIDTH < RAYGUI_MAX_PROPS_BASE ∧ TEXTBOX < RAYGUI_MAX_CONTROLS) ∧
    ∃ s1, GuiSetStyle 3 initialStyle DEFAULT BORDER_WIDTH 7 = some s1 ∧
      GuiGetStyle 3 s1 TEXTBOX BORDER_WIDTH = some (s1, 7) :=
  ⟨by decide, style_default_propagates initialStyle 3 BORDER_WIDTH TEXTBOX 7
    (by decide) (by decide) (by decide) (by decide) (by decide)⟩

/-- C2: the later write wins. For a base property `p < 16`, a kind `1 ≤ k < 16` and 32-bit
values `v`, `w`: after `GuiSetStyle(DEFAULT, p, v)` then `GuiSetStyle(k, p, w)`,
`GuiGetStyle(k, p)` is `w` and `GuiGetStyle(j, p)` is `v` for every other kind `j`
(DEFAULT included); after the two writes in the opposite order `GuiGetStyle(k, p)` is `v`. -/
theorem style_later_write_wins (s : StyleState) (fuel p k : Nat) (v w : Int)
    (hfuel : 3 ≤ fuel) (hp : p < RAYGUI_MAX_PROPS_BASE) (hk1 : 1 ≤ k)
    (hk : k < RAYGUI_MAX_CONTROLS)
    (hv1 : -2147483648 ≤ v) (hv2 : v < 2147483648)
    (hw1 : -2147483648 ≤ w) (hw2 : w < 2147483648) :
    (∃ s1 s2, GuiSetStyle fuel s DEFAULT p v = some s1 ∧ GuiSetStyle fuel s1 k p w = some s2 ∧
      GuiGetStyle fuel s2 k p = some (s2, w) ∧
      ∀ j, j < RAYGUI_MAX_CONTROLS → j ≠ k → GuiGetStyle fuel s2 j p = some (s2, v)) ∧
    (∃ s1 s2, GuiSetStyle fuel s k p w = some s1 ∧ GuiSetStyle fuel s1 DEFAULT p v = some s2 ∧
      GuiGetStyle fuel s2 k p = some (s2, v)) := by
  obtain ⟨f, rfl⟩ : ∃ f, fuel = f + 3 := ⟨fuel - 3, by omega⟩
  simp only [RAYGUI_MAX_PROPS_BASE, RAYGUI_MAX_CONTROLS] at hp hk ⊢
  have hl := lazy_loaded s
  constructor
  · have hl1 : (setStyleBody (if s.guiStyleLoaded = false then loadDefaultBody s else s)
        DEFAULT p v).guiStyleLoaded = true := by rw [setStyleBody_loaded]; exact hl
    have hl2 : (setStyleBody (setStyleBody
        (if s.guiStyleLoaded = false then loadDefaultBody s else s) DEFAULT p v)
        k p w).guiStyleLoaded = true := by rw [setStyleBody_loaded]; exact hl1
    refine ⟨_, _, GuiSetStyle_eq f s DEFAULT p v, GuiSetStyle_of_loaded (f + 2) _ k p w hl1,
      ?_, ?_⟩
    · rw [GuiGetStyle_of_loaded (f + 2) _ k p hl2,
        setStyleBody_slot _ k p k p w (by omega) (by omega) hk,
        if_pos (Or.inl ⟨rfl, rfl⟩), toInt32_toUInt32 w hw1 hw2]
    · intro j hj hjk
      have hn : ¬ ((j = k ∧ p = p) ∨ (k = 0 ∧ p < 16 ∧ p = p)) := by
        rintro (⟨h, _⟩ | ⟨h, _⟩)
        · exact hjk h
        · omega
      rw [GuiGetStyle_of_loaded (f + 2) _ j p hl2,
        setStyleBody_slot _ k p j p w (by omega) (by omega) hj, if_neg hn,
        setStyleBody_slot _ DEFAULT p j p v (by omega) (by omega) hj,
        if_pos (Or.inr ⟨rfl, hp, rfl⟩), toInt32_toUInt32 v hv1 hv2]
  · have hl1 : (setStyleBody (if s.guiStyleLoaded = false then loadDefaultBody s else s)
        k p w).guiStyleLoaded = true := by rw [setStyleBody_loaded]; exact hl
    have hl2 : (setStyleBody (setStyleBody
        (if s.guiStyleLoaded = false then loadDefaultBody s else s) k p w)
        DEFAULT p v).guiStyleLoaded = true := by rw [setStyleBody_loaded]; exact hl1
    refine ⟨_, _, GuiSetStyle_eq f s k p w, GuiSetStyle_of_loaded (f + 2) _ DEFAULT p v hl1, ?_⟩
    rw [GuiGetStyle_of_loaded (f + 2) _ k p hl2,
      setStyleBody_slot _ DEFAULT p k p v (by omega) (by omega) hk,
      if_pos (Or.inr ⟨rfl, hp, rfl⟩), toInt32_toUInt32 v hv1 hv2]

theorem style_later_write_wins_witness :
    (3 ≤ 3 ∧ TEXT_PADDING < RAYGUI_MAX_PROPS_BASE ∧ 1 ≤ SLIDER ∧ SLIDER < RAYGUI_MAX_CONTROLS) ∧
    ((∃ s1 s2, GuiSetStyle 3 initialStyle DEFAULT TEXT_PADDING 5 = some s1 ∧
      GuiSetStyle 3 s1 SLIDER TEXT_PADDING (-9) = some s2 ∧
      GuiGetStyle 3 s2 SLIDER TEXT_PADDING = some (s2, -9) ∧
      ∀ j, j < RAYGUI_MAX_CONTROLS → j ≠ SLIDER →
        GuiGetStyle 3 s2 j TEXT_PADDING = some (s2, 5)) ∧
    (∃ s1 s2, GuiSetStyle 3 initialStyle SLIDER TEXT_PADDING (-9) = some s1 ∧
      GuiSetStyle 3 s1 DEFAULT TEXT_PADDING 5 = some s2 ∧
      GuiGetStyle 3 s2 SLIDER TEXT_PADDING = some (s2, 5))) :=
  ⟨by decide, style_later_write_wins initialStyle 3 TEXT_PADDING SLIDER 5 (-9)
    (by decide) (by decide) (by decide) (by decide) (by decide) (by decide) (by decide)
    (by decide)⟩

/-- C3: on a loaded style table, for every kind `c < 16`, property `p < 24` and value `v`,
`GuiSetStyle(c, p, v)` returns, keeps the flag, and gives every slot `(c1, p1)` of the table
the value `v` when `(c1, p1) = (c, p)` or when `c = DEFAULT`, `p < 16` and `p1 = p`, and its
old value otherwise; so a write to an extended property of DEFAULT (`16 ≤ p < 24`) leaves
slot `p` of every other kind unchanged. -/
theorem style_set_frame (s : StyleState) (fuel c p : Nat) (v : Int)
    (hfuel : 1 ≤ fuel) (hs : s.guiStyleLoaded = true)
    (_hc : c < RAYGUI_MAX_CONTROLS) (hp : p < RAYGUI_MAX_PROPS_BASE + RAYGUI_MAX_PROPS_EXTENDED) :
    ∃ s1, GuiSetStyle fuel s c p v = some s1 ∧ s1.guiStyleLoaded = true ∧
      (∀ c1 p1, c1 < RAYGUI_MAX_CONTROLS →
        p1 < RAYGUI_MAX_PROPS_BASE + RAYGUI_MAX_PROPS_EXTENDED →
        s1.guiStyle (slot c1 p1)
          = if (c1 = c ∧ p1 = p) ∨ (c = DEFAULT ∧ p < RAYGUI_MAX_PROPS_BASE ∧ p1 = p)
            then toUInt32 v else s.guiStyle (slot c1 p1)) ∧
      (c = DEFAULT → RAYGUI_MAX_PROPS_BASE ≤ p → ∀ k, 1 ≤ k → k < RAYGUI_MAX_CONTROLS →
        s1.guiStyle (slot k p) = s.guiStyle (slot k p)) := by
  obtain ⟨f, rfl⟩ : ∃ f, fuel = f + 1 := ⟨fuel - 1, by omega⟩
  simp only [RAYGUI_MAX_PROPS_BASE, RAYGUI_MAX_CONTROLS, RAYGUI_MAX_PROPS_EXTENDED,
    DEFAULT] at hp ⊢
  refine ⟨_, GuiSetStyle_of_loaded f s c p v hs, by rw [setStyleBody_loaded]; exact hs, ?_, ?_⟩
  · intro c1 p1 hc1 hp1
    exact setStyleBody_slot s c p c1 p1 v hp hp1 hc1
  · intro hc0 hp16 k hk1 hk
    have hn : ¬ ((k = c ∧ p = p) ∨ (c = 0 ∧ p < 16 ∧ p = p)) := by
      rintro (⟨h, _⟩ | ⟨_, h, _⟩) <;> omega
    rw [setStyleBody_slot s c p k p v hp hp hk, if_neg hn]

theorem style_set_frame_witness :
    (1 ≤ 1 ∧ (loadDefaultBody initialStyle).guiStyleLoaded = true ∧
      DEFAULT < RAYGUI_MAX_CONTROLS ∧
      TEXT_SIZE < RAYGUI_MAX_PROPS_BASE + RAYGUI_MAX_PROPS_EXTENDED) ∧
    ∃ s1, GuiSetStyle 1 (loadDefaultBody initialStyle) DEFAULT TEXT_SIZE 20 = some s1 ∧
      s1.guiStyleLoaded = true ∧
      (∀ c1 p1, c1 < RAYGUI_MAX_CONTROLS →
        p1 < RAYGUI_MAX_PROPS_BASE + RAYGUI_MAX_PROPS_EXTENDED →
        s1.guiStyle (slot c1 p1)
          = if (c1 = DEFAULT ∧ p1 = TEXT_SIZE) ∨
              (DEFAULT = DEFAULT ∧ TEXT_SIZE < RAYGUI_MAX_PROPS_BASE ∧ p1 = TEXT_SIZE)
            then toUInt32 20 else (loadDefaultBody initialStyle).guiStyle (slot c1 p1)) ∧
      (DEFAULT = DEFAULT → RAYGUI_MAX_PROPS_BASE ≤ TEXT_SIZE → ∀ k, 1 ≤ k →
        k < RAYGUI_MAX_CONTROLS →
        s1.guiStyle (slot k TEXT_SIZE)
          = (loadDefaultBody initialStyle).guiStyle (slot k TEXT_SIZE)) :=
  ⟨by decide, style_set_frame (loadDefaultBody initialStyle) 1 DEFAULT TEXT_SIZE 20
    (by decide) (by decide) (by decide) (by decide)⟩

/-- C4: lazy loading of the default style. On a style table that was never loaded, with
call depth 3 or more available, `GuiLoadStyleDefault` returns a table `d` with the flag
set; `GuiGetStyle(c, p)` loads it and returns the value of slot `(c, p)` of `d`, a second
`GuiGetStyle` on `d` does not load again; `GuiSetStyle(c, p, v)` followed by
`GuiGetStyle(c, p)` returns `v`; on the zero-initialised table the values read are 10 for
DEFAULT TEXT_SIZE, 2 for BUTTON BORDER_WIDTH and 1 for LABEL BORDER_WIDTH. -/
theorem style_lazy_load (s : StyleState) (fuel c p : Nat) (v : Int)
    (hfuel : 3 ≤ fuel) (hs : s.guiStyleLoaded = false)
    (hc : c < RAYGUI_MAX_CONTROLS) (hp : p < RAYGUI_MAX_PROPS_BASE + RAYGUI_MAX_PROPS_EXTENDED)
    (hv1 : -2147483648 ≤ v) (hv2 : v < 2147483648) :
    (∃ d, GuiLoadStyleDefault fuel s = some d ∧ d.guiStyleLoaded = true ∧
      GuiGetStyle fuel s c p = some (d, toInt32 (d.guiStyle (slot c p))) ∧
      GuiGetStyle fuel d c p = some (d, toInt32 (d.guiStyle (slot c p)))) ∧
    (∃ s1, GuiSetStyle fuel s c p v = some s1 ∧ s1.guiStyleLoaded = true ∧
      GuiGetStyle fuel s1 c p = some (s1, v)) ∧
    (GuiGetStyle fuel initialStyle DEFAULT TEXT_SIZE).map Prod.snd = some 10 ∧
    (GuiGetStyle fuel initialStyle BUTTON BORDER_WIDTH).map Prod.snd = some 2 ∧
    (GuiGetStyle fuel initialStyle LABEL BORDER_WIDTH).map Prod.snd = some 1 := by
  obtain ⟨f, rfl⟩ : ∃ f, fuel = f + 3 := ⟨fuel - 3, by omega⟩
  simp only [RAYGUI_MAX_PROPS_BASE, RAYGUI_MAX_CONTROLS, RAYGUI_MAX_PROPS_EXTENDED] at hp hc ⊢
  refine ⟨⟨loadDefaultBody s, GuiLoadStyleDefault_eq (f + 1) s, loadDefaultBody_loaded s, ?_,
    GuiGetStyle_of_loaded (f + 2) _ c p (loadDefaultBody_loaded s)⟩, ?_, ?_, ?_, ?_⟩
  · rw [GuiGetStyle_eq, if_pos hs]
  · have hl : (setStyleBody (if s.guiStyleLoaded = false then loadDefaultBody s else s)
        c p v).guiStyleLoaded = true := by rw [setStyleBody_loaded]; exact lazy_loaded s
    refine ⟨_, GuiSetStyle_eq f s c p v, hl, ?_⟩
    rw [GuiGetStyle_of_loaded (f + 2) _ c p hl,
      setStyleBody_slot _ c p c p v hp hp hc, if_pos (Or.inl ⟨rfl, rfl⟩),
      toInt32_toUInt32 v hv1 hv2]
  · rw [GuiGetStyle_eq]
    decide
  · rw [GuiGetStyle_eq]
    decide
  · rw [GuiGetStyle_eq]
    decide

theorem style_lazy_load_witness :
    (3 ≤ 3 ∧ initialStyle.guiStyleLoaded = false ∧ SCROLLBAR < RAYGUI_MAX_CONTROLS ∧
      SCROLL_SPEED < RAYGUI_MAX_PROPS_BASE + RAYGUI_MAX_PROPS_EXTENDED) ∧
    ((∃ d, GuiLoadStyleDefault 3 initialStyle = some d ∧ d.guiStyleLoaded = true ∧
      GuiGetStyle 3 initialStyle SCROLLBAR SCROLL_SPEED
        = some (d, toInt32 (d.guiStyle (slot SCROLLBAR SCROLL_SPEED))) ∧
      GuiGetStyle 3 d SCROLLBAR SCROLL_SPEED
        = some (d, toInt32 (d.guiStyle (slot SCROLLBAR SCROLL_SPEED)))) ∧
    (∃ s1, GuiSetStyle 3 initialStyle SCROLLBAR SCROLL_SPEED 30 = some s1 ∧
      s1.guiStyleLoaded = true ∧
      GuiGetStyle 3 s1 SCROLLBAR SCROLL_SPEED = some (s1, 30)) ∧
    (GuiGetStyle 3 initialStyle DEFAULT TEXT_SIZE).map Prod.snd = some 10 ∧
    (GuiGetStyle 3 initialStyle BUTTON BORDER_WIDTH).map Prod.snd = some 2 ∧
    (GuiGetStyle 3 initialStyle LABEL BORDER_WIDTH).map Prod.snd = some 1) :=
  ⟨by decide, style_lazy_load initialStyle 3 SCROLLBAR SCROLL_SPEED 30
    (by decide) (by decide) (by decide) (by decide) (by decide) (by decide)⟩

/-! ## Theorems: UTF-8 codec -/

theorem and_1f (n : Nat) : n &&& 0x1f = n % 32 := Nat.and_pow_two_sub_one_eq_mod n 5
theorem and_0f (n : Nat) : n &&& 0x0f = n % 16 := Nat.and_pow_two_sub_one_eq_mod n 4
theorem and_07 (n : Nat) : n &&& 0x07 = n % 8 := Nat.and_pow_two_sub_one_eq_mod n 3
theorem and_3f (n : Nat) : n &&& 0x3f = n % 64 := Nat.and_pow_two_sub_one_eq_mod n 6

theorem mul_or (a b k : Nat) (h : b < 2 ^ k) : (a * 2 ^ k) ||| b = a * 2 ^ k + b := by
  rw [Nat.mul_comm a (2 ^ k)]
  exact (Nat.mul_add_lt_is_or h a).symm

theorem byte_ascii : ∀ b, b < 128 →
    (0xf0 ≠ (0xf8 &&& b) ∧ 0xe0 ≠ (0xf0 &&& b) ∧ 0xc0 ≠ (0xe0 &&& b) ∧ 0x00 = (0x80 &&& b)) := by
  decide

theorem byte_lead2 : ∀ x, x < 32 →
    (0xf0 ≠ (0xf8 &&& (x ||| 0xc0)) ∧ 0xe0 ≠ (0xf0 &&& (x ||| 0xc0))
      ∧ 0xc0 = (0xe0 &&& (x ||| 0xc0)) ∧ (0x1f &&& (x ||| 0xc0)) = x) := by
  decide

theorem byte_lead3 : ∀ x, x < 16 →
    (0xf0 ≠ (0xf8 &&& (x ||| 0xe0)) ∧ 0xe0 = (0xf0 &&& (x ||| 0xe0))
      ∧ (0x0f &&& (x ||| 0xe0)) = x) := by
  decide

theorem byte_lead4 : ∀ x, x < 8 →
    (0xf0 = (0xf8 &&& (x ||| 0xf0)) ∧ (0x07 &&& (x ||| 0xf0)) = x) := by
  decide

theorem byte_cont : ∀ y, y < 64 →
    ((((y ||| 0x80) &&& 0xC0) ^^^ 0x80) = 0 ∧ (0x3f &&& (y ||| 0x80)) = y) := by
  decide

theorem rd_zero (a : Nat) (r : Buf) : rd (a :: r) 0 = a := rfl
theorem rd_one (a b : Nat) (r : Buf) : rd (a :: b :: r) (0 + 1) = b := rfl
theorem rd_two (a b c : Nat) (r : Buf) : rd (a :: b :: c :: r) (0 + 2) = c := rfl
theorem rd_three (a b c d : Nat) (r : Buf) : rd (a :: b :: c :: d :: r) (0 + 3) = d := rfl

theorem decode1 (b : Nat) (r : Buf) (hb : b < 128) :
    GetCodepointNext (b :: r) 0 = ((b : Int), 1) := by
  obtain ⟨h1, h2, h3, h4⟩ := byte_ascii b hb
  unfold GetCodepointNext
  simp only [rd_zero]
  rw [if_neg h1, if_neg h2, if_neg h3, if_pos h4]

theorem decode2 (x y : Nat) (r : Buf) (hx : x < 32) (hy : y < 64) :
    GetCodepointNext ((x ||| 0xc0) :: (y ||| 0x80) :: r) 0 = (((x * 64 + y : Nat) : Int), 2) := by
  obtain ⟨h1, h2, h3, h4⟩ := byte_lead2 x hx
  obtain ⟨c1, c2⟩ := byte_cont y hy
  unfold GetCodepointNext
  simp only [rd_zero, rd_one]
  rw [if_neg h1, if_neg h2, if_pos h3, if_neg (not_not.mpr c1), h4, c2, Nat.shiftLeft_eq,
    mul_or x y 6 hy]
  rfl

theorem decode3 (x y z : Nat) (r : Buf) (hx : x < 16) (hy : y < 64) (hz : z < 64) :
    GetCodepointNext ((x ||| 0xe0) :: (y ||| 0x80) :: (z ||| 0x80) :: r) 0
      = (((x * 4096 + y * 64 + z : Nat) : Int), 3) := by
  obtain ⟨h1, h2, h3⟩ := byte_lead3 x hx
  obtain ⟨c1, c2⟩ := byte_cont y hy
  obtain ⟨d1, d2⟩ := byte_cont z hz
  have hc : ¬ ((((y ||| 0x80) &&& 0xC0) ^^^ 0x80) ≠ 0 ∨ (((z ||| 0x80) &&& 0xC0) ^^^ 0x80) ≠ 0) := by
    rw [c1, d1]; simp
  have e1 : (x * 2 ^ 12) ||| (y * 2 ^ 6) = x * 2 ^ 12 + y * 2 ^ 6 :=
    mul_or x (y * 2 ^ 6) 12 (by omega)
  have e2 : x * 2 ^ 12 + y * 2 ^ 6 = (x * 64 + y) * 2 ^ 6 := by ring
  unfold GetCodepointNext
  simp only [rd_zero, rd_one, rd_two]
  rw [if_neg h1, if_pos h2, if_neg hc, h3, c2, d2, Nat.shiftLeft_eq, Nat.shiftLeft_eq, e1, e2,
    mul_or _ z 6 hz]
  congr 2
  ring

theorem decode4 (w x y z : Nat) (r : Buf) (hw : w < 8) (hx : x < 64) (hy : y < 64)
    (hz : z < 64) :
    GetCodepointNext ((w ||| 0xf0) :: (x ||| 0x80) :: (y ||| 0x80) :: (z ||| 0x80) :: r) 0
      = (((w * 262144 + x * 4096 + y * 64 + z : Nat) : Int), 4) := by
  obtain ⟨h1, h2⟩ := byte_lead4 w hw
  obtain ⟨b1, b2⟩ := byte_cont x hx
  obtain ⟨c1, c2⟩ := byte_cont y hy
  obtain ⟨d1, d2⟩ := byte_cont z hz
  have hc : ¬ ((((x ||| 0x80) &&& 0xC0) ^^^ 0x80) ≠ 0 ∨ (((y ||| 0x80) &&& 0xC0) ^^^ 0x80) ≠ 0
      ∨ (((z ||| 0x80) &&& 0xC0) ^^^ 0x80) ≠ 0) := by
    rw [b1, c1, d1]; simp
  have e1 : (w * 2 ^ 18) ||| (x * 2 ^ 12) = w * 2 ^ 18 + x * 2 ^ 12 :=
    mul_or w (x * 2 ^ 12) 18 (by omega)
  have e2 : w * 2 ^ 18 + x * 2 ^ 12 = (w * 64 + x) * 2 ^ 12 := by ring
  have e3 : ((w * 64 + x) * 2 ^ 12) ||| (y * 2 ^ 6) = (w * 64 + x) * 2 ^ 12 + y * 2 ^ 6 :=
    mul_or _ (y * 2 ^ 6) 12 (by omega)
  have e4 : (w * 64 + x) * 2 ^ 12 + y * 2 ^ 6 = ((w * 64 + x) * 64 + y) * 2 ^ 6 := by ring
  unfold GetCodepointNext
  simp only [rd_zero, rd_one, rd_two, rd_three]
  rw [if_pos h1, if_neg hc, h2, b2, c2, d2, Nat.shiftLeft_eq, Nat.shiftLeft_eq,
    Nat.shiftLeft_eq, e1, e2, e3, e4, mul_or _ z 6 hz]
  congr 2
  ring

theorem length_six (u : Buf) (h : u.length = 6) :
    ∃ a b c d e f, u = [a, b, c, d, e, f] := by
  match u, h with
  | [a, b, c, d, e, f], _ => exact ⟨a, b, c, d, e, f, rfl⟩

/-- Decoding what `CodepointToUTF8` produced gives back every codepoint up to 0x10FFFF. -/
theorem roundtrip_all (utf8 : Buf) (hlen : utf8.length = 6) (c : Int)
    (h0 : 0 ≤ c) (h1 : c ≤ 0x10ffff) :
    GetCodepointNext (CodepointToUTF8 utf8 c).1 0 = (c, (CodepointToUTF8 utf8 c).2) := by
  obtain ⟨u0, u1, u2, u3, u4, u5, rfl⟩ := length_six utf8 hlen
  obtain ⟨n, rfl⟩ := Int.eq_ofNat_of_zero_le h0
  unfold CodepointToUTF8
  simp only [Int.toNat_ofNat, Nat.shiftRight_eq_div_pow, and_1f, and_0f, and_07, and_3f]
  by_cases c1 : (n : Int) ≤ 0x7f
  · rw [if_pos c1]
    have : toChar (n : Int) = n := by unfold toChar; omega
    simp only [wr, this]
    exact decode1 n _ (by omega)
  · rw [if_neg c1]
    by_cases c2 : (n : Int) ≤ 0x7ff
    · rw [if_pos c2]
      simp only [wr]
      have := decode2 (n / 2 ^ 6 % 32) (n % 64) [u2, u3, u4, u5] (by omega) (by omega)
      have e : n / 2 ^ 6 % 32 * 64 + n % 64 = n := by omega
      rw [e] at this
      exact this
    · rw [if_neg c2]
      by_cases c3 : (n : Int) ≤ 0xffff
      · rw [if_pos c3]
        simp only [wr]
        have := decode3 (n / 2 ^ 12 % 16) (n / 2 ^ 6 % 64) (n % 64) [u3, u4, u5]
          (by omega) (by omega) (by omega)
        have e : n / 2 ^ 12 % 16 * 4096 + n / 2 ^ 6 % 64 * 64 + n % 64 = n := by omega
        rw [e] at this
        exact this
      · rw [if_neg c3, if_pos h1]
        simp only [wr]
        have := decode4 (n / 2 ^ 18 % 8) (n / 2 ^ 12 % 64) (n / 2 ^ 6 % 64) (n % 64) [u4, u5]
          (by omega) (by omega) (by omega) (by omega)
        have e : n / 2 ^ 18 % 8 * 262144 + n / 2 ^ 12 % 64 * 4096 + n / 2 ^ 6 % 64 * 64
            + n % 64 = n := by omega
        rw [e] at this
        exact this

/-- C5: UTF-8 round trip. For every codepoint `c` in `{0x20..0x7E} ∪ {0x00A0..0x04FF} ∪
{0x1F600}` and whatever the static buffer of `CodepointToUTF8` held before,
`GetCodepointNext` applied to the bytes produced by `CodepointToUTF8(c)` returns `c` and
reports the byte size that `CodepointToUTF8(c)` reported. -/
theorem utf8_roundtrip (utf8 : Buf) (c : Int) (hlen : utf8.length = 6)
    (hc : (0x20 ≤ c ∧ c ≤ 0x7E) ∨ (0x00A0 ≤ c ∧ c ≤ 0x04FF) ∨ c = 0x1F600) :
    (GetCodepointNext (CodepointToUTF8 utf8 c).1 0).1 = c ∧
    (GetCodepointNext (CodepointToUTF8 utf8 c).1 0).2 = (CodepointToUTF8 utf8 c).2 := by
  have h := roundtrip_all utf8 hlen c (by omega) (by omega)
  rw [h]
  exact ⟨rfl, rfl⟩

theorem utf8_roundtrip_witness :
    ([0, 0, 0, 0, 0, 0].length = 6 ∧
      (((0x20 : Int) ≤ 0x1F600 ∧ (0x1F600 : Int) ≤ 0x7E) ∨
        ((0x00A0 : Int) ≤ 0x1F600 ∧ (0x1F600 : Int) ≤ 0x04FF) ∨ (0x1F600 : Int) = 0x1F600)) ∧
    ((GetCodepointNext (CodepointToUTF8 [0, 0, 0, 0, 0, 0] 0x1F600).1 0).1 = 0x1F600 ∧
    (GetCodepointNext (CodepointToUTF8 [0, 0, 0, 0, 0, 0] 0x1F600).1 0).2
      = (CodepointToUTF8 [0, 0, 0, 0, 0, 0] 0x1F600).2) :=
  ⟨by decide, utf8_roundtrip [0, 0, 0, 0, 0, 0] 0x1F600 (by decide) (by decide)⟩

set_option maxRecDepth 100000 in
theorem mask_lead4 : ∀ b, b < 256 → (0xf0 = (0xf8 &&& b) ↔ (0xF0 ≤ b ∧ b ≤ 0xF7)) := by
  decide

set_option maxRecDepth 100000 in
theorem mask_lead3 : ∀ b, b < 256 → (0xe0 = (0xf0 &&& b) ↔ (0xE0 ≤ b ∧ b ≤ 0xEF)) := by
  decide

set_option maxRecDepth 100000 in
theorem mask_lead2 : ∀ b, b < 256 → (0xc0 = (0xe0 &&& b) ↔ (0xC0 ≤ b ∧ b ≤ 0xDF)) := by
  decide

set_option maxRecDepth 100000 in
theorem mask_ascii : ∀ b, b < 256 → (0x00 = (0x80 &&& b) ↔ b < 0x80) := by
  decide

set_option maxRecDepth 100000 in
theorem mask_cont : ∀ b, b < 256 → (((b &&& 0xC0) ^^^ 0x80) ≠ 0 ↔ ¬ (0x80 ≤ b ∧ b ≤ 0xBF)) := by
  decide

theorem rd_lt_256 (t : Buf) (ht : ∀ b ∈ t, b < 256) (i : Int) : rd t i < 256 := by
  unfold rd
  split
  · omega
  · rw [List.getD_eq_getElem?_getD]
    cases h : t[i.toNat]? with
    | none => simp
    | some b => exact ht b (List.getElem?_mem h)

/-- C6: malformed UTF-8 is recovered locally. For a byte string whose byte at the decoding
offset is a continuation byte `0x80..0xBF`, a byte `0xF8..0xFF`, or a 2-, 3- or 4-byte lead
byte that is not followed by the required number of continuation bytes `10xxxxxx`,
`GetCodepointNext` returns the replacement codepoint `0x3F` and reports a size of 1. -/
theorem utf8_malformed_recovers (text : Buf) (off : Int) (ht : ∀ b ∈ text, b < 256)
    (hbad : isContinuation (rd text off) = true
      ∨ (0xF8 ≤ rd text off ∧ rd text off ≤ 0xFF)
      ∨ (0xC0 ≤ rd text off ∧ rd text off ≤ 0xDF ∧
          ¬ (isContinuation (rd text (off + 1)) = true))
      ∨ (0xE0 ≤ rd text off ∧ rd text off ≤ 0xEF ∧
          ¬ (isContinuation (rd text (off + 1)) = true ∧
             isContinuation (rd text (off + 2)) = true))
      ∨ (0xF0 ≤ rd text off ∧ rd text off ≤ 0xF7 ∧
          ¬ (isContinuation (rd text (off + 1)) = true ∧
             isContinuation (rd text (off + 2)) = true ∧
             isContinuation (rd text (off + 3)) = true))) :
    GetCodepointNext text off = (0x3F, 1) := by
  have h0 := rd_lt_256 text ht off
  have h1 := rd_lt_256 text ht (off + 1)
  have h2 := rd_lt_256 text ht (off + 2)
  have h3 := rd_lt_256 text ht (off + 3)
  unfold GetCodepointNext
  simp only [isContinuation, decide_eq_true_eq] at hbad
  simp only [mask_lead4 _ h0, mask_lead3 _ h0, mask_lead2 _ h0, mask_ascii _ h0,
    mask_cont _ h1, mask_cont _ h2, mask_cont _ h3]
  split_ifs <;> first | rfl | (exfalso; omega)

theorem utf8_malformed_recovers_witness :
    ((∀ b ∈ [0xE2, 0x82, 0x41, 0], b < 256) ∧
      (isContinuation (rd [0xE2, 0x82, 0x41, 0] 0) = true
      ∨ (0xF8 ≤ rd [0xE2, 0x82, 0x41, 0] 0 ∧ rd [0xE2, 0x82, 0x41, 0] 0 ≤ 0xFF)
      ∨ (0xC0 ≤ rd [0xE2, 0x82, 0x41, 0] 0 ∧ rd [0xE2, 0x82, 0x41, 0] 0 ≤ 0xDF ∧
          ¬ (isContinuation (rd [0xE2, 0x82, 0x41, 0] (0 + 1)) = true))
      ∨ (0xE0 ≤ rd [0xE2, 0x82, 0x41, 0] 0 ∧ rd [0xE2, 0x82, 0x41, 0] 0 ≤ 0xEF ∧
          ¬ (isContinuation (rd [0xE2, 0x82, 0x41, 0] (0 + 1)) = true ∧
             isContinuation (rd [0xE2, 0x82, 0x41, 0] (0 + 2)) = true))
      ∨ (0xF0 ≤ rd [0xE2, 0x82, 0x41, 0] 0 ∧ rd [0xE2, 0x82, 0x41, 0] 0 ≤ 0xF7 ∧
          ¬ (isContinuation (rd [0xE2, 0x82, 0x41, 0] (0 + 1)) = true ∧
             isContinuation (rd [0xE2, 0x82, 0x41, 0] (0 + 2)) = true ∧
             isContinuation (rd [0xE2, 0x82, 0x41, 0] (0 + 3)) = true)))) ∧
    GetCodepointNext [0xE2, 0x82, 0x41, 0] 0 = (0x3F, 1) :=
  ⟨by decide, utf8_malformed_recovers [0xE2, 0x82, 0x41, 0] 0 (by decide) (by decide)⟩

/-! ## Theorems: buffers -/

theorem rd_nat (t : Buf) (j : Nat) : rd t (j : Int) = (t[j]?).getD 0 := by
  unfold rd
  rw [if_neg (by omega), Int.toNat_ofNat, List.getD_eq_getElem?_getD]

theorem rd_of_length_le (t : Buf) (i : Int) (h : (t.length : Int) ≤ i) : rd t i = 0 := by
  obtain ⟨j, rfl⟩ := Int.eq_ofNat_of_zero_le (show 0 ≤ i by omega)
  rw [rd_nat, List.getElem?_eq_none (by omega)]
  rfl

theorem rd_cons_succ (b : Nat) (t : Buf) (j : Nat) :
    rd (b :: t) ((j + 1 : Nat) : Int) = rd t (j : Int) := by
  rw [rd_nat, rd_nat, List.getElem?_cons_succ]

theorem strlen_le (t : Buf) : strlen t ≤ t.length := by
  induction t with
  | nil => simp [strlen]
  | cons b t ih =>
    unfold strlen
    split
    · omega
    · simp only [List.length_cons]; omega

theorem rd_strlen (t : Buf) : rd t (strlen t : Nat) = 0 := by
  induction t with
  | nil => rfl
  | cons b t ih =>
    unfold strlen
    split
    · rename_i h
      rw [rd_nat]
      simpa using h
    · rw [rd_cons_succ]
      exact ih

/-- C8: insertion at capacity is rejected. For every buffer, cursor index, `bufferSize` and
typed codepoint `c >= 32` whose UTF-8 size `s` satisfies `strlen(text) + s >= bufferSize`,
the insertion step of `GuiTextBox` leaves the buffer and the cursor index unchanged; so
the call `GuiTextBox(bounds, "abc", 4, true)` with the cursor at 3 and 'd' typed leaves
"abc" and the cursor at 3. -/
theorem insert_at_capacity_rejected (t u : Buf) (i d bufferSize c : Int)
    (_hc : 32 ≤ c)
    (hfull : (strlen t : Int) + (CodepointToUTF8 u c).2 ≥ bufferSize) :
    (insertStep bufferSize c ⟨t, i, d, (strlen t : Nat), 0, u⟩).text = t ∧
    (insertStep bufferSize c ⟨t, i, d, (strlen t : Nat), 0, u⟩).textBoxCursorIndex = i ∧
    (GuiTextBox 4 true true typeD textABC).1.text = textABC.text ∧
    (GuiTextBox 4 true true typeD textABC).1.textBoxCursorIndex = 3 := by
  refine ⟨?_, ?_, by decide, by decide⟩
  all_goals
    unfold insertStep
    have h : ¬ (((multiline = true ∧ c = 10) ∨ c ≥ 32)
        ∧ ((strlen t : Int) + (CodepointToUTF8 u c).2) < bufferSize) := by
      rintro ⟨_, h2⟩
      omega
    simp only [if_neg h]

theorem insert_at_capacity_rejected_witness :
    ((32 : Int) ≤ 100 ∧
      (strlen [97, 98, 99, 0] : Int) + (CodepointToUTF8 [0, 0, 0, 0, 0, 0] 100).2 ≥ 4) ∧
    ((insertStep 4 100 ⟨[97, 98, 99, 0], 3, 0, (strlen [97, 98, 99, 0] : Nat), 0,
        [0, 0, 0, 0, 0, 0]⟩).text = [97, 98, 99, 0] ∧
    (insertStep 4 100 ⟨[97, 98, 99, 0], 3, 0, (strlen [97, 98, 99, 0] : Nat), 0,
        [0, 0, 0, 0, 0, 0]⟩).textBoxCursorIndex = 3 ∧
    (GuiTextBox 4 true true typeD textABC).1.text = textABC.text ∧
    (GuiTextBox 4 true true typeD textABC).1.textBoxCursorIndex = 3) :=
  ⟨by decide, insert_at_capacity_rejected [97, 98, 99, 0] [0, 0, 0, 0, 0, 0] 3 0 4 100
    (by decide) (by decide)⟩

/-- C7: the cursor invariant is broken by Backspace over a multi-byte codepoint. From the
well-formed text "éé" with the cursor on the boundary 2, one edit frame with Backspace
leaves the text "é" and the cursor index 1, inside the 2-byte sequence; from "é" with the
cursor at 2 it leaves the empty text and the cursor index 1, beyond `strlen(text) = 0`. -/
theorem cursor_invariant_broken_by_backspace :
    (wellFormed textEE.text = true ∧ isBoundary textEE.text textEE.textBoxCursorIndex = true ∧
      (GuiTextBox 8 true true backspaceInput textEE).1.text = [0xC3, 0xA9, 0, 0, 0, 0, 0, 0] ∧
      (GuiTextBox 8 true true backspaceInput textEE).1.textBoxCursorIndex = 1 ∧
      isBoundary (GuiTextBox 8 true true backspaceInput textEE).1.text
        (GuiTextBox 8 true true backspaceInput textEE).1.textBoxCursorIndex = false) ∧
    (wellFormed textE.text = true ∧ isBoundary textE.text textE.textBoxCursorIndex = true ∧
      (GuiTextBox 8 true true backspaceInput textE).1.textBoxCursorIndex = 1 ∧
      strlen (GuiTextBox 8 true true backspaceInput textE).1.text = 0) := by
  decide

/-- C10: Backspace over a multi-byte codepoint leaves the cursor one byte back, not one
codepoint back. From "aé" with the cursor at 3 (after the 2-byte "é", as
`GetCodepointPrevious` reports), one edit frame with Backspace yields the text "a" but the
cursor index 2 = 3 - 1 instead of 1 = 3 - 2. -/
theorem backspace_multibyte_cursor :
    wellFormed textAE.text = true ∧ isBoundary textAE.text textAE.textBoxCursorIndex = true ∧
    (GetCodepointPrevious textAE.text textAE.textBoxCursorIndex).2 = 2 ∧
    (GuiTextBox 8 true true backspaceInput textAE).1.text = [0x61, 0, 0, 0, 0, 0, 0, 0] ∧
    (GuiTextBox 8 true true backspaceInput textAE).1.textBoxCursorIndex = 2 ∧
    (GuiTextBox 8 true true backspaceInput textAE).1.textBoxCursorIndex
      ≠ textAE.textBoxCursorIndex - (GetCodepointPrevious textAE.text textAE.textBoxCursorIndex).2 := by
  decide

/-! ## Theorems: Delete, and leaving the edit session -/

/-- C11: Delete removes more than one codepoint when a multi-byte character is typed in
the same frame. From "abcdef" in a buffer of 7 bytes with the cursor at 0, an edit frame
with Delete pressed and U+20AC typed (rejected, the buffer is full) leaves "bcd" instead of
"bcdef": the block shifts the text by the size 1 of the codepoint at the cursor, then cuts
the text at `textLength - codepointSize` with the size 3 of the typed character. With
Delete alone the same call leaves "bcdef". -/
theorem delete_cuts_text_when_multibyte_typed :
    wellFormed textABCDEF.text = true ∧
    isBoundary textABCDEF.text textABCDEF.textBoxCursorIndex = true ∧
    textABCDEF.textBoxCursorIndex < (strlen textABCDEF.text : Nat) ∧
    (GetCodepointNext textABCDEF.text textABCDEF.textBoxCursorIndex).2 = 1 ∧
    (GuiTextBox 7 true true deleteEuroInput textABCDEF).1.text
      = [0x62, 0x63, 0x64, 0, 0x66, 0, 0] ∧
    strlen (GuiTextBox 7 true true deleteEuroInput textABCDEF).1.text = 3 ∧
    (GuiTextBox 7 true true deleteEuroInput textABCDEF).1.textBoxCursorIndex = 0 ∧
    (GuiTextBox 7 true true deleteInput textABCDEF).1.text
      = [0x62, 0x63, 0x64, 0x65, 0x66, 0, 0] := by
  decide

theorem textBoxEditable_eq_true (st : StyleState) (g : GuiSession)
    (henabled : g.guiState ≠ STATE_DISABLED) (hunlocked : g.guiLocked = false)
    (hnodrag : g.guiSliderDragging = false)
    (hrw : getStyle st TEXTBOX TEXT_READONLY = 0)
    (hwrap : getStyle st DEFAULT TEXT_WRAP_MODE = TEXT_WRAP_NONE) :
    textBoxEditable st g = true := by
  unfold textBoxEditable
  exact decide_eq_true ⟨henabled, hrw, hunlocked, hnodrag, hwrap⟩

/-- The value returned by the part of `GuiTextBox` that follows the text index offset loop.
With the GUI enabled, unlocked, no drag active, the text box not read-only and wrap mode
NONE: in edit mode it is 1 if and only if Enter is pressed or the left button is pressed
with the pointer outside the bounds (else 0), and then the cursor index is 0; in view mode
it is 1 if and only if the left button is pressed with the pointer inside the bounds (else
0), and then the cursor index is `strlen(text)`. -/
theorem textBox_exit_after_loop (st : StyleState) (g : GuiSession) (bufferSize : Int)
    (inp : TextBoxInput) (s : TextBoxState)
    (henabled : g.guiState ≠ STATE_DISABLED) (hunlocked : g.guiLocked = false)
    (hnodrag : g.guiSliderDragging = false)
    (hrw : getStyle st TEXTBOX TEXT_READONLY = 0)
    (hwrap : getStyle st DEFAULT TEXT_WRAP_MODE = TEXT_WRAP_NONE) :
    ((GuiTextBox bufferSize true (textBoxEditable st g) inp s).2 = 1 ↔
      (inp.pressedEnter = true ∨
        (inp.mouseLeftPressed = true ∧ inp.mouseInBounds = false))) ∧
    ((GuiTextBox bufferSize true (textBoxEditable st g) inp s).2 ≠ 1 →
      (GuiTextBox bufferSize true (textBoxEditable st g) inp s).2 = 0) ∧
    ((GuiTextBox bufferSize true (textBoxEditable st g) inp s).2 = 1 →
      (GuiTextBox bufferSize true (textBoxEditable st g) inp s).1.textBoxCursorIndex = 0) ∧
    ((GuiTextBox bufferSize false (textBoxEditable st g) inp s).2 = 1 ↔
      (inp.mouseLeftPressed = true ∧ inp.mouseInBounds = true)) ∧
    ((GuiTextBox bufferSize false (textBoxEditable st g) inp s).2 ≠ 1 →
      (GuiTextBox bufferSize false (textBoxEditable st g) inp s).2 = 0) ∧
    ((GuiTextBox bufferSize false (textBoxEditable st g) inp s).2 = 1 →
      (GuiTextBox bufferSize false (textBoxEditable st g) inp s).1.textBoxCursorIndex
        = (strlen s.text : Nat)) := by
  rw [textBoxEditable_eq_true st g henabled hunlocked hnodrag hrw hwrap]
  have hexit : ∀ e : Edit, (exitStep inp e).2 = 1 ↔
      (inp.pressedEnter = true ∨ (inp.mouseLeftPressed = true ∧ inp.mouseInBounds = false)) := by
    intro e
    unfold exitStep
    simp only [multiline]
    split_ifs with h
    · simp only [true_iff]
      tauto
    · simp only [zero_ne_one, false_iff]
      tauto
  have hexit0 : ∀ e : Edit, (exitStep inp e).2 ≠ 1 → (exitStep inp e).2 = 0 := by
    intro e
    unfold exitStep
    split_ifs <;> simp
  have hexitc : ∀ e : Edit, (exitStep inp e).2 = 1 →
      (exitStep inp e).1.textBoxCursorIndex = 0 := by
    intro e
    unfold exitStep
    split_ifs <;> simp
  refine ⟨?_, ?_, ?_, ?_, ?_, ?_⟩
  · unfold GuiTextBox
    simp only [if_true]
    exact hexit _
  · unfold GuiTextBox
    simp only [if_true]
    exact hexit0 _
  · unfold GuiTextBox
    simp only [if_true]
    exact hexitc _
  · unfold GuiTextBox
    simp only [if_true, Bool.false_eq_true, if_false]
    by_cases h : inp.mouseInBounds = true ∧ inp.mouseLeftPressed = true
    · simp only [if_pos h, true_iff]
      tauto
    · simp only [if_neg h, zero_ne_one, false_iff]
      tauto
  · unfold GuiTextBox
    simp only [if_true, Bool.false_eq_true, if_false]
    by_cases h : inp.mouseInBounds = true ∧ inp.mouseLeftPressed = true
    · simp only [if_pos h]
      simp
    · simp only [if_neg h]
      simp
  · unfold GuiTextBox
    simp only [if_true, Bool.false_eq_true, if_false]
    by_cases h : inp.mouseInBounds = true ∧ inp.mouseLeftPressed = true
    · simp only [if_pos h]
      simp
    · simp only [if_neg h]
      simp

/-! ## Theorems: control state, value box -/

theorem CheckCollisionPointRec_iff (p : Vector2) (r : Rectangle) :
    CheckCollisionPointRec p r = true ↔
      (r.x ≤ p.x ∧ p.x ≤ r.x + r.width ∧ r.y ≤ p.y ∧ p.y ≤ r.y + r.height) := by
  unfold CheckCollisionPointRec
  simp only [decide_eq_true_eq, ge_iff_le]

/-- C13: state derivation and activation of `GuiButton`. The derived state is DISABLED
when the global state is DISABLED; otherwise it is the global state when the GUI is locked
or a drag is active; otherwise, with the pointer inside the bounds (edges included), it is
PRESSED when the left button is down and FOCUSED when it is not. `GuiButton` returns 1
exactly when the global state is not DISABLED, the GUI is unlocked, no drag is active, the
pointer is inside the bounds and the left button was released this frame, and 0 in every
other case. -/
theorem button_state_and_activation (g : GuiSession) (inp : GuiInput) (bounds : Rectangle) :
    (g.guiState = STATE_DISABLED → (GuiButton g inp bounds).1 = STATE_DISABLED) ∧
    (g.guiState ≠ STATE_DISABLED → (g.guiLocked = true ∨ g.guiSliderDragging = true) →
      (GuiButton g inp bounds).1 = g.guiState) ∧
    (g.guiState ≠ STATE_DISABLED → g.guiLocked = false → g.guiSliderDragging = false →
      (bounds.x ≤ inp.mousePosition.x ∧ inp.mousePosition.x ≤ bounds.x + bounds.width ∧
        bounds.y ≤ inp.mousePosition.y ∧ inp.mousePosition.y ≤ bounds.y + bounds.height) →
      ((inp.mouseLeftDown = true → (GuiButton g inp bounds).1 = STATE_PRESSED) ∧
       (inp.mouseLeftDown = false → (GuiButton g inp bounds).1 = STATE_FOCUSED))) ∧
    ((GuiButton g inp bounds).2 = 1 ↔
      (g.guiState ≠ STATE_DISABLED ∧ g.guiLocked = false ∧ g.guiSliderDragging = false ∧
        (bounds.x ≤ inp.mousePosition.x ∧ inp.mousePosition.x ≤ bounds.x + bounds.width ∧
          bounds.y ≤ inp.mousePosition.y ∧ inp.mousePosition.y ≤ bounds.y + bounds.height) ∧
        inp.mouseLeftReleased = true)) ∧
    ((GuiButton g inp bounds).2 ≠ 1 → (GuiButton g inp bounds).2 = 0) := by
  rw [← CheckCollisionPointRec_iff]
  unfold GuiButton
  by_cases hgate : (g.guiState ≠ STATE_DISABLED) ∧ g.guiLocked = false ∧
      g.guiSliderDragging = false
  · obtain ⟨h1, h2, h3⟩ := hgate
    simp only [if_pos (And.intro h1 (And.intro h2 h3))]
    by_cases hin : CheckCollisionPointRec inp.mousePosition bounds = true
    · simp only [if_pos hin]
      by_cases hd : inp.mouseLeftDown = true <;> by_cases hr : inp.mouseLeftReleased = true <;>
        simp [hd, hr, h1, h2, h3, hin]
    · simp only [if_neg hin]
      simp [h1, h2, h3, hin]
  · simp only [if_neg hgate]
    refine ⟨?_, ?_, ?_, ?_, ?_⟩
    · exact fun h => h
    · intro _ _
      trivial
    · intro h1 h2 h3
      exact absurd ⟨h1, h2, h3⟩ hgate
    · constructor
      · intro h
        exact absurd h (by decide)
      · rintro ⟨h1, h2, h3, _⟩
        exact absurd ⟨h1, h2, h3⟩ hgate
    · intro _
      trivial

/-- C18: value box clamp. With the GUI enabled, unlocked and no drag active, `GuiValueBox`
in non-edit mode with `minValue <= maxValue` leaves `*value` equal to the clamp of the
input value to `[minValue, maxValue]`; a value already in the range is unchanged. -/
theorem valuebox_clamps (GetTextWidth : List Nat → Int) (g : GuiSession) (inp : GuiInput)
    (bounds : Rectangle) (value minValue maxValue : Int)
    (henabled : g.guiState ≠ STATE_DISABLED) (hunlocked : g.guiLocked = false)
    (hnodrag : g.guiSliderDragging = false) (hrange : minValue ≤ maxValue) :
    (GuiValueBox GetTextWidth g inp bounds value minValue maxValue false).1
      = max minValue (min value maxValue) ∧
    (minValue ≤ value → value ≤ maxValue →
      (GuiValueBox GetTextWidth g inp bounds value minValue maxValue false).1 = value) := by
  unfold GuiValueBox
  simp only [if_pos (And.intro henabled (And.intro hunlocked hnodrag)), Bool.false_eq_true,
    if_false]
  constructor
  · split_ifs <;> simp only <;> omega
  · intro h1 h2
    split_ifs <;> simp only <;> omega

theorem valuebox_clamps_witness :
    (initialSession.guiState ≠ STATE_DISABLED ∧ initialSession.guiLocked = false ∧
      initialSession.guiSliderDragging = false ∧ (0 : Int) ≤ 10) ∧
    ((GuiValueBox (fun _ => 0) initialSession
        ⟨⟨0, 0⟩, false, false, false, 0, 0, false, false, false, false⟩
        ⟨10, 10, 100, 20⟩ 50 0 10 false).1 = max 0 (min 50 10) ∧
    ((0 : Int) ≤ 50 → (50 : Int) ≤ 10 →
      (GuiValueBox (fun _ => 0) initialSession
        ⟨⟨0, 0⟩, false, false, false, 0, 0, false, false, false, false⟩
        ⟨10, 10, 100, 20⟩ 50 0 10 false).1 = 50)) :=
  ⟨by decide, valuebox_clamps (fun _ => 0) initialSession
    ⟨⟨0, 0⟩, false, false, false, 0, 0, false, false, false, false⟩
    ⟨10, 10, 100, 20⟩ 50 0 10 (by decide) (by decide) (by decide) (by decide)⟩

/-! ## Theorems: drag mechanics -/

theorem CHECK_BOUNDS_ID_iff (a b : Rectangle) : CHECK_BOUNDS_ID a b = true ↔ a = b := by
  unfold CHECK_BOUNDS_ID
  simp only [decide_eq_true_eq]
  constructor
  · rintro ⟨h1, h2, h3, h4⟩
    cases a
    cases b
    simp only at h1 h2 h3 h4
    subst h1 h2 h3 h4
    rfl
  · rintro rfl
    exact ⟨rfl, rfl, rfl, rfl⟩

/-- A call of `GuiSliderPro` with the GUI disabled or locked changes nothing. -/
theorem sliderPro_gate_off (st : StyleState) (g : GuiSession) (inp : GuiInput)
    (bounds : Rectangle) (value minValue maxValue : ℚ) (sliderWidth : Int)
    (hgate : ¬ ((g.guiState ≠ STATE_DISABLED) ∧ g.guiLocked = false)) :
    GuiSliderPro st g inp bounds value minValue maxValue sliderWidth
      = { session := g, value := value, state := g.guiState } := by
  unfold GuiSliderPro
  simp only [if_neg hgate]

/-- A call of `GuiSliderPro` during a drag, with the left button down, by a control that
does not own the drag. -/
theorem sliderPro_other (st : StyleState) (g : GuiSession) (inp : GuiInput)
    (bounds : Rectangle) (value minValue maxValue : ℚ) (sliderWidth : Int)
    (henabled : g.guiState ≠ STATE_DISABLED) (hunlocked : g.guiLocked = false)
    (hdrag : g.guiSliderDragging = true) (hdown : inp.mouseLeftDown = true)
    (hother : bounds ≠ g.guiSliderActive) :
    GuiSliderPro st g inp bounds value minValue maxValue sliderWidth
      = { session := g, value := clampSlider value minValue maxValue, state := g.guiState } := by
  have hid : ¬ (CHECK_BOUNDS_ID bounds g.guiSliderActive = true) := by
    rw [CHECK_BOUNDS_ID_iff]
    exact hother
  unfold GuiSliderPro
  simp only [if_pos (And.intro henabled hunlocked), if_pos hdrag, if_pos hdown, if_neg hid]

/-- A call of `GuiSliderPro` during a drag with the left button up. -/
theorem sliderPro_release (st : StyleState) (g : GuiSession) (inp : GuiInput)
    (bounds : Rectangle) (value minValue maxValue : ℚ) (sliderWidth : Int)
    (henabled : g.guiState ≠ STATE_DISABLED) (hunlocked : g.guiLocked = false)
    (hdrag : g.guiSliderDragging = true) (hup : inp.mouseLeftDown = false) :
    GuiSliderPro st g inp bounds value minValue maxValue sliderWidth
      = { session := { g with guiSliderDragging := false, guiSliderActive := zeroRectangle }
          value := clampSlider value minValue maxValue
          state := g.guiState } := by
  unfold GuiSliderPro
  have hnd : ¬ (inp.mouseLeftDown = true) := by rw [hup]; decide
  simp only [if_pos (And.intro henabled hunlocked), if_pos hdrag, if_neg hnd]

/-- A call of `GuiSliderPro` by the owner of the drag with the left button down. -/
theorem sliderPro_owner (st : StyleState) (g : GuiSession) (inp : GuiInput)
    (bounds : Rectangle) (value minValue maxValue : ℚ) (sliderWidth : Int)
    (henabled : g.guiState ≠ STATE_DISABLED) (hunlocked : g.guiLocked = false)
    (hdrag : g.guiSliderDragging = true) (hown : g.guiSliderActive = bounds)
    (hdown : inp.mouseLeftDown = true) :
    GuiSliderPro st g inp bounds value minValue maxValue sliderWidth
      = { session := g
          value := clampSlider
            (sliderValueAt inp.mousePosition.x bounds minValue maxValue sliderWidth)
            minValue maxValue
          state := STATE_PRESSED } := by
  have hid : CHECK_BOUNDS_ID bounds g.guiSliderActive = true := by
    rw [CHECK_BOUNDS_ID_iff, hown]
  unfold GuiSliderPro
  simp only [if_pos (And.intro henabled hunlocked), if_pos hdrag, if_pos hdown, if_pos hid]

theorem clampSlider_of_mem (value minValue maxValue : ℚ) (h1 : minValue ≤ value)
    (h2 : value ≤ maxValue) : clampSlider value minValue maxValue = value := by
  unfold clampSlider
  rw [if_neg (not_lt.mpr h2), if_neg (not_lt.mpr h1)]

/-- C14 (amended): drag exclusivity. While a drag owned by slider A is active and the left
button is down, a call of `GuiSliderPro` for a slider B with other bounds, for every
pointer position, leaves the drag active with the identifier equal to A's bounds, and
derives the global state for B. B's value is never computed from the pointer: with the
GUI enabled and unlocked it becomes the clamp of the old value to `[minValue, maxValue]`
(`maxValue` when it is above, else `minValue` when it is below, else unchanged); with the
GUI disabled or locked it is unchanged. -/
theorem drag_exclusive (st : StyleState) (g : GuiSession) (inp : GuiInput)
    (boundsA boundsB : Rectangle) (value minValue maxValue : ℚ) (sliderWidth : Int)
    (hdrag : g.guiSliderDragging = true) (hA : g.guiSliderActive = boundsA)
    (hAB : boundsB ≠ boundsA) (hdown : inp.mouseLeftDown = true) :
    (GuiSliderPro st g inp boundsB value minValue maxValue sliderWidth).session.guiSliderDragging
      = true ∧
    (GuiSliderPro st g inp boundsB value minValue maxValue sliderWidth).session.guiSliderActive
      = boundsA ∧
    (GuiSliderPro st g inp boundsB value minValue maxValue sliderWidth).state = g.guiState ∧
    ((g.guiState ≠ STATE_DISABLED ∧ g.guiLocked = false) →
      (GuiSliderPro st g inp boundsB value minValue maxValue sliderWidth).value
        = clampSlider value minValue maxValue ∧
      (value > maxValue →
        (GuiSliderPro st g inp boundsB value minValue maxValue sliderWidth).value = maxValue) ∧
      (value ≤ maxValue → value < minValue →
        (GuiSliderPro st g inp boundsB value minValue maxValue sliderWidth).value = minValue) ∧
      (minValue ≤ value → value ≤ maxValue →
        (GuiSliderPro st g inp boundsB value minValue maxValue sliderWidth).value = value)) ∧
    (¬ (g.guiState ≠ STATE_DISABLED ∧ g.guiLocked = false) →
      (GuiSliderPro st g inp boundsB value minValue maxValue sliderWidth).value = value) := by
  by_cases hgate : (g.guiState ≠ STATE_DISABLED) ∧ g.guiLocked = false
  · rw [sliderPro_other st g inp boundsB value minValue maxValue sliderWidth hgate.1 hgate.2
      hdrag hdown (by rw [hA]; exact hAB)]
    refine ⟨hdrag, hA, rfl, fun _ => ⟨rfl, ?_, ?_, ?_⟩, fun h => absurd hgate h⟩
    · intro h
      show clampSlider value minValue maxValue = maxValue
      unfold clampSlider
      rw [if_pos h]
    · intro h1 h2
      show clampSlider value minValue maxValue = minValue
      unfold clampSlider
      rw [if_neg (not_lt.mpr h1), if_pos h2]
    · intro h1 h2
      exact clampSlider_of_mem value minValue maxValue h1 h2
  · rw [sliderPro_gate_off st g inp boundsB value minValue maxValue sliderWidth hgate]
    exact ⟨hdrag, hA, rfl, fun h => absurd h hgate, fun _ => rfl⟩

theorem drag_exclusive_witness :
    ((draggingSession ⟨0, 0, 100, 20⟩).guiSliderDragging = true ∧
      (draggingSession ⟨0, 0, 100, 20⟩).guiSliderActive = ⟨0, 0, 100, 20⟩ ∧
      (⟨0, 30, 100, 20⟩ : Rectangle) ≠ ⟨0, 0, 100, 20⟩ ∧
      ({ pointerAt 50 40 with mouseLeftDown := true } : GuiInput).mouseLeftDown = true) ∧
    ((GuiSliderPro defaultStyle (draggingSession ⟨0, 0, 100, 20⟩)
        { pointerAt 50 40 with mouseLeftDown := true } ⟨0, 30, 100, 20⟩ (3 / 2) 0 1
        16).session.guiSliderDragging = true ∧
    (GuiSliderPro defaultStyle (draggingSession ⟨0, 0, 100, 20⟩)
        { pointerAt 50 40 with mouseLeftDown := true } ⟨0, 30, 100, 20⟩ (3 / 2) 0 1
        16).session.guiSliderActive = ⟨0, 0, 100, 20⟩ ∧
    (GuiSliderPro defaultStyle (draggingSession ⟨0, 0, 100, 20⟩)
        { pointerAt 50 40 with mouseLeftDown := true } ⟨0, 30, 100, 20⟩ (3 / 2) 0 1
        16).state = (draggingSession ⟨0, 0, 100, 20⟩).guiState ∧
    (((draggingSession ⟨0, 0, 100, 20⟩).guiState ≠ STATE_DISABLED
        ∧ (draggingSession ⟨0, 0, 100, 20⟩).guiLocked = false) →
      (GuiSliderPro defaultStyle (draggingSession ⟨0, 0, 100, 20⟩)
        { pointerAt 50 40 with mouseLeftDown := true } ⟨0, 30, 100, 20⟩ (3 / 2) 0 1
        16).value = clampSlider (3 / 2) 0 1 ∧
      ((3 / 2 : ℚ) > 1 →
        (GuiSliderPro defaultStyle (draggingSession ⟨0, 0, 100, 20⟩)
          { pointerAt 50 40 with mouseLeftDown := true } ⟨0, 30, 100, 20⟩ (3 / 2) 0 1
          16).value = 1) ∧
      ((3 / 2 : ℚ) ≤ 1 → (3 / 2 : ℚ) < 0 →
        (GuiSliderPro defaultStyle (draggingSession ⟨0, 0, 100, 20⟩)
          { pointerAt 50 40 with mouseLeftDown := true } ⟨0, 30, 100, 20⟩ (3 / 2) 0 1
          16).value = 0) ∧
      ((0 : ℚ) ≤ 3 / 2 → (3 / 2 : ℚ) ≤ 1 →
        (GuiSliderPro defaultStyle (draggingSession ⟨0, 0, 100, 20⟩)
          { pointerAt 50 40 with mouseLeftDown := true } ⟨0, 30, 100, 20⟩ (3 / 2) 0 1
          16).value = 3 / 2)) ∧
    (¬ ((draggingSession ⟨0, 0, 100, 20⟩).guiState ≠ STATE_DISABLED
        ∧ (draggingSession ⟨0, 0, 100, 20⟩).guiLocked = false) →
      (GuiSliderPro defaultStyle (draggingSession ⟨0, 0, 100, 20⟩)
        { pointerAt 50 40 with mouseLeftDown := true } ⟨0, 30, 100, 20⟩ (3 / 2) 0 1
        16).value = 3 / 2)) :=
  ⟨by decide, drag_exclusive defaultStyle (draggingSession ⟨0, 0, 100, 20⟩)
    { pointerAt 50 40 with mouseLeftDown := true } ⟨0, 0, 100, 20⟩ ⟨0, 30, 100, 20⟩ (3 / 2) 0 1
    16 (by decide) (by decide) (by decide) (by decide)⟩

/-- The claim C14 fails as stated: during a drag owned by slider A with bounds
`{0, 0, 100, 20}` and the left button down, a call of `GuiSliderPro` for slider B with
bounds `{0, 30, 100, 20}`, range `[0, 1]` and value 5 leaves the identifier at A's bounds
but changes B's value to 1. -/
theorem drag_exclusive_counterexample :
    (draggingSession ⟨0, 0, 100, 20⟩).guiSliderDragging = true ∧
    (draggingSession ⟨0, 0, 100, 20⟩).guiSliderActive = ⟨0, 0, 100, 20⟩ ∧
    (GuiSliderPro defaultStyle (draggingSession ⟨0, 0, 100, 20⟩)
        { pointerAt 50 40 with mouseLeftDown := true } ⟨0, 30, 100, 20⟩ 5 0 1
        16).session.guiSliderActive = ⟨0, 0, 100, 20⟩ ∧
    (GuiSliderPro defaultStyle (draggingSession ⟨0, 0, 100, 20⟩)
        { pointerAt 50 40 with mouseLeftDown := true } ⟨0, 30, 100, 20⟩ 5 0 1 16).value = 1 ∧
    (GuiSliderPro defaultStyle (draggingSession ⟨0, 0, 100, 20⟩)
        { pointerAt 50 40 with mouseLeftDown := true } ⟨0, 30, 100, 20⟩ 5 0 1 16).value ≠ 5 := by
  rw [sliderPro_other defaultStyle (draggingSession ⟨0, 0, 100, 20⟩)
    { pointerAt 50 40 with mouseLeftDown := true } ⟨0, 30, 100, 20⟩ 5 0 1 16
    (by decide) (by decide) (by decide) (by decide) (by decide)]
  refine ⟨rfl, rfl, rfl, ?_, ?_⟩ <;> norm_num [clampSlider]

/-- C16: drag end on release. With the GUI enabled and unlocked, a drag active and the
left button not down, a call of `GuiSliderPro` clears the drag flag and resets the
identifier to the zero rectangle, for every pointer position; the value it leaves is the
clamp of the old value to the range and so does not depend on the pointer: any two inputs
with the button up give the same outcome. -/
theorem drag_ends_on_release (st : StyleState) (g : GuiSession) (inp inp1 : GuiInput)
    (bounds : Rectangle) (value minValue maxValue : ℚ) (sliderWidth : Int)
    (henabled : g.guiState ≠ STATE_DISABLED) (hunlocked : g.guiLocked = false)
    (hdrag : g.guiSliderDragging = true) (hup : inp.mouseLeftDown = false)
    (hup1 : inp1.mouseLeftDown = false) :
    (GuiSliderPro st g inp bounds value minValue maxValue sliderWidth).session.guiSliderDragging
      = false ∧
    (GuiSliderPro st g inp bounds value minValue maxValue sliderWidth).session.guiSliderActive
      = zeroRectangle ∧
    (GuiSliderPro st g inp bounds value minValue maxValue sliderWidth).value
      = clampSlider value minValue maxValue ∧
    GuiSliderPro st g inp1 bounds value minValue maxValue sliderWidth
      = GuiSliderPro st g inp bounds value minValue maxValue sliderWidth := by
  rw [sliderPro_release st g inp bounds value minValue maxValue sliderWidth henabled hunlocked
      hdrag hup,
    sliderPro_release st g inp1 bounds value minValue maxValue sliderWidth henabled hunlocked
      hdrag hup1]
  exact ⟨rfl, rfl, rfl, rfl⟩

theorem drag_ends_on_release_witness :
    ((draggingSession ⟨0, 0, 100, 20⟩).guiState ≠ STATE_DISABLED ∧
      (draggingSession ⟨0, 0, 100, 20⟩).guiLocked = false ∧
      (draggingSession ⟨0, 0, 100, 20⟩).guiSliderDragging = true ∧
      (pointerAt 500 500).mouseLeftDown = false ∧ (pointerAt 50 10).mouseLeftDown = false) ∧
    ((GuiSliderPro defaultStyle (draggingSession ⟨0, 0, 100, 20⟩) (pointerAt 500 500)
        ⟨0, 0, 100, 20⟩ (1 / 2) 0 1 16).session.guiSliderDragging = false ∧
    (GuiSliderPro defaultStyle (draggingSession ⟨0, 0, 100, 20⟩) (pointerAt 500 500)
        ⟨0, 0, 100, 20⟩ (1 / 2) 0 1 16).session.guiSliderActive = zeroRectangle ∧
    (GuiSliderPro defaultStyle (draggingSession ⟨0, 0, 100, 20⟩) (pointerAt 500 500)
        ⟨0, 0, 100, 20⟩ (1 / 2) 0 1 16).value = clampSlider (1 / 2) 0 1 ∧
    GuiSliderPro defaultStyle (draggingSession ⟨0, 0, 100, 20⟩) (pointerAt 50 10)
        ⟨0, 0, 100, 20⟩ (1 / 2) 0 1 16
      = GuiSliderPro defaultStyle (draggingSession ⟨0, 0, 100, 20⟩) (pointerAt 500 500)
        ⟨0, 0, 100, 20⟩ (1 / 2) 0 1 16) :=
  ⟨by decide, drag_ends_on_release defaultStyle (draggingSession ⟨0, 0, 100, 20⟩)
    (pointerAt 500 500) (pointerAt 50 10) ⟨0, 0, 100, 20⟩ (1 / 2) 0 1 16
    (by decide) (by decide) (by decide) (by decide) (by decide)⟩

theorem clampSlider_mem (value minValue maxValue : ℚ) (h : minValue ≤ maxValue) :
    minValue ≤ clampSlider value minValue maxValue ∧
    clampSlider value minValue maxValue ≤ maxValue := by
  unfold clampSlider
  split_ifs with h1 h2
  · exact ⟨h, le_refl _⟩
  · exact ⟨le_refl _, h⟩
  · exact ⟨not_lt.mp h2, not_lt.mp h1⟩

/-- C17 (amended): slider value mapping. During a drag owned by a `GuiSliderPro` control
(drag active, identifier equal to its bounds, left button down, GUI enabled and unlocked),
with `minValue < maxValue` and `bounds.width > sliderWidth >= 0`, the new value is the
clamp to `[minValue, maxValue]` of the linear map that sends pointer
`x = bounds.x + sliderWidth/2` (division of `int`: the track start plus half the selector)
to `minValue` and `x = bounds.x + sliderWidth/2 + bounds.width - sliderWidth` to
`maxValue`. -/
theorem slider_value_mapping (st : StyleState) (g : GuiSession) (inp : GuiInput)
    (bounds : Rectangle) (value minValue maxValue : ℚ) (sliderWidth : Int)
    (henabled : g.guiState ≠ STATE_DISABLED) (hunlocked : g.guiLocked = false)
    (hdrag : g.guiSliderDragging = true) (hown : g.guiSliderActive = bounds)
    (hdown : inp.mouseLeftDown = true) (hrange : minValue < maxValue)
    (hwidth : (sliderWidth : ℚ) < bounds.width) (_hsw : 0 ≤ sliderWidth) :
    (GuiSliderPro st g inp bounds value minValue maxValue sliderWidth).value
      = clampSlider (sliderValueAt inp.mousePosition.x bounds minValue maxValue sliderWidth)
          minValue maxValue ∧
    (∀ x : ℚ, sliderValueAt x bounds minValue maxValue sliderWidth
      = minValue + (maxValue - minValue)
          * (x - (bounds.x + ((Int.tdiv sliderWidth 2 : Int) : ℚ)))
          / (bounds.width - (sliderWidth : ℚ))) ∧
    sliderValueAt (bounds.x + ((Int.tdiv sliderWidth 2 : Int) : ℚ)) bounds minValue maxValue
      sliderWidth = minValue ∧
    sliderValueAt (bounds.x + ((Int.tdiv sliderWidth 2 : Int) : ℚ)
        + (bounds.width - (sliderWidth : ℚ))) bounds minValue maxValue sliderWidth
      = maxValue ∧
    minValue ≤ (GuiSliderPro st g inp bounds value minValue maxValue sliderWidth).value ∧
    (GuiSliderPro st g inp bounds value minValue maxValue sliderWidth).value ≤ maxValue := by
  have hne : bounds.width - (sliderWidth : ℚ) ≠ 0 := by
    intro h
    linarith
  rw [sliderPro_owner st g inp bounds value minValue maxValue sliderWidth henabled hunlocked
    hdrag hown hdown]
  refine ⟨rfl, ?_, ?_, ?_, (clampSlider_mem _ _ _ (le_of_lt hrange)).1,
    (clampSlider_mem _ _ _ (le_of_lt hrange)).2⟩
  · intro x
    unfold sliderValueAt
    ring
  · unfold sliderValueAt
    simp
  · unfold sliderValueAt
    field_simp

theorem slider_value_mapping_witness :
    ((draggingSession ⟨0, 0, 100, 20⟩).guiState ≠ STATE_DISABLED ∧
      (draggingSession ⟨0, 0, 100, 20⟩).guiLocked = false ∧
      (draggingSession ⟨0, 0, 100, 20⟩).guiSliderDragging = true ∧
      (draggingSession ⟨0, 0, 100, 20⟩).guiSliderActive = ⟨0, 0, 100, 20⟩ ∧
      ({ pointerAt 50 10 with mouseLeftDown := true } : GuiInput).mouseLeftDown = true ∧
      (0 : ℚ) < 1 ∧ (((16 : Int) : ℚ)) < (⟨0, 0, 100, 20⟩ : Rectangle).width ∧
      (0 : Int) ≤ 16) ∧
    ((GuiSliderPro defaultStyle (draggingSession ⟨0, 0, 100, 20⟩)
        { pointerAt 50 10 with mouseLeftDown := true } ⟨0, 0, 100, 20⟩ 0 0 1 16).value
      = clampSlider (sliderValueAt
          ({ pointerAt 50 10 with mouseLeftDown := true } : GuiInput).mousePosition.x
          ⟨0, 0, 100, 20⟩ 0 1 16) 0 1 ∧
    (∀ x : ℚ, sliderValueAt x ⟨0, 0, 100, 20⟩ 0 1 16
      = 0 + (1 - 0)
          * (x - ((⟨0, 0, 100, 20⟩ : Rectangle).x + ((Int.tdiv 16 2 : Int) : ℚ)))
          / ((⟨0, 0, 100, 20⟩ : Rectangle).width - ((16 : Int) : ℚ))) ∧
    sliderValueAt ((⟨0, 0, 100, 20⟩ : Rectangle).x + ((Int.tdiv 16 2 : Int) : ℚ))
      ⟨0, 0, 100, 20⟩ 0 1 16 = 0 ∧
    sliderValueAt ((⟨0, 0, 100, 20⟩ : Rectangle).x + ((Int.tdiv 16 2 : Int) : ℚ)
        + ((⟨0, 0, 100, 20⟩ : Rectangle).width - ((16 : Int) : ℚ))) ⟨0, 0, 100, 20⟩ 0 1 16
      = 1 ∧
    0 ≤ (GuiSliderPro defaultStyle (draggingSession ⟨0, 0, 100, 20⟩)
        { pointerAt 50 10 with mouseLeftDown := true } ⟨0, 0, 100, 20⟩ 0 0 1 16).value ∧
    (GuiSliderPro defaultStyle (draggingSession ⟨0, 0, 100, 20⟩)
        { pointerAt 50 10 with mouseLeftDown := true } ⟨0, 0, 100, 20⟩ 0 0 1 16).value ≤ 1) :=
  ⟨⟨by decide, by decide, by decide, by decide, by decide, by norm_num, by norm_num,
      by decide⟩,
    slider_value_mapping defaultStyle (draggingSession ⟨0, 0, 100, 20⟩)
      { pointerAt 50 10 with mouseLeftDown := true } ⟨0, 0, 100, 20⟩ 0 0 1 16
      (by decide) (by decide) (by decide) (by decide) (by decide) (by norm_num)
      (by norm_num) (by decide)⟩

/-- The claim C17 fails as stated: for the slider with bounds `{0, 0, 100, 20}`, range
`[0, 1]` and `sliderWidth = 16` that owns the drag, the pointer at `x = 50` gives the value
`1/2`, while the clamp of the linear map that sends `bounds.x` to `minValue` and
`bounds.x + bounds.width - sliderWidth` to `maxValue` is `25/42` there. -/
theorem slider_value_mapping_counterexample :
    (GuiSliderPro defaultStyle (draggingSession ⟨0, 0, 100, 20⟩)
        { pointerAt 50 10 with mouseLeftDown := true } ⟨0, 0, 100, 20⟩ 0 0 1 16).value
      = 1 / 2 ∧
    clampSlider (specSliderValueAt 50 ⟨0, 0, 100, 20⟩ 0 1 16) 0 1 = 25 / 42 ∧
    specSliderValueAt 0 ⟨0, 0, 100, 20⟩ 0 1 16 = 0 ∧
    specSliderValueAt (0 + 100 - 16) ⟨0, 0, 100, 20⟩ 0 1 16 = 1 ∧
    (GuiSliderPro defaultStyle (draggingSession ⟨0, 0, 100, 20⟩)
        { pointerAt 50 10 with mouseLeftDown := true } ⟨0, 0, 100, 20⟩ 0 0 1 16).value
      ≠ clampSlider (specSliderValueAt 50 ⟨0, 0, 100, 20⟩ 0 1 16) 0 1 := by
  rw [sliderPro_owner defaultStyle (draggingSession ⟨0, 0, 100, 20⟩)
    { pointerAt 50 10 with mouseLeftDown := true } ⟨0, 0, 100, 20⟩ 0 0 1 16
    (by decide) (by decide) (by decide) (by decide) (by decide)]
  have h1 : sliderValueAt
      ({ pointerAt 50 10 with mouseLeftDown := true } : GuiInput).mousePosition.x
      ⟨0, 0, 100, 20⟩ 0 1 16 = 1 / 2 := by
    norm_num [sliderValueAt, pointerAt, Int.tdiv]
  have h2 : specSliderValueAt 50 ⟨0, 0, 100, 20⟩ 0 1 16 = 25 / 42 := by
    norm_num [specSliderValueAt]
  simp only [h1, h2]
  refine ⟨?_, ?_, ?_, ?_, ?_⟩ <;> norm_num [clampSlider, specSliderValueAt]

theorem sliderPro_transition (st : StyleState) (g : GuiSession) (inp : GuiInput)
    (bounds : Rectangle) (value minValue maxValue : ℚ) (sliderWidth : Int) :
    dragTransition g (GuiSliderPro st g inp bounds value minValue maxValue sliderWidth).session
      (some bounds) := by
  unfold GuiSliderPro dragTransition
  simp only []
  split_ifs <;> simp_all

theorem colorBarAlpha_transition (st : StyleState) (g : GuiSession) (inp : GuiInput)
    (bounds : Rectangle) (alpha : ℚ) :
    dragTransition g (GuiColorBarAlpha st g inp bounds alpha).session (some bounds) := by
  unfold GuiColorBarAlpha dragTransition
  simp only []
  split_ifs <;> simp_all

theorem colorBarHue_transition (st : StyleState) (g : GuiSession) (inp : GuiInput)
    (bounds : Rectangle) (hue : ℚ) :
    dragTransition g (GuiColorBarHue st g inp bounds hue).session (some bounds) := by
  unfold GuiColorBarHue dragTransition
  simp only []
  split_ifs <;> simp_all

theorem scrollBarUpdate_transition (g : GuiSession) (inp : GuiInput)
    (bounds arrowUpLeft arrowDownRight slider : Rectangle)
    (value positionValue valueRange scrollSpeed : Int) :
    dragTransition g (scrollBarUpdate g inp bounds arrowUpLeft arrowDownRight slider value
      positionValue valueRange scrollSpeed).1 (some bounds) := by
  unfold scrollBarUpdate dragTransition
  simp only []
  split_ifs <;> simp_all

theorem dragTransition_refl (g : GuiSession) (b : Option Rectangle) : dragTransition g g b :=
  Or.inl ⟨rfl, rfl⟩

theorem scrollBar_transition (st : StyleState) (g : GuiSession) (inp : GuiInput)
    (bounds : Rectangle) (value minValue maxValue : Int) :
    dragTransition g (GuiScrollBar st g inp bounds value minValue maxValue).session
      (some bounds) := by
  unfold GuiScrollBar
  by_cases hgate : (g.guiState ≠ STATE_DISABLED) ∧ g.guiLocked = false
  · simp only [if_pos hgate]
    exact scrollBarUpdate_transition _ _ _ _ _ _ _ _ _ _
  · simp only [if_neg hgate]
    exact dragTransition_refl _ _

theorem applyCall_transition (g : GuiSession) (c : SessionCall) :
    dragTransition g (applyCall g c) (callBounds c) := by
  cases c with
  | sliderPro st inp bounds value minValue maxValue sliderWidth =>
    exact sliderPro_transition st g inp bounds value minValue maxValue sliderWidth
  | scrollBar st inp bounds value minValue maxValue =>
    exact scrollBar_transition st g inp bounds value minValue maxValue
  | colorBarAlpha st inp bounds alpha => exact colorBarAlpha_transition st g inp bounds alpha
  | colorBarHue st inp bounds hue => exact colorBarHue_transition st g inp bounds hue
  | enable =>
    refine Or.inl ?_
    simp only [applyCall, GuiEnable]
    split_ifs <;> exact ⟨rfl, rfl⟩
  | disable =>
    refine Or.inl ?_
    simp only [applyCall, GuiDisable]
    split_ifs <;> exact ⟨rfl, rfl⟩
  | lock => exact Or.inl ⟨rfl, rfl⟩
  | unlock => exact Or.inl ⟨rfl, rfl⟩
  | setState state => exact Or.inl ⟨rfl, rfl⟩

theorem foldl_applyCall_invariant (calls : List SessionCall) (g : GuiSession)
    (h : g.guiSliderDragging = false → g.guiSliderActive = zeroRectangle) :
    (calls.foldl applyCall g).guiSliderDragging = false →
      (calls.foldl applyCall g).guiSliderActive = zeroRectangle := by
  induction calls generalizing g with
  | nil => exact h
  | cons c rest ih =>
    simp only [List.foldl_cons]
    apply ih
    intro hd
    rcases applyCall_transition g c with ⟨h1, h2⟩ | ⟨_, _, h3⟩ | ⟨_, h2, _⟩
    · rw [h2]
      exact h (by rw [← h1]; exact hd)
    · exact h3
    · rw [hd] at h2
      exact absurd h2 (by decide)

/-- C15: single-drag invariant of the session state. For every call of a drag-capable
control (`GuiSliderPro`, `GuiScrollBar`, `GuiColorBarAlpha`, `GuiColorBarHue`) and of a
setter of the global state, and every input: if a drag is active before the call with
identifier R, then after it either the drag is still active with identifier R or no drag
is active and the identifier is the zero rectangle; a call that changes the identifier
either ends a drag (identifier zero) or was made while no drag was active and set it to its
own bounds; hence after every sequence of calls from program start, "no drag active"
implies "identifier = {0, 0, 0, 0}". -/
theorem single_drag_invariant :
    (∀ (g : GuiSession) (c : SessionCall), g.guiSliderDragging = true →
      ((applyCall g c).guiSliderDragging = true ∧
        (applyCall g c).guiSliderActive = g.guiSliderActive) ∨
      ((applyCall g c).guiSliderDragging = false ∧
        (applyCall g c).guiSliderActive = zeroRectangle)) ∧
    (∀ (g : GuiSession) (c : SessionCall),
      (applyCall g c).guiSliderActive ≠ g.guiSliderActive →
      ((applyCall g c).guiSliderDragging = false ∧
        (applyCall g c).guiSliderActive = zeroRectangle) ∨
      (g.guiSliderDragging = false ∧ (applyCall g c).guiSliderDragging = true ∧
        callBounds c = some (applyCall g c).guiSliderActive)) ∧
    (∀ calls : List SessionCall, (runSession calls).guiSliderDragging = false →
      (runSession calls).guiSliderActive = zeroRectangle) := by
  refine ⟨?_, ?_, ?_⟩
  · intro g c hd
    rcases applyCall_transition g c with ⟨h1, h2⟩ | ⟨_, h2, h3⟩ | ⟨h1, _, _⟩
    · exact Or.inl ⟨by rw [h1]; exact hd, h2⟩
    · exact Or.inr ⟨h2, h3⟩
    · rw [hd] at h1
      exact absurd h1 (by decide)
  · intro g c hne
    rcases applyCall_transition g c with ⟨_, h2⟩ | ⟨_, h2, h3⟩ | ⟨h1, h2, h3⟩
    · exact absurd h2 hne
    · exact Or.inl ⟨h2, h3⟩
    · exact Or.inr ⟨h1, h2, h3⟩
  · intro calls
    exact foldl_applyCall_invariant calls initialSession (fun _ => rfl)

/-! ## Theorems: scroll bar and scroll panel -/

set_option maxRecDepth 100000 in
theorem defaultStyle_values :
    getStyle defaultStyle DEFAULT BORDER_WIDTH = 1 ∧
    getStyle defaultStyle LISTVIEW SCROLLBAR_WIDTH = 12 ∧
    getStyle defaultStyle LISTVIEW SCROLLBAR_SIDE = 1 ∧
    getStyle defaultStyle SCROLLBAR SCROLL_SLIDER_SIZE = 16 ∧
    getStyle defaultStyle SCROLLBAR BORDER_WIDTH = 0 ∧
    getStyle defaultStyle SCROLLBAR SCROLL_PADDING = 0 ∧
    getStyle defaultStyle SCROLLBAR SCROLL_SLIDER_PADDING = 0 ∧
    getStyle defaultStyle SCROLLBAR ARROWS_VISIBLE = 0 ∧
    getStyle defaultStyle SCROLLBAR SCROLL_SPEED = 12 := by
  decide

theorem truncToInt_intCast (n : Int) : truncToInt (n : ℚ) = n := by
  unfold truncToInt
  split <;> simp

/-- Every slot read through `getStyle` after a `GuiSetStyle` on a loaded table. -/
theorem getStyle_setStyleBody (st : StyleState) (c p c1 p1 : Nat) (v : Int)
    (hp : p < 24) (hp1 : p1 < 24) (hc1 : c1 < 16) :
    getStyle (setStyleBody st c p v) c1 p1
      = if (c1 = c ∧ p1 = p) ∨ (c = 0 ∧ p < 16 ∧ p1 = p) then toInt32 (toUInt32 v)
        else getStyle st c1 p1 := by
  unfold getStyle
  rw [setStyleBody_slot st c p c1 p1 v hp hp1 hc1]
  split <;> rfl

/-- What `GuiScrollBar` reads from the style table after `GuiSetStyle(SCROLLBAR,
SCROLL_SLIDER_SIZE, v)`. -/
theorem getStyle_setSliderSize (st : StyleState) (v : Int) :
    getStyle (setStyleBody st SCROLLBAR SCROLL_SLIDER_SIZE v) SCROLLBAR SCROLL_SLIDER_SIZE
      = toInt32 (toUInt32 v) ∧
    getStyle (setStyleBody st SCROLLBAR SCROLL_SLIDER_SIZE v) SCROLLBAR BORDER_WIDTH
      = getStyle st SCROLLBAR BORDER_WIDTH ∧
    getStyle (setStyleBody st SCROLLBAR SCROLL_SLIDER_SIZE v) SCROLLBAR SCROLL_PADDING
      = getStyle st SCROLLBAR SCROLL_PADDING ∧
    getStyle (setStyleBody st SCROLLBAR SCROLL_SLIDER_SIZE v) SCROLLBAR SCROLL_SLIDER_PADDING
      = getStyle st SCROLLBAR SCROLL_SLIDER_PADDING ∧
    getStyle (setStyleBody st SCROLLBAR SCROLL_SLIDER_SIZE v) SCROLLBAR ARROWS_VISIBLE
      = getStyle st SCROLLBAR ARROWS_VISIBLE ∧
    getStyle (setStyleBody st SCROLLBAR SCROLL_SLIDER_SIZE v) SCROLLBAR SCROLL_SPEED
      = getStyle st SCROLLBAR SCROLL_SPEED := by
  refine ⟨?_, ?_, ?_, ?_, ?_, ?_⟩ <;>
    (rw [getStyle_setStyleBody _ _ _ _ _ _ (by decide) (by decide) (by decide)]
     first
       | exact if_pos (by decide)
       | exact if_neg (by decide))

theorem normalizeValue_eq (value minValue maxValue : Int) (h : minValue ≤ maxValue) :
    normalizeValue value minValue maxValue = max minValue (min value maxValue) := by
  unfold normalizeValue
  simp only []
  split_ifs <;> omega

/-- The value `GuiScrollBar` returns when hovered without a drag and without a press. -/
theorem scrollBar_hover_value (st : StyleState) (g : GuiSession) (inp : GuiInput)
    (bounds : Rectangle) (value minValue maxValue : Int)
    (henabled : g.guiState ≠ STATE_DISABLED) (hunlocked : g.guiLocked = false)
    (hnodrag : g.guiSliderDragging = false)
    (hhover : CheckCollisionPointRec inp.mousePosition bounds = true)
    (hnopress : inp.mouseLeftPressed = false) :
    (GuiScrollBar st g inp bounds value minValue maxValue).value
      = normalizeValue (normalizeValue value minValue maxValue
          + truncToInt inp.mouseWheelMove) minValue maxValue ∧
    (GuiScrollBar st g inp bounds value minValue maxValue).session = g := by
  have h1 : ¬ (g.guiSliderDragging = true) := by rw [hnodrag]; decide
  have h2 : ¬ (inp.mouseLeftPressed = true) := by rw [hnopress]; decide
  unfold GuiScrollBar
  simp only [if_pos (And.intro henabled hunlocked)]
  unfold scrollBarUpdate
  simp only [if_neg h1, if_pos hhover, if_neg h2]
  by_cases hw : truncToInt inp.mouseWheelMove ≠ 0
  · simp only [if_pos hw, and_self]
  · simp only [if_neg hw]
    rw [not_not.mp hw, add_zero]
    exact ⟨rfl, trivial⟩

/-- C19 (amended): scroll bar step size. For an enabled, unlocked `GuiScrollBar` that is
hovered with no drag active and `minValue <= maxValue`, a mouse-wheel movement of `w`
notches (`w = (int)GetMouseWheelMove()`) without a button press returns
`clamp(clamp(value) + w, minValue, maxValue)` and leaves the session globals: one wheel
notch moves the value by 1, whereas a click on an arrow button (with no wheel movement)
moves it by `valueRange / SCROLL_SPEED`, down on the up/left arrow and up on the
down/right arrow. -/
theorem scrollbar_wheel_step (st : StyleState) (g : GuiSession) (inp : GuiInput)
    (bounds : Rectangle) (value minValue maxValue : Int)
    (henabled : g.guiState ≠ STATE_DISABLED) (hunlocked : g.guiLocked = false)
    (hnodrag : g.guiSliderDragging = false)
    (hhover : bounds.x ≤ inp.mousePosition.x ∧ inp.mousePosition.x ≤ bounds.x + bounds.width ∧
      bounds.y ≤ inp.mousePosition.y ∧ inp.mousePosition.y ≤ bounds.y + bounds.height)
    (hnopress : inp.mouseLeftPressed = false) (hrange : minValue ≤ maxValue) :
    (GuiScrollBar st g inp bounds value minValue maxValue).value
      = max minValue (min (max minValue (min value maxValue)
          + truncToInt inp.mouseWheelMove) maxValue) ∧
    (GuiScrollBar st g inp bounds value minValue maxValue).session = g ∧
    (∀ (inp1 : GuiInput) (arrowUpLeft arrowDownRight slider : Rectangle)
        (v positionValue valueRange scrollSpeed : Int),
      CheckCollisionPointRec inp1.mousePosition bounds = true →
      inp1.mouseLeftPressed = true → truncToInt inp1.mouseWheelMove = 0 →
      (CheckCollisionPointRec inp1.mousePosition arrowUpLeft = true →
        (scrollBarUpdate g inp1 bounds arrowUpLeft arrowDownRight slider v positionValue
          valueRange scrollSpeed).2.1 = v - Int.tdiv valueRange scrollSpeed) ∧
      (CheckCollisionPointRec inp1.mousePosition arrowUpLeft = false →
        CheckCollisionPointRec inp1.mousePosition arrowDownRight = true →
        (scrollBarUpdate g inp1 bounds arrowUpLeft arrowDownRight slider v positionValue
          valueRange scrollSpeed).2.1 = v + Int.tdiv valueRange scrollSpeed)) := by
  have hh := (CheckCollisionPointRec_iff inp.mousePosition bounds).2 hhover
  obtain ⟨e1, e2⟩ := scrollBar_hover_value st g inp bounds value minValue maxValue henabled
    hunlocked hnodrag hh hnopress
  refine ⟨?_, e2, ?_⟩
  · rw [e1, normalizeValue_eq _ _ _ hrange, normalizeValue_eq _ _ _ hrange]
  · intro inp1 arrowUpLeft arrowDownRight slider v positionValue valueRange scrollSpeed
      hhov hpress hwheel
    have h1 : ¬ (g.guiSliderDragging = true) := by rw [hnodrag]; decide
    have hw : ¬ (truncToInt inp1.mouseWheelMove ≠ 0) := not_not.mpr hwheel
    constructor
    · intro hul
      unfold scrollBarUpdate
      simp only [if_neg h1, if_pos hhov, if_pos hpress, if_pos hul, if_neg hw]
    · intro hul hdr
      have hul1 : ¬ (CheckCollisionPointRec inp1.mousePosition arrowUpLeft = true) := by
        rw [hul]; decide
      unfold scrollBarUpdate
      simp only [if_neg h1, if_pos hhov, if_pos hpress, if_neg hul1, if_pos hdr, if_neg hw]

/-- The claim C19 fails as stated: for the hovered scroll bar with bounds
`{0, 0, 12, 200}`, the default style (`SCROLL_SPEED = 12`), range `[0, 120]` and value 50,
one wheel notch without a button press returns 51, not
`clamp(50 + 1*(120/12), 0, 120) = 60`. -/
theorem scrollbar_wheel_step_counterexample :
    (GuiScrollBar defaultStyle initialSession { pointerAt 5 50 with mouseWheelMove := 1 }
        ⟨0, 0, 12, 200⟩ 50 0 120).value = 51 ∧
    specWheelValue 50 1 0 120 (getStyle defaultStyle SCROLLBAR SCROLL_SPEED) = 60 ∧
    (GuiScrollBar defaultStyle initialSession { pointerAt 5 50 with mouseWheelMove := 1 }
        ⟨0, 0, 12, 200⟩ 50 0 120).value
      ≠ specWheelValue 50 1 0 120 (getStyle defaultStyle SCROLLBAR SCROLL_SPEED) := by
  have hv := (scrollBar_hover_value defaultStyle initialSession
    { pointerAt 5 50 with mouseWheelMove := 1 } ⟨0, 0, 12, 200⟩ 50 0 120
    (by decide) (by decide) (by decide)
    (by rw [CheckCollisionPointRec_iff]; norm_num [pointerAt]) (by decide)).1
  have ht : truncToInt ({ pointerAt 5 50 with mouseWheelMove := 1 } : GuiInput).mouseWheelMove
      = 1 := truncToInt_intCast 1
  rw [hv, ht, defaultStyle_values.2.2.2.2.2.2.2.2]
  decide

theorem scrollbar_wheel_step_witness :
    ((initialSession.guiState ≠ STATE_DISABLED ∧ initialSession.guiLocked = false ∧
      initialSession.guiSliderDragging = false ∧
      ((⟨0, 0, 12, 200⟩ : Rectangle).x
          ≤ ({ pointerAt 5 50 with mouseWheelMove := 1 } : GuiInput).mousePosition.x ∧
        ({ pointerAt 5 50 with mouseWheelMove := 1 } : GuiInput).mousePosition.x
          ≤ (⟨0, 0, 12, 200⟩ : Rectangle).x + (⟨0, 0, 12, 200⟩ : Rectangle).width ∧
        (⟨0, 0, 12, 200⟩ : Rectangle).y
          ≤ ({ pointerAt 5 50 with mouseWheelMove := 1 } : GuiInput).mousePosition.y ∧
        ({ pointerAt 5 50 with mouseWheelMove := 1 } : GuiInput).mousePosition.y
          ≤ (⟨0, 0, 12, 200⟩ : Rectangle).y + (⟨0, 0, 12, 200⟩ : Rectangle).height) ∧
      ({ pointerAt 5 50 with mouseWheelMove := 1 } : GuiInput).mouseLeftPressed = false ∧
      (0 : Int) ≤ 120) ∧
    (GuiScrollBar defaultStyle initialSession { pointerAt 5 50 with mouseWheelMove := 1 }
        ⟨0, 0, 12, 200⟩ 50 0 120).value
      = max 0 (min (max 0 (min 50 120)
          + truncToInt ({ pointerAt 5 50 with mouseWheelMove := 1 } : GuiInput).mouseWheelMove)
          120)) :=
  ⟨⟨by decide, by decide, by decide, by norm_num [pointerAt], by decide, by decide⟩,
    (scrollbar_wheel_step defaultStyle initialSession
      { pointerAt 5 50 with mouseWheelMove := 1 } ⟨0, 0, 12, 200⟩ 50 0 120
      (by decide) (by decide) (by decide) (by norm_num [pointerAt]) (by decide)
      (by decide)).1⟩

/-- The thumb `GuiScrollBar` draws for a vertical bar: its length is the style value
`SCROLL_SLIDER_SIZE`, or the track length minus 2 when that value does not fit the track. -/
theorem scrollBar_vertical_thumb (st : StyleState) (g : GuiSession) (inp : GuiInput)
    (bounds : Rectangle) (value minValue maxValue : Int)
    (hvertical : ¬ (bounds.width > bounds.height)) :
    (GuiScrollBar st g inp bounds value minValue maxValue).slider.height
      = (((if (getStyle st SCROLLBAR SCROLL_SLIDER_SIZE : ℚ)
              ≥ (GuiScrollBar st g inp bounds value minValue maxValue).scrollbar.height
          then truncToInt (GuiScrollBar st g inp bounds value minValue maxValue).scrollbar.height
            - 2
          else getStyle st SCROLLBAR SCROLL_SLIDER_SIZE) : Int) : ℚ) := by
  unfold GuiScrollBar
  simp only [if_neg hvertical, if_true]
  split_ifs <;> rfl

/-- The rectangles `GuiScrollPanel` passes to its scroll bars respect the minimum sizes. -/
theorem scrollPanel_bar_floor (st : StyleState) (g : GuiSession) (inp : GuiInput)
    (bounds : Rectangle) (hasText : Bool) (content : Rectangle) (scroll : Vector2) :
    ((RAYGUI_MIN_SCROLLBAR_HEIGHT : Int) : ℚ)
      ≤ (GuiScrollPanel st g inp bounds hasText content scroll).verticalScrollBar.height ∧
    ((RAYGUI_MIN_SCROLLBAR_WIDTH : Int) : ℚ)
      ≤ (GuiScrollPanel st g inp bounds hasText content scroll).horizontalScrollBar.width := by
  constructor
  · show _ ≤ (scrollPanelBars st (scrollPanelBounds bounds hasText) content).verticalScrollBar.height
    simp only [scrollPanelBars]
    split_ifs <;>
      first
        | exact le_refl _
        | (simp only [decide_eq_true_eq, not_lt] at *
           assumption)
  · show _ ≤ (scrollPanelBars st (scrollPanelBounds bounds hasText) content).horizontalScrollBar.width
    simp only [scrollPanelBars]
    split_ifs <;>
      first
        | exact le_refl _
        | (simp only [decide_eq_true_eq, not_lt] at *
           assumption)

theorem some_of_ite_some_none {α : Type} {c : Prop} [Decidable c] {a b : α}
    (h : (if c then some a else none) = some b) : a = b := by
  split_ifs at h
  exact Option.some.inj h

/-- The vertical `GuiScrollBar` call of `GuiScrollPanel`: its bounds are the floored bar
rectangle and the style it reads holds the proportional slider size. -/
theorem scrollPanel_vertical_call (st : StyleState) (g : GuiSession) (inp : GuiInput)
    (bounds : Rectangle) (hasText : Bool) (content : Rectangle) (scroll : Vector2)
    (sb : ScrollBarResult)
    (h : (GuiScrollPanel st g inp bounds hasText content scroll).vertical = some sb) :
    ∃ (st1 : StyleState) (g1 : GuiSession) (v lo hi : Int),
      sb = GuiScrollBar st1 g1 inp
        (GuiScrollPanel st g inp bounds hasText content scroll).verticalScrollBar v lo hi ∧
      getStyle st1 SCROLLBAR SCROLL_SLIDER_SIZE
        = toInt32 (toUInt32
            (GuiScrollPanel st g inp bounds hasText content scroll).verticalSliderSize) := by
  change (if _ = true then some (GuiScrollBar (setStyleBody _ SCROLLBAR SCROLL_SLIDER_SIZE
      (GuiScrollPanel st g inp bounds hasText content scroll).verticalSliderSize) _ inp
      (GuiScrollPanel st g inp bounds hasText content scroll).verticalScrollBar _ _ _)
    else none) = some sb at h
  exact ⟨_, _, _, _, _, (some_of_ite_some_none h).symm, (getStyle_setSliderSize _ _).1⟩

/-- The locals of `GuiScrollPanel` for the panel `{0, 0, 200, 40}` without header over a
content of 100 x 100000 under the default style: only the vertical bar is shown, and its
rectangle is `{187, 1, 12, 46}`. -/
theorem scrollPanelBars_example :
    scrollPanelBounds ⟨0, 0, 200, 40⟩ false = ⟨0, 0, 200, 48⟩ ∧
    scrollPanelBars defaultStyle ⟨0, 0, 200, 48⟩ ⟨0, 0, 100, 100000⟩
      = { hasHorizontalScrollBar := false, hasVerticalScrollBar := true,
          horizontalScrollBarWidth := 0, verticalScrollBarWidth := 12,
          horizontalScrollBar := ⟨1, 47, 186, 0⟩, verticalScrollBar := ⟨187, 1, 12, 46⟩,
          mouseWheelSpeed := 20 } ∧
    scrollPanelSliderSize 48 100000 1 0 = 0 := by
  obtain ⟨h1, h2, h3, -⟩ := defaultStyle_values
  refine ⟨?_, ?_, ?_⟩
  · norm_num [scrollPanelBounds, RAYGUI_WINDOWBOX_STATUSBAR_HEIGHT]
  · simp only [scrollPanelBars, h1, h2, h3]
    norm_num [RAYGUI_MIN_SCROLLBAR_WIDTH, RAYGUI_MIN_SCROLLBAR_HEIGHT, SCROLLBAR_LEFT_SIDE]
  · norm_num [scrollPanelSliderSize, truncToInt]

/-- The vertical scroll bar call made by `GuiScrollPanel` in that example: the slider size
set before it is the proportional size 0, and the bar is drawn in `{187, 1, 12, 46}`. -/
theorem scrollPanel_example :
    (GuiScrollPanel defaultStyle initialSession (pointerAt 300 300) ⟨0, 0, 200, 40⟩ false
        ⟨0, 0, 100, 100000⟩ ⟨0, 0⟩).verticalScrollBar = ⟨187, 1, 12, 46⟩ ∧
    (GuiScrollPanel defaultStyle initialSession (pointerAt 300 300) ⟨0, 0, 200, 40⟩ false
        ⟨0, 0, 100, 100000⟩ ⟨0, 0⟩).verticalSliderSize = 0 ∧
    (GuiScrollPanel defaultStyle initialSession (pointerAt 300 300) ⟨0, 0, 200, 40⟩ false
        ⟨0, 0, 100, 100000⟩ ⟨0, 0⟩).vertical
      = some (GuiScrollBar (setStyleBody defaultStyle SCROLLBAR SCROLL_SLIDER_SIZE 0)
          initialSession (pointerAt 300 300) ⟨187, 1, 12, 46⟩ 0 0 99953) := by
  obtain ⟨hb, hbars, hs⟩ := scrollPanelBars_example
  obtain ⟨h1, h2, h3, -⟩ := defaultStyle_values
  refine ⟨?_, ?_, ?_⟩
  · simp only [GuiScrollPanel, hb, hbars]
  · simp only [GuiScrollPanel, hb, hbars, Bool.false_eq_true, if_false, h1, hs]
  · simp only [GuiScrollPanel, hb, hbars, Bool.false_eq_true, if_false, h1, hs, if_true]
    norm_num [truncToInt, pointerAt, initialSession, CheckCollisionPointRec]

/-- The border width read for the vertical slider size is the one of the table the panel
was called with: the `GuiSetStyle` of the horizontal bar does not touch it. -/
theorem getStyle_borderWidth_setSliderSize (st : StyleState) (v : Int) :
    getStyle (setStyleBody st SCROLLBAR SCROLL_SLIDER_SIZE v) DEFAULT BORDER_WIDTH
      = getStyle st DEFAULT BORDER_WIDTH := by
  rw [getStyle_setStyleBody _ _ _ _ _ _ (by decide) (by decide) (by decide)]
  exact if_neg (by decide)

/-- The slider size `GuiScrollPanel` sets before the vertical `GuiScrollBar` call. -/
theorem scrollPanel_verticalSliderSize (st : StyleState) (g : GuiSession) (inp : GuiInput)
    (bounds : Rectangle) (hasText : Bool) (content : Rectangle) (scroll : Vector2) :
    (GuiScrollPanel st g inp bounds hasText content scroll).verticalSliderSize
      = scrollPanelSliderSize (scrollPanelBounds bounds hasText).height content.height
          (getStyle st DEFAULT BORDER_WIDTH)
          (scrollPanelBars st (scrollPanelBounds bounds hasText) content).horizontalScrollBarWidth
      := by
  simp only [GuiScrollPanel]
  split_ifs
  · rw [getStyle_borderWidth_setSliderSize]
  · rfl

/-- The thumb of the vertical scroll bar of `GuiScrollPanel`: when the bar is drawn (and is
not wider than high), the length of the thumb that `GuiScrollBar` draws is the value stored
in `SCROLL_SLIDER_SIZE` before the call, replaced by the track length minus 2 only when it
does not fit the track; no lower bound is applied to it, while the bar rectangles respect
the minimum sizes. -/
theorem scrollPanel_vertical_thumb (st : StyleState) (g : GuiSession) (inp : GuiInput)
    (bounds : Rectangle) (hasText : Bool) (content : Rectangle) (scroll : Vector2)
    (sb : ScrollBarResult)
    (hdrawn : (GuiScrollPanel st g inp bounds hasText content scroll).vertical = some sb)
    (hvertical : (GuiScrollPanel st g inp bounds hasText content scroll).verticalScrollBar.width
      ≤ (GuiScrollPanel st g inp bounds hasText content scroll).verticalScrollBar.height) :
    ((RAYGUI_MIN_SCROLLBAR_HEIGHT : Int) : ℚ)
      ≤ (GuiScrollPanel st g inp bounds hasText content scroll).verticalScrollBar.height ∧
    ((RAYGUI_MIN_SCROLLBAR_WIDTH : Int) : ℚ)
      ≤ (GuiScrollPanel st g inp bounds hasText content scroll).horizontalScrollBar.width ∧
    (GuiScrollPanel st g inp bounds hasText content scroll).verticalSliderSize
      = scrollPanelSliderSize (scrollPanelBounds bounds hasText).height content.height
          (getStyle st DEFAULT BORDER_WIDTH)
          (scrollPanelBars st (scrollPanelBounds bounds hasText) content).horizontalScrollBarWidth
      ∧
    sb.slider.height
      = (((if ((toInt32 (toUInt32
                (GuiScrollPanel st g inp bounds hasText content scroll).verticalSliderSize)
              : Int) : ℚ) ≥ sb.scrollbar.height
          then truncToInt sb.scrollbar.height - 2
          else toInt32 (toUInt32
            (GuiScrollPanel st g inp bounds hasText content scroll).verticalSliderSize))
          : Int) : ℚ) := by
  obtain ⟨hf1, hf2⟩ := scrollPanel_bar_floor st g inp bounds hasText content scroll
  refine ⟨hf1, hf2, scrollPanel_verticalSliderSize st g inp bounds hasText content scroll, ?_⟩
  obtain ⟨st1, g1, v, lo, hi, hsb, hsize⟩ :=
    scrollPanel_vertical_call st g inp bounds hasText content scroll sb hdrawn
  rw [← hsize, hsb]
  exact scrollBar_vertical_thumb st1 g1 inp _ v lo hi (not_lt.mpr hvertical)

/-- The scroll bar drawn in the example: track `{187, 1, 12, 46}`, thumb `{187, 1, 12, 0}`. -/
theorem scrollPanelExampleBar_rectangles :
    scrollPanelExampleBar.scrollbar = ⟨187, 1, 12, 46⟩ ∧
    scrollPanelExampleBar.slider = ⟨187, 1, 12, 0⟩ := by
  obtain ⟨-, -, -, -, h5, h6, h7, h8, -⟩ := defaultStyle_values
  obtain ⟨e1, e2, e3, e4, e5, -⟩ := getStyle_setSliderSize defaultStyle 0
  rw [h5] at e2
  rw [h6] at e3
  rw [h7] at e4
  rw [h8] at e5
  have h0 : toInt32 (toUInt32 0) = 0 := by decide
  rw [h0] at e1
  constructor
  · simp only [scrollPanelExampleBar, GuiScrollBar, e1, e2, e3, e4, e5]
    rw [apply_ite ScrollBarResult.scrollbar]
    simp only [ite_self]
    norm_num
  · simp only [scrollPanelExampleBar, GuiScrollBar, e1, e2, e3, e4, e5]
    rw [apply_ite ScrollBarResult.slider]
    simp only [ite_self]
    norm_num [truncToInt, normalizeValue]

/-- C20: the minimum size of `GuiScrollPanel` is applied to the scroll bar rectangles, not
to the thumb, although the note beside it ("If content >>> bounds, size could be very small
or even 0") describes the thumb. For every call the rectangle of the vertical bar is at
least `RAYGUI_MIN_SCROLLBAR_HEIGHT = 40` high and the one of the horizontal bar at least
`RAYGUI_MIN_SCROLLBAR_WIDTH = 40` wide. In the scenario of the claim (panel `{0, 0, 200,
40}`, content height 100000, configured `SCROLL_SLIDER_SIZE` 16) the vertical bar is drawn
in the rectangle `{187, 1, 12, 46}`, the thumb length handed to `GuiScrollBar` through
`SCROLL_SLIDER_SIZE` is the proportional size 0, and the thumb drawn is the rectangle
`{187, 1, 12, 0}`: its length is 0, below the floor of 40. -/
theorem scrollpanel_thumb_below_minimum :
    (∀ (st : StyleState) (g : GuiSession) (inp : GuiInput) (bounds : Rectangle)
        (hasText : Bool) (content : Rectangle) (scroll : Vector2),
      ((RAYGUI_MIN_SCROLLBAR_HEIGHT : Int) : ℚ)
        ≤ (GuiScrollPanel st g inp bounds hasText content scroll).verticalScrollBar.height ∧
      ((RAYGUI_MIN_SCROLLBAR_WIDTH : Int) : ℚ)
        ≤ (GuiScrollPanel st g inp bounds hasText content scroll).horizontalScrollBar.width) ∧
    getStyle defaultStyle SCROLLBAR SCROLL_SLIDER_SIZE = 16 ∧
    scrollPanelExample.vertical = some scrollPanelExampleBar ∧
    scrollPanelExample.verticalScrollBar = ⟨187, 1, 12, 46⟩ ∧
    scrollPanelExample.verticalSliderSize = 0 ∧
    scrollPanelExample.verticalSliderSize < RAYGUI_MIN_SCROLLBAR_HEIGHT ∧
    scrollPanelExampleBar.scrollbar = ⟨187, 1, 12, 46⟩ ∧
    scrollPanelExampleBar.slider = ⟨187, 1, 12, 0⟩ ∧
    scrollPanelExampleBar.slider.height = 0 ∧
    scrollPanelExampleBar.slider.height < ((RAYGUI_MIN_SCROLLBAR_HEIGHT : Int) : ℚ) := by
  refine ⟨scrollPanel_bar_floor, defaultStyle_values.2.2.2.1, scrollPanel_example.2.2,
    scrollPanel_example.1, scrollPanel_example.2.1, ?_, scrollPanelExampleBar_rectangles.1,
    scrollPanelExampleBar_rectangles.2, ?_, ?_⟩
  · rw [show scrollPanelExample.verticalSliderSize = 0 from scrollPanel_example.2.1]
    decide
  · rw [scrollPanelExampleBar_rectangles.2]
  · rw [scrollPanelExampleBar_rectangles.2]
    norm_num [RAYGUI_MIN_SCROLLBAR_HEIGHT]

/-! ## Theorems: colour conversion -/

/-- `ConvertRGBtoHSV` once the minimum and the maximum of the three components are known
and pass the two tests on `delta` and `max`. -/
theorem rgbToHsv_of (r g b mn mx : ℚ)
    (hmin : (if (if r < g then r else g) < b then (if r < g then r else g) else b) = mn)
    (hmax : (if (if r > g then r else g) > b then (if r > g then r else g) else b) = mx)
    (hd : ¬ (mx - mn < 1 / 100000)) (hmx : mx > 0) :
    ConvertRGBtoHSV ⟨r, g, b⟩
      = { x := if (if r ≥ mx then (g - b) / (mx - mn)
                else if g ≥ mx then 2 + (b - r) / (mx - mn)
                else 4 + (r - g) / (mx - mn)) * 60 < 0
              then (if r ≥ mx then (g - b) / (mx - mn)
                else if g ≥ mx then 2 + (b - r) / (mx - mn)
                else 4 + (r - g) / (mx - mn)) * 60 + 360
              else (if r ≥ mx then (g - b) / (mx - mn)
                else if g ≥ mx then 2 + (b - r) / (mx - mn)
                else 4 + (r - g) / (mx - mn)) * 60
          y := (mx - mn) / mx
          z := mx } := by
  unfold ConvertRGBtoHSV
  simp only [hmin, hmax, if_neg hd, if_pos hmx]

/-- `ConvertRGBtoHSV` on the six shapes of colour that `ConvertHSVtoRGB` produces, written
with `a = s*v` and `b = s*v*ff`. -/
theorem rgbToHsv_sectors (v a b : ℚ) (hb0 : 0 ≤ b) (hba : b < a) (ha : 1 / 100000 ≤ a)
    (hav : a ≤ v) :
    ConvertRGBtoHSV ⟨v, v - a + b, v - a⟩ = ⟨(0 + b / a) * 60, a / v, v⟩ ∧
    ConvertRGBtoHSV ⟨v - b, v, v - a⟩ = ⟨(1 + b / a) * 60, a / v, v⟩ ∧
    ConvertRGBtoHSV ⟨v - a, v, v - a + b⟩ = ⟨(2 + b / a) * 60, a / v, v⟩ ∧
    ConvertRGBtoHSV ⟨v - a, v - b, v⟩ = ⟨(3 + b / a) * 60, a / v, v⟩ ∧
    ConvertRGBtoHSV ⟨v - a + b, v - a, v⟩ = ⟨(4 + b / a) * 60, a / v, v⟩ ∧
    ConvertRGBtoHSV ⟨v, v - a, v - b⟩ = ⟨(5 + b / a) * 60, a / v, v⟩ := by
  have ha0 : 0 < a := by linarith
  have hq0 : 0 ≤ b / a := div_nonneg hb0 (le_of_lt ha0)
  have hq1 : b / a < 1 := (div_lt_one ha0).2 hba
  have hane : a ≠ 0 := ne_of_gt ha0
  have hd : ¬ (v - (v - a) < 1 / 100000) := by
    intro h
    linarith
  have hv : v > 0 := by linarith
  have hdel : v - (v - a) = a := by ring
  refine ⟨?_, ?_, ?_, ?_, ?_, ?_⟩
  · rw [rgbToHsv_of v (v - a + b) (v - a) (v - a) v (by split_ifs <;> linarith)
      (by split_ifs <;> linarith) hd hv, hdel]
    have e : (v - a + b - (v - a)) / a = b / a := by
      congr 1
      ring
    rw [if_pos (le_refl v), e, if_neg (by linarith), zero_add]
  · rw [rgbToHsv_of (v - b) v (v - a) (v - a) v (by split_ifs <;> linarith)
      (by split_ifs <;> linarith) hd hv, hdel]
    have e1 : a / a = 1 := div_self hane
    have e2 : (v - a - (v - b)) / a = b / a - 1 := by field_simp
    simp only [e1, e2]
    split_ifs with h1 h2 h3 h4 <;>
      first
        | (exfalso; linarith)
        | (congr 1; ring1)
        | (have hb : b = 0 := by linarith
           subst hb
           simp)
  · rw [rgbToHsv_of (v - a) v (v - a + b) (v - a) v (by split_ifs <;> linarith)
      (by split_ifs <;> linarith) hd hv, hdel]
    have e1 : (v - a + b - (v - a)) / a = b / a := by field_simp
    simp only [e1]
    split_ifs with h1 h2 h3 h4 <;>
      first
        | (exfalso; linarith)
        | (congr 1)
  · rw [rgbToHsv_of (v - a) (v - b) v (v - a) v (by split_ifs <;> linarith)
      (by split_ifs <;> linarith) hd hv, hdel]
    have e1 : a / a = 1 := div_self hane
    have e2 : (v - a - (v - b)) / a = b / a - 1 := by field_simp
    simp only [e1, e2]
    split_ifs with h1 h2 h3 h4 <;>
      first
        | (exfalso; linarith)
        | (congr 1; ring1)
        | (have hb : b = 0 := by linarith
           subst hb
           simp
           norm_num)
  · rw [rgbToHsv_of (v - a + b) (v - a) v (v - a) v (by split_ifs <;> linarith)
      (by split_ifs <;> linarith) hd hv, hdel]
    have e1 : (v - a + b - (v - a)) / a = b / a := by field_simp
    simp only [e1]
    split_ifs with h1 h2 h3 h4 <;>
      first
        | (exfalso; linarith)
        | (congr 1)
  · rw [rgbToHsv_of v (v - a) (v - b) (v - a) v (by split_ifs <;> linarith)
      (by split_ifs <;> linarith) hd hv, hdel]
    have e2 : (v - a - (v - b)) / a = b / a - 1 := by field_simp
    simp only [e2]
    split_ifs with h1 h2 h3 h4 <;>
      first
        | (exfalso; linarith)
        | (congr 1; ring1)

/-- C21: HSV round trip in exact arithmetic. For every `h` in `[0, 360)`, `s` in `(0, 1]`
and `v` in `(0, 1]` with `s*v >= 0.00001`, `ConvertRGBtoHSV(ConvertHSVtoRGB(h, s, v))`
returns exactly `(h, s, v)`; in particular for `h = 200`, `s = 0.5`, `v = 0.8`. -/
theorem hsv_roundtrip (h s v : ℚ) (hh0 : 0 ≤ h) (hh1 : h < 360) (hs0 : 0 < s) (_hs1 : s ≤ 1)
    (hv0 : 0 < v) (_hv1 : v ≤ 1) (hsv : 1 / 100000 ≤ s * v) :
    ConvertRGBtoHSV (ConvertHSVtoRGB ⟨h, s, v⟩) = ⟨h, s, v⟩ := by
  have hq0 : 0 ≤ h / 60 := by positivity
  have hk : truncToInt (h / 60) = ⌊h / 60⌋ := by
    unfold truncToInt
    rw [if_pos hq0]
  have hfl0 : 0 ≤ ⌊h / 60⌋ := Int.floor_nonneg.2 hq0
  have hfl5 : ⌊h / 60⌋ < 6 := by
    apply Int.floor_lt.2
    push_cast
    linarith
  have hff0 : 0 ≤ h / 60 - (⌊h / 60⌋ : ℚ) := sub_nonneg.2 (Int.floor_le _)
  have hff1 : h / 60 - (⌊h / 60⌋ : ℚ) < 1 := by
    have := Int.lt_floor_add_one (h / 60)
    linarith
  have hvs : 0 < v * s := mul_pos hv0 hs0
  have hvne : v ≠ 0 := ne_of_gt hv0
  have hsne : s ≠ 0 := ne_of_gt hs0
  obtain ⟨c0, c1, c2, c3, c4, c5⟩ := rgbToHsv_sectors v (v * s)
    (v * s * (h / 60 - (⌊h / 60⌋ : ℚ))) (mul_nonneg (le_of_lt hvs) hff0)
    (by nlinarith) (by linarith [mul_comm s v]) (by nlinarith)
  have hb : v * s * (h / 60 - (⌊h / 60⌋ : ℚ)) / (v * s) = h / 60 - (⌊h / 60⌋ : ℚ) := by
    field_simp
    ring
  have hs : v * s / v = s := by field_simp
  rw [hb, hs] at c0 c1 c2 c3 c4 c5
  unfold ConvertHSVtoRGB
  simp only [if_neg (not_le.2 hs0), if_neg (not_le.2 hh1), hk]
  generalize ⌊h / 60⌋ = k at *
  have e1 : v * (1 - s) = v - v * s := by ring
  have e2 : v * (1 - s * (h / 60 - (k : ℚ))) = v - v * s * (h / 60 - (k : ℚ)) := by ring
  have e3 : v * (1 - s * (1 - (h / 60 - (k : ℚ))))
      = v - v * s + v * s * (h / 60 - (k : ℚ)) := by ring
  rw [e1, e2, e3]
  interval_cases k
  · simp +decide only [if_true, if_false]
    rw [c0]
    congr 1
    push_cast
    ring
  · simp +decide only [if_true, if_false]
    rw [c1]
    congr 1
    push_cast
    ring
  · simp +decide only [if_true, if_false]
    rw [c2]
    congr 1
    push_cast
    ring
  · simp +decide only [if_true, if_false]
    rw [c3]
    congr 1
    push_cast
    ring
  · simp +decide only [if_true, if_false]
    rw [c4]
    congr 1
    push_cast
    ring
  · simp +decide only [if_true, if_false]
    rw [c5]
    congr 1
    push_cast
    ring

theorem hsv_roundtrip_witness :
    ((0 : ℚ) ≤ 200 ∧ (200 : ℚ) < 360 ∧ (0 : ℚ) < 1 / 2 ∧ (1 / 2 : ℚ) ≤ 1 ∧ (0 : ℚ) < 4 / 5 ∧
      (4 / 5 : ℚ) ≤ 1 ∧ (1 / 100000 : ℚ) ≤ 1 / 2 * (4 / 5)) ∧
    ConvertRGBtoHSV (ConvertHSVtoRGB ⟨200, 1 / 2, 4 / 5⟩) = ⟨200, 1 / 2, 4 / 5⟩ :=
  ⟨⟨by norm_num, by norm_num, by norm_num, by norm_num, by norm_num, by norm_num,
      by norm_num⟩,
    hsv_roundtrip 200 (1 / 2) (4 / 5) (by norm_num) (by norm_num) (by norm_num) (by norm_num)
      (by norm_num) (by norm_num) (by norm_num)⟩

/-! ## Theorems: icon marker -/

theorem isDigit_iff (b : Nat) : isDigit b = true ↔ (b ≥ 48 ∧ b ≤ 57) := by
  unfold isDigit
  simp

/-- C22 (amended): icon marker parsing. `GetTextIcon` advances the text past a leading
marker and sets `iconId` to the marker's decimal value if and only if the text begins with
'#', then 0 to 3 decimal digits, then '#': with no digit between the two '#' the text is
advanced by 2 and `iconId` is 0. For every other text (no leading '#', more than 3 digits,
or a byte that is neither a digit nor '#' after the digits) the text is returned unchanged
with `iconId = -1`. The icon-only text "#120#" yields `iconId = 120` and the empty
remainder. -/
theorem icon_marker_parsing (text : Buf) :
    (rd text 0 = 35 → rd text 1 = 35 → GetTextIcon text = (2, 0)) ∧
    (rd text 0 = 35 → isDigit (rd text 1) = true → rd text 2 = 35 →
      GetTextIcon text = (3, (rd text 1 : Int) - 48)) ∧
    (rd text 0 = 35 → isDigit (rd text 1) = true → isDigit (rd text 2) = true →
      rd text 3 = 35 →
      GetTextIcon text = (4, ((rd text 1 : Int) - 48) * 10 + ((rd text 2 : Int) - 48))) ∧
    (rd text 0 = 35 → isDigit (rd text 1) = true → isDigit (rd text 2) = true →
      isDigit (rd text 3) = true → rd text 4 = 35 →
      GetTextIcon text = (5, (((rd text 1 : Int) - 48) * 10 + ((rd text 2 : Int) - 48)) * 10
        + ((rd text 3 : Int) - 48))) ∧
    (¬ (rd text 0 = 35 ∧
        (rd text 1 = 35 ∨
          (isDigit (rd text 1) = true ∧
            (rd text 2 = 35 ∨
              (isDigit (rd text 2) = true ∧
                (rd text 3 = 35 ∨ (isDigit (rd text 3) = true ∧ rd text 4 = 35))))))) →
      GetTextIcon text = (0, -1)) ∧
    (GetTextIcon [35, 49, 50, 48, 35, 0] = (5, 120) ∧ rd [35, 49, 50, 48, 35, 0] 5 = 0) := by
  simp only [isDigit_iff]
  refine ⟨?_, ?_, ?_, ?_, ?_, by decide⟩
  · intro h0 h1
    simp [GetTextIcon, iconDigits, h0, h1, TextToInteger, TextToIntegerLoop]
  · intro h0 h1 h2
    have hne1 : ¬ (rd text 1 = 43 ∨ rd text 1 = 45) := by omega
    simp [GetTextIcon, iconDigits, h0, h1, h2, TextToInteger, TextToIntegerLoop, wr, hne1]
  · intro h0 h1 h2 h3
    have hne1 : ¬ (rd text 1 = 43 ∨ rd text 1 = 45) := by omega
    simp [GetTextIcon, iconDigits, h0, h1, h2, h3, TextToInteger, TextToIntegerLoop, wr, hne1]
    omega
  · intro h0 h1 h2 h3 h4
    have hne1 : ¬ (rd text 1 = 43 ∨ rd text 1 = 45) := by omega
    simp [GetTextIcon, iconDigits, h0, h1, h2, h3, h4, TextToInteger, TextToIntegerLoop, wr,
      hne1]
    omega
  · intro h
    by_cases h0 : rd text 0 = 35
    · by_cases h1 : (48 ≤ rd text 1 ∧ rd text 1 ≤ 57)
      · by_cases h2 : (48 ≤ rd text 2 ∧ rd text 2 ≤ 57)
        · by_cases h3 : (48 ≤ rd text 3 ∧ rd text 3 ≤ 57)
          · have h4 : ¬ rd text 4 = 35 := by
              intro h4
              exact h ⟨h0, Or.inr ⟨h1, Or.inr ⟨h2, Or.inr ⟨h3, h4⟩⟩⟩⟩
            simp [GetTextIcon, iconDigits, h0, h1, h2, h3, h4]
          · have h3x : ¬ rd text 3 = 35 := by
              intro h3x
              exact h ⟨h0, Or.inr ⟨h1, Or.inr ⟨h2, Or.inl h3x⟩⟩⟩
            simp [GetTextIcon, iconDigits, h0, h1, h2, h3, h3x]
        · have h2x : ¬ rd text 2 = 35 := by
            intro h2x
            exact h ⟨h0, Or.inr ⟨h1, Or.inl h2x⟩⟩
          simp [GetTextIcon, iconDigits, h0, h1, h2, h2x]
      · have h1x : ¬ rd text 1 = 35 := by
          intro h1x
          exact h ⟨h0, Or.inl h1x⟩
        simp [GetTextIcon, iconDigits, h0, h1, h1x]
    · simp [GetTextIcon, h0]

/-- The claim C22 fails as stated: the text "##" has no digit between its two '#', and
`GetTextIcon` advances it by 2 with `iconId = 0` instead of returning it unchanged with
`iconId = -1`; so does "##ab". -/
theorem icon_marker_parsing_counterexample :
    isDigit (rd [35, 35, 0] 1) = false ∧
    GetTextIcon [35, 35, 0] = (2, 0) ∧
    GetTextIcon [35, 35, 0] ≠ (0, -1) ∧
    GetTextIcon [35, 35, 97, 98, 0] = (2, 0) := by
  decide

/-! ## Theorems: style files and the default style -/

set_option maxRecDepth 100000 in
/-- A file with a good signature is loaded: the example file sets `BUTTON` `BORDER_WIDTH`
to 5 over the default style, where it is 2. -/
theorem styleFileExample_loads :
    (∃ s1, GuiLoadStyleFromMemory false defaultStyle styleFileExample = some s1 ∧
      getStyle s1 BUTTON BORDER_WIDTH = 5) ∧
    getStyle defaultStyle BUTTON BORDER_WIDTH = 2 := by
  refine ⟨⟨setStyleBody defaultStyle BUTTON BORDER_WIDTH 5, ?_, by decide⟩, by decide⟩
  rfl

/-- C23: a bad style signature is a no-op. For every byte buffer of at least 12 bytes
whose first four bytes are not 'r', 'G', 'S', ' ', `GuiLoadStyleFromMemory` returns with
the style table and the loaded flag exactly as they were before the call. -/
theorem bad_signature_noop (fontTexture : Bool) (s : StyleState) (fileData : Buf)
    (_hsize : 12 ≤ fileData.length)
    (hsig : ¬ (rd fileData 0 = 114 ∧ rd fileData 1 = 71 ∧ rd fileData 2 = 83
      ∧ rd fileData 3 = 32)) :
    GuiLoadStyleFromMemory fontTexture s fileData = some s := by
  unfold GuiLoadStyleFromMemory
  simp only [if_neg hsig]

theorem bad_signature_noop_witness :
    (12 ≤ styleFileBadSignature.length ∧
      ¬ (rd styleFileBadSignature 0 = 114 ∧ rd styleFileBadSignature 1 = 71
        ∧ rd styleFileBadSignature 2 = 83 ∧ rd styleFileBadSignature 3 = 32)) ∧
    GuiLoadStyleFromMemory true defaultStyle styleFileBadSignature = some defaultStyle :=
  ⟨⟨by decide, by decide⟩,
    bad_signature_noop true defaultStyle styleFileBadSignature (by decide) (by decide)⟩

/-- A slot that none of the calls of a list writes keeps its value. -/
theorem getStyle_foldl_keeps (calls : List (Nat × Nat × Int)) (s : StyleState) (c1 p1 : Nat)
    (hp1 : p1 < 24) (hc1 : c1 < 16)
    (h : ∀ x ∈ calls, x.2.1 < 24 ∧
      ¬ ((c1 = x.1 ∧ p1 = x.2.1) ∨ (x.1 = 0 ∧ x.2.1 < 16 ∧ p1 = x.2.1))) :
    getStyle (calls.foldl (fun st x => setStyleBody st x.1 x.2.1 x.2.2) s) c1 p1
      = getStyle s c1 p1 := by
  induction calls generalizing s with
  | nil => rfl
  | cons x rest ih =>
    rw [List.foldl_cons, ih _ (fun y hy => h y (List.mem_cons_of_mem _ hy)),
      getStyle_setStyleBody _ _ _ _ _ _ (h x (List.mem_cons_self _ _)).1 hp1 hc1,
      if_neg (h x (List.mem_cons_self _ _)).2]

set_option maxRecDepth 100000 in
/-- C24: `GuiLoadStyleDefault` does not recover the default style from every state. The
call returns (call depth 2 suffices) and leaves the slot (`TEXTBOX`, `TEXT_READONLY`) as it
was, as it writes only the slots of its `GuiSetStyle` list; after
`GuiSetStyle(TEXTBOX, TEXT_READONLY, 1)` on the default style, `GuiLoadStyleDefault`
leaves `TEXT_READONLY = 1`, while on the zero-initialised table it gives 0: the two tables
differ. -/
theorem load_default_keeps_unwritten_slots :
    (∀ (f : Nat) (s : StyleState),
      GuiLoadStyleDefault (f + 2) s = some (loadDefaultBody s) ∧
      getStyle (loadDefaultBody s) TEXTBOX TEXT_READONLY = getStyle s TEXTBOX TEXT_READONLY) ∧
    GuiSetStyle 3 defaultStyle TEXTBOX TEXT_READONLY 1
      = some (setStyleBody defaultStyle TEXTBOX TEXT_READONLY 1) ∧
    getStyle (loadDefaultBody (setStyleBody defaultStyle TEXTBOX TEXT_READONLY 1))
      TEXTBOX TEXT_READONLY = 1 ∧
    getStyle (loadDefaultBody initialStyle) TEXTBOX TEXT_READONLY = 0 ∧
    (loadDefaultBody (setStyleBody defaultStyle TEXTBOX TEXT_READONLY 1)).guiStyle
      ≠ (loadDefaultBody initialStyle).guiStyle := by
  have hkeep : ∀ s : StyleState,
      getStyle (loadDefaultBody s) TEXTBOX TEXT_READONLY = getStyle s TEXTBOX TEXT_READONLY := by
    intro s
    unfold loadDefaultBody
    rw [getStyle_foldl_keeps defaultStyleCalls _ TEXTBOX TEXT_READONLY (by decide) (by decide)
      (by decide)]
    rfl
  have h1 : getStyle (setStyleBody defaultStyle TEXTBOX TEXT_READONLY 1) TEXTBOX TEXT_READONLY
      = 1 := by
    rw [getStyle_setStyleBody _ _ _ _ _ _ (by decide) (by decide) (by decide)]
    decide
  have h0 : getStyle (loadDefaultBody initialStyle) TEXTBOX TEXT_READONLY = 0 := by
    rw [hkeep]
    rfl
  refine ⟨fun f s => ⟨GuiLoadStyleDefault_eq f s, hkeep s⟩, ?_, ?_, h0, ?_⟩
  · rw [GuiSetStyle_eq 0]
    rfl
  · rw [hkeep, h1]
  · intro heq
    have h2 : getStyle (loadDefaultBody (setStyleBody defaultStyle TEXTBOX TEXT_READONLY 1))
        TEXTBOX TEXT_READONLY = getStyle (loadDefaultBody initialStyle) TEXTBOX TEXT_READONLY := by
      unfold getStyle
      rw [heq]
    rw [hkeep, h1, h0] at h2
    exact absurd h2 (by decide)

/-! ## Theorems: toggle slider -/

/-- C25: `GuiToggleSlider` reacts while another control holds the active drag. Its update
is guarded by `(state != STATE_DISABLED) && !guiLocked` only, so the outcome of a call does
not depend on the drag flag. With a drag owned by the control with bounds `{0, 0, 100, 20}`,
a call for the toggle slider with bounds `{0, 30, 100, 20}`, text "A;B" and `*active = 0`
on a frame where the left button is released with the pointer at `(50, 40)` sets
`*active = 1` and returns 1. -/
theorem toggle_slider_reacts_during_drag :
    (∀ (g : GuiSession) (inp : GuiInput) (bounds : Rectangle) (text : Buf) (active : Int),
      GuiToggleSlider { g with guiSliderDragging := true } inp bounds text active
        = GuiToggleSlider { g with guiSliderDragging := false } inp bounds text active) ∧
    (draggingSession ⟨0, 0, 100, 20⟩).guiSliderDragging = true ∧
    GuiTextSplitCount textAB 59 = 2 ∧
    GuiToggleSlider (draggingSession ⟨0, 0, 100, 20⟩)
        { pointerAt 50 40 with mouseLeftReleased := true } ⟨0, 30, 100, 20⟩ textAB 0
      = { active := 1, result := 1, state := STATE_PRESSED } := by
  refine ⟨fun g inp bounds text active => rfl, rfl, by decide, ?_⟩
  have hin : CheckCollisionPointRec
      ({ pointerAt 50 40 with mouseLeftReleased := true } : GuiInput).mousePosition
      ⟨0, 30, 100, 20⟩ = true := by
    rw [CheckCollisionPointRec_iff]
    norm_num [pointerAt]
  have hc : GuiTextSplitCount textAB 59 = 2 := by decide
  unfold GuiToggleSlider
  simp only [hin, hc]
  decide

/-! ## Theorems: key repeat -/

set_option maxRecDepth 1000000 in
/-- C26: the movement keys repeat one frame later than the delete keys. From "abcdefgh"
with the cursor at 4 and the repeat counters at 0, with one `GuiTextBox` call per frame:
Delete pressed on frame 1 and held removes one codepoint on frame 1, none on frames 2 to
39, and one on frame 40 (and 41); Backspace likewise; Left pressed on frame 1 and held
moves the cursor on frame 1, not on frames 2 to 40, and first repeats on frame 41; Right
likewise. The delete blocks test `autoCursorCooldownCounter >= 40`, the movement blocks
`autoCursorCooldownCounter > 40`. -/
theorem movement_keys_repeat_one_frame_late :
    ((strlen (runFrames 16 (holdKey deleteInput deleteHeld 1) textABCDEFGH).text = 7 ∧
      strlen (runFrames 16 (holdKey deleteInput deleteHeld 39) textABCDEFGH).text = 7 ∧
      strlen (runFrames 16 (holdKey deleteInput deleteHeld 40) textABCDEFGH).text = 6 ∧
      strlen (runFrames 16 (holdKey deleteInput deleteHeld 41) textABCDEFGH).text = 5) ∧
     (strlen (runFrames 16 (holdKey backspaceInput backspaceHeld 1) textABCDEFGH).text = 7 ∧
      strlen (runFrames 16 (holdKey backspaceInput backspaceHeld 39) textABCDEFGH).text = 7 ∧
      strlen (runFrames 16 (holdKey backspaceInput backspaceHeld 40) textABCDEFGH).text = 6)) ∧
    ((runFrames 16 (holdKey leftPressed leftHeld 1) textABCDEFGH).textBoxCursorIndex = 3 ∧
     (runFrames 16 (holdKey leftPressed leftHeld 39) textABCDEFGH).textBoxCursorIndex = 3 ∧
     (runFrames 16 (holdKey leftPressed leftHeld 40) textABCDEFGH).textBoxCursorIndex = 3 ∧
     (runFrames 16 (holdKey leftPressed leftHeld 41) textABCDEFGH).textBoxCursorIndex = 2) ∧
    ((runFrames 16 (holdKey rightPressed rightHeld 1) textABCDEFGH).textBoxCursorIndex = 5 ∧
     (runFrames 16 (holdKey rightPressed rightHeld 39) textABCDEFGH).textBoxCursorIndex = 5 ∧
     (runFrames 16 (holdKey rightPressed rightHeld 40) textABCDEFGH).textBoxCursorIndex = 5 ∧
     (runFrames 16 (holdKey rightPressed rightHeld 41) textABCDEFGH).textBoxCursorIndex = 6) ∧
    (runFrames 16 (holdKey leftPressed leftHeld 39) textABCDEFGH).autoCursorCooldownCounter
      = 39 := by
  decide

/-! ## Theorems: mouse scan -/

/-- The mouse scan on "éa" with glyphs 10 wide, spacing 1, text bounds starting at 0 and
the pointer at x = 14: it stops at byte 1. -/
theorem mouseCursorScan_example :
    mouseCursorScan glyphWidth10 1 textEA.text 0 0 14 = some 1 := by
  have hlen : ((strlen textEA.text : Nat) : Int) = 3 := by decide
  have hw : GetTextWidth glyphWidth10 1 textEA.text 0 = 22 := by
    have h1 : rd textEA.text 0 ≠ 0 := by decide
    have h2 : ¬ (rd textEA.text 0 = 35) := by decide
    have h3 : lineSizeLoop textEA.text (0 + 0) MAX_LINE_BUFFER_SIZE 0 = 3 := by decide
    have g0 : (GetCodepointNext textEA.text (0 + 0 + 0)).2 = 2 := by decide
    have g2 : (GetCodepointNext textEA.text (0 + 0 + (0 + 2))).2 = 1 := by decide
    unfold GetTextWidth
    simp only [if_pos h1, if_neg h2, h3]
    have hm : measureLoop glyphWidth10 1 textEA.text (0 + 0) 3 (3 : Int).toNat 0 0 = 22 := by
      simp only [show (3 : Int).toNat = 3 from rfl, measureLoop, g0, g2, glyphWidth10]
      norm_num
    rw [hm]
    norm_num [truncToInt]
  unfold mouseCursorScan
  simp only [hlen, hw]
  simp only [show ((3 : Int) - 0).toNat = 3 from rfl, mouseScanLoop, glyphWidth10]
  norm_num

/-- C27: the mouse scan steps by bytes, not by codepoints. On the well-formed text "éa"
(`C3 A9 61`) with glyphs 10 wide, spacing 1, text bounds starting at x = 0 and the pointer
at x = 14, the scan ends at byte index 1, the continuation byte of "é": its loop does
`i++` and decodes a '?' there. A left click in edit mode sets the cursor index to 1, which
is not a codepoint boundary; the first codepoint whose glyph centre the pointer has not
passed is "a", at byte offset 2. -/
theorem mouse_scan_steps_by_bytes :
    wellFormed textEA.text = true ∧
    (∀ c : Int, 0 < glyphWidth10 c) ∧
    mouseCursorScan glyphWidth10 1 textEA.text 0 0 14 = some 1 ∧
    (GuiTextBox 8 true true
        { noInput with mouseLeftPressed := true,
                       mouseTextIndex := mouseCursorScan glyphWidth10 1 textEA.text 0 0 14 }
        textEA).1.textBoxCursorIndex = 1 ∧
    isBoundary textEA.text 1 = false ∧
    isBoundary textEA.text 2 = true ∧
    specMouseScan glyphWidth10 1 textEA.text 0 14 3 0 0 = some 2 := by
  refine ⟨by decide, fun c => by norm_num [glyphWidth10], mouseCursorScan_example, ?_,
    by decide, by decide, ?_⟩
  · rw [mouseCursorScan_example]
    decide
  · have g0 : (GetCodepointNext textEA.text 0).2 = 2 := by decide
    have r0 : rd textEA.text 0 ≠ 0 := by decide
    have r2 : rd textEA.text (0 + 2) ≠ 0 := by decide
    simp only [specMouseScan, g0, glyphWidth10, if_neg r0, if_neg r2]
    norm_num

/-! ## Theorems: scroll bar range -/

/-- C28: `GuiScrollBar` always returns a value in range. For every bounds, input, session
state (disabled, locked and drag-active included) and value, with `minValue <= maxValue`,
the value returned lies in `[minValue, maxValue]`; when the GUI is disabled or locked it is
exactly the clamp of the input value. -/
theorem scrollbar_value_in_range (st : StyleState) (g : GuiSession) (inp : GuiInput)
    (bounds : Rectangle) (value minValue maxValue : Int) (hrange : minValue ≤ maxValue) :
    minValue ≤ (GuiScrollBar st g inp bounds value minValue maxValue).value ∧
    (GuiScrollBar st g inp bounds value minValue maxValue).value ≤ maxValue ∧
    ((g.guiState = STATE_DISABLED ∨ g.guiLocked = true) →
      (GuiScrollBar st g inp bounds value minValue maxValue).value
        = max minValue (min value maxValue)) := by
  by_cases hgate : (g.guiState ≠ STATE_DISABLED) ∧ g.guiLocked = false
  · have hv : ∃ x : Int, (GuiScrollBar st g inp bounds value minValue maxValue).value
        = normalizeValue x minValue maxValue := by
      unfold GuiScrollBar
      simp only [if_pos hgate]
      exact ⟨_, rfl⟩
    obtain ⟨x, hx⟩ := hv
    rw [hx, normalizeValue_eq _ _ _ hrange]
    refine ⟨le_max_left _ _, max_le hrange (min_le_right _ _), ?_⟩
    intro h
    rcases h with h | h
    · exact absurd h hgate.1
    · rw [hgate.2] at h
      exact absurd h (by decide)
  · have hv : (GuiScrollBar st g inp bounds value minValue maxValue).value
        = normalizeValue value minValue maxValue := by
      unfold GuiScrollBar
      simp only [if_neg hgate]
    rw [hv, normalizeValue_eq _ _ _ hrange]
    exact ⟨le_max_left _ _, max_le hrange (min_le_right _ _), fun _ => rfl⟩

theorem scrollbar_value_in_range_witness :
    ((0 : Int) ≤ 120) ∧
    ((0 : Int) ≤ (GuiScrollBar defaultStyle (GuiDisable initialSession) (pointerAt 5 50)
        ⟨0, 0, 12, 200⟩ 500 0 120).value ∧
      (GuiScrollBar defaultStyle (GuiDisable initialSession) (pointerAt 5 50)
        ⟨0, 0, 12, 200⟩ 500 0 120).value ≤ 120 ∧
      (((GuiDisable initialSession).guiState = STATE_DISABLED
          ∨ (GuiDisable initialSession).guiLocked = true) →
        (GuiScrollBar defaultStyle (GuiDisable initialSession) (pointerAt 5 50)
          ⟨0, 0, 12, 200⟩ 500 0 120).value = max 0 (min 500 120))) :=
  ⟨by decide,
    scrollbar_value_in_range defaultStyle (GuiDisable initialSession) (pointerAt 5 50)
      ⟨0, 0, 12, 200⟩ 500 0 120 (by decide)⟩

/-! ## Theorems: the decoder and the terminator -/

theorem continuation_ne_zero (b : Nat) (h : ¬ (((b &&& 0xC0) ^^^ 0x80) ≠ 0)) : b ≠ 0 := by
  intro hb
  subst hb
  exact h (by decide)

theorem lt_strlen_of_ne_zero (t : Buf) (j : Nat) (hj : j ≤ strlen t) (h : rd t (j : Int) ≠ 0) :
    j < strlen t := by
  rcases Nat.lt_or_ge j (strlen t) with h1 | h1
  · exact h1
  · have : j = strlen t := le_antisymm hj h1
    rw [this] at h
    exact absurd (rd_strlen t) h

/-- The bytes read, the size reported and the next offset stay within the text. -/
theorem decoder_within (t : Buf) (i : Nat) (hi : i < strlen t) :
    (∀ r ∈ GetCodepointNextReads t (i : Int), (i : Int) ≤ r ∧ r ≤ (strlen t : Nat)) ∧
    (1 ≤ (GetCodepointNext t (i : Int)).2 ∧ (GetCodepointNext t (i : Int)).2 ≤ 4) ∧
    (i : Int) + (GetCodepointNext t (i : Int)).2 ≤ (strlen t : Nat) := by
  have key : ∀ k : Nat, k ≤ strlen t → ¬ (((rd t ((k : Nat) : Int) &&& 0xC0) ^^^ 0x80) ≠ 0) →
      k < strlen t := fun k hk h => lt_strlen_of_ne_zero t k hk (continuation_ne_zero _ h)
  have c1 : ((i : Int) + 1) = ((i + 1 : Nat) : Int) := by push_cast; ring
  have c2 : ((i : Int) + 2) = ((i + 2 : Nat) : Int) := by push_cast; ring
  have c3 : ((i : Int) + 3) = ((i + 3 : Nat) : Int) := by push_cast; ring
  unfold GetCodepointNextReads GetCodepointNext
  simp only [c1, c2, c3]
  by_cases h4 : 0xf0 = (0xf8 &&& rd t (i : Int))
  · simp only [if_pos h4]
    by_cases a1 : ((rd t ((i + 1 : Nat) : Int) &&& 0xC0) ^^^ 0x80) ≠ 0
    · simp only [if_pos a1, if_pos (Or.inl a1)]
      simp
      omega
    · have b1 := key (i + 1) (by omega) a1
      by_cases a2 : ((rd t ((i + 2 : Nat) : Int) &&& 0xC0) ^^^ 0x80) ≠ 0
      · simp only [if_neg a1, if_pos a2, if_pos (Or.inr (Or.inl a2))]
        simp
        omega
      · have b2 := key (i + 2) (by omega) a2
        by_cases a3 : ((rd t ((i + 3 : Nat) : Int) &&& 0xC0) ^^^ 0x80) ≠ 0
        · simp only [if_neg a1, if_neg a2, if_pos (Or.inr (Or.inr a3))]
          simp
          omega
        · have b3 := key (i + 3) (by omega) a3
          have hno : ¬ (((rd t ((i + 1 : Nat) : Int) &&& 0xC0) ^^^ 0x80) ≠ 0
              ∨ ((rd t ((i + 2 : Nat) : Int) &&& 0xC0) ^^^ 0x80) ≠ 0
              ∨ ((rd t ((i + 3 : Nat) : Int) &&& 0xC0) ^^^ 0x80) ≠ 0) := by
            rintro (h | h | h)
            · exact a1 h
            · exact a2 h
            · exact a3 h
          simp only [if_neg a1, if_neg a2, if_neg hno]
          simp
          omega
  · simp only [if_neg h4]
    by_cases h3 : 0xe0 = (0xf0 &&& rd t (i : Int))
    · simp only [if_pos h3]
      by_cases a1 : ((rd t ((i + 1 : Nat) : Int) &&& 0xC0) ^^^ 0x80) ≠ 0
      · simp only [if_pos a1, if_pos (Or.inl a1)]
        simp
        omega
      · have b1 := key (i + 1) (by omega) a1
        by_cases a2 : ((rd t ((i + 2 : Nat) : Int) &&& 0xC0) ^^^ 0x80) ≠ 0
        · simp only [if_neg a1, if_pos (Or.inr a2)]
          simp
          omega
        · have b2 := key (i + 2) (by omega) a2
          have hno : ¬ (((rd t ((i + 1 : Nat) : Int) &&& 0xC0) ^^^ 0x80) ≠ 0
              ∨ ((rd t ((i + 2 : Nat) : Int) &&& 0xC0) ^^^ 0x80) ≠ 0) := by
            rintro (h | h)
            · exact a1 h
            · exact a2 h
          simp only [if_neg a1, if_neg hno]
          simp
          omega
    · simp only [if_neg h3]
      by_cases h2 : 0xc0 = (0xe0 &&& rd t (i : Int))
      · simp only [if_pos h2]
        by_cases a1 : ((rd t ((i + 1 : Nat) : Int) &&& 0xC0) ^^^ 0x80) ≠ 0
        · simp only [if_pos a1]
          simp
          omega
        · have b1 := key (i + 1) (by omega) a1
          simp only [if_neg a1]
          simp
          omega
      · simp only [if_neg h2]
        by_cases h1 : 0x00 = (0x80 &&& rd t (i : Int))
        · simp only [if_pos h1]
          simp
          omega
        · simp only [if_neg h1]
          simp
          omega

/-- The loop that advances by the reported size ends exactly at the terminator. -/
theorem advanceBySize_reaches (t : Buf) (n c : Nat) (hc : c ≤ strlen t)
    (hn : strlen t - c ≤ n) : advanceBySize t n (c : Int) = (strlen t : Nat) := by
  induction n generalizing c with
  | zero =>
    have : c = strlen t := by omega
    rw [this]
    rfl
  | succ n ih =>
    unfold advanceBySize
    by_cases hlt : c < strlen t
    · have hlt1 : (c : Int) < (strlen t : Nat) := by exact_mod_cast hlt
      rw [if_pos hlt1]
      obtain ⟨-, ⟨h1, h4⟩, hle⟩ := decoder_within t c hlt
      have e : (c : Int) + (GetCodepointNext t (c : Int)).2
          = ((c + (GetCodepointNext t (c : Int)).2.toNat : Nat) : Int) := by
        push_cast
        omega
      rw [e]
      apply ih
      · omega
      · omega
    · have hlt1 : ¬ ((c : Int) < (strlen t : Nat)) := by
        intro h
        exact hlt (by exact_mod_cast h)
      rw [if_neg hlt1]
      have : c = strlen t := by omega
      rw [this]

/-- C29: the decoder never steps over the terminator. For every byte string `t` and every
offset `i < strlen(t)`, `GetCodepointNext` at offset `i` reads only bytes at offsets from
`i` to `strlen(t)`, reports a size `n` in {1, 2, 3, 4}, and `i + n <= strlen(t)`; a loop
that advances by the reported size from offset 0 ends, after at most `strlen(t)`
iterations, exactly at `strlen(t)`. -/
theorem decoder_stays_before_terminator (t : Buf) (i : Nat) (hi : i < strlen t) :
    (∀ r ∈ GetCodepointNextReads t (i : Int), (i : Int) ≤ r ∧ r ≤ (strlen t : Nat)) ∧
    ((GetCodepointNext t (i : Int)).2 = 1 ∨ (GetCodepointNext t (i : Int)).2 = 2 ∨
      (GetCodepointNext t (i : Int)).2 = 3 ∨ (GetCodepointNext t (i : Int)).2 = 4) ∧
    (i : Int) + (GetCodepointNext t (i : Int)).2 ≤ (strlen t : Nat) ∧
    (∀ n : Nat, strlen t ≤ n → advanceBySize t n 0 = (strlen t : Nat)) := by
  obtain ⟨hr, ⟨h1, h4⟩, hle⟩ := decoder_within t i hi
  refine ⟨hr, by omega, hle, ?_⟩
  intro n hn
  exact advanceBySize_reaches t n 0 (Nat.zero_le _) (by omega)

theorem decoder_stays_before_terminator_witness :
    (0 < strlen [0xF0, 0x9F, 0]) ∧
    ((∀ r ∈ GetCodepointNextReads [0xF0, 0x9F, 0] ((0 : Nat) : Int),
        ((0 : Nat) : Int) ≤ r ∧ r ≤ (strlen [0xF0, 0x9F, 0] : Nat)) ∧
      ((GetCodepointNext [0xF0, 0x9F, 0] ((0 : Nat) : Int)).2 = 1 ∨
        (GetCodepointNext [0xF0, 0x9F, 0] ((0 : Nat) : Int)).2 = 2 ∨
        (GetCodepointNext [0xF0, 0x9F, 0] ((0 : Nat) : Int)).2 = 3 ∨
        (GetCodepointNext [0xF0, 0x9F, 0] ((0 : Nat) : Int)).2 = 4) ∧
      ((0 : Nat) : Int) + (GetCodepointNext [0xF0, 0x9F, 0] ((0 : Nat) : Int)).2
        ≤ (strlen [0xF0, 0x9F, 0] : Nat) ∧
      (∀ n : Nat, strlen [0xF0, 0x9F, 0] ≤ n →
        advanceBySize [0xF0, 0x9F, 0] n 0 = (strlen [0xF0, 0x9F, 0] : Nat))) :=
  ⟨by decide, decoder_stays_before_terminator [0xF0, 0x9F, 0] 0 (by decide)⟩

/-! ## Theorems: buffer indices of the edit operations -/

/-- C30: the edit operations leave the buffer. Typing U+20AC (3 bytes) into the empty text
of a buffer of 8 bytes with the cursor at 0 makes the insertion loop read `text[-1]` and
`text[-2]`: it runs `i` from `textLength + codepointSize` down to `cursor + 1` and reads
`text[i - codepointSize]`. Pressing Delete at the start of "é" in a buffer of 3 bytes
makes the Delete loop read `text[3]`, one past the buffer: it runs `i` up to
`textLength - 1` and reads `text[i + nextCodepointSize]`. Both texts are well-formed, the
cursor is on a codepoint boundary and `strlen(text) < bufferSize`. -/
theorem edit_accesses_leave_buffer :
    (wellFormed textEmpty.text = true ∧ isBoundary textEmpty.text 0 = true ∧
      (strlen textEmpty.text : Int) < 8 ∧ textEmpty.text.length = 8 ∧
      GuiTextBoxAccesses 8 typeEuro textEmpty = [0, 3, -1, 2, -2, 1, 0, 1, 2, 3] ∧
      (∃ k ∈ GuiTextBoxAccesses 8 typeEuro textEmpty, k < 0) ∧
      (GuiTextBox 8 true true typeEuro textEmpty).1.text = [0xE2, 0x82, 0xAC, 0, 0, 0, 0, 0]) ∧
    (wellFormed textEFull.text = true ∧ isBoundary textEFull.text 0 = true ∧
      (strlen textEFull.text : Int) < 3 ∧ textEFull.text.length = 3 ∧
      GuiTextBoxAccesses 3 deleteInput textEFull = [0, 1, 2, 0, 3, 1, 1] ∧
      (∃ k ∈ GuiTextBoxAccesses 3 deleteInput textEFull, 3 ≤ k)) := by
  decide

/-! ## Theorems: the text index offset loop and the return of `GuiTextBox` -/

theorem truncToInt_nonneg (q : ℚ) (h : 0 ≤ q) : 0 ≤ truncToInt q := by
  unfold truncToInt
  rw [if_pos h]
  exact Int.floor_nonneg.mpr h

/-- With glyph advances that are not negative, the width summed by `GetTextWidth` is not
negative. -/
theorem measureLoop_nonneg (glyphWidth : Int → ℚ) (spacing : Int) (text : Buf)
    (base size : Int) (hfont : ∀ c : Int, 0 ≤ glyphWidth c + (spacing : ℚ)) :
    ∀ (n : Nat) (i : Int) (x : ℚ), 0 ≤ x →
      0 ≤ measureLoop glyphWidth spacing text base size n i x := by
  intro n
  induction n with
  | zero =>
    intro i x hx
    exact hx
  | succ n ih =>
    intro i x hx
    simp only [measureLoop]
    split_ifs
    · exact ih _ _ (add_nonneg hx (hfont _))
    · exact hx

theorem GetTextWidth_nonneg (glyphWidth : Int → ℚ) (spacing : Int) (text : Buf) (off : Int)
    (hfont : ∀ c : Int, 0 ≤ glyphWidth c + (spacing : ℚ)) :
    0 ≤ GetTextWidth glyphWidth spacing text off := by
  unfold GetTextWidth
  by_cases h : rd text off ≠ 0
  · rw [if_pos h]
    apply truncToInt_nonneg
    dsimp only
    split_ifs <;>
      first
        | exact measureLoop_nonneg glyphWidth spacing text _ _ hfont _ _ _ (le_refl 0)
        | exact add_nonneg
            (measureLoop_nonneg glyphWidth spacing text _ _ hfont _ _ _ (le_refl 0))
            (by norm_num [RAYGUI_ICON_SIZE, ICON_TEXT_PADDING])
  · rw [if_neg h]

/-- `GetTextWidth` of an empty string is 0. -/
theorem GetTextWidth_of_rd_zero (glyphWidth : Int → ℚ) (spacing : Int) (text : Buf) (off : Int)
    (h : rd text off = 0) : GetTextWidth glyphWidth spacing text off = 0 := by
  unfold GetTextWidth
  rw [if_neg (not_not.mpr h)]

/-- The text index offset loop exits when the text bounds have a positive width: at the
latest when the offset reaches the terminator, after at most `strlen(text) + 1` tests. -/
theorem textIndexOffsetLoop_exits (glyphWidth : Int → ℚ) (spacing : Int) (text : Buf)
    (cursor : Int) (width : ℚ) (hfont : ∀ c : Int, 0 ≤ glyphWidth c + (spacing : ℚ))
    (hwidth : 0 < width) :
    ∀ (fuel off : Nat), off ≤ strlen text → strlen text - off < fuel →
      ∃ r, textIndexOffsetLoop glyphWidth spacing text cursor width fuel (off : Int)
        (GetTextWidth glyphWidth spacing text (off : Int)
          - GetTextWidth glyphWidth spacing text cursor) = some r := by
  intro fuel
  induction fuel with
  | zero =>
    intro off _ h
    exact absurd h (Nat.not_lt_zero _)
  | succ n ih =>
    intro off hoff hfuel
    simp only [textIndexOffsetLoop]
    by_cases hc : ((GetTextWidth glyphWidth spacing text (off : Int)
        - GetTextWidth glyphWidth spacing text cursor : Int) : ℚ) ≥ width
    · rw [if_pos hc]
      have hlt : off < strlen text := by
        rcases Nat.lt_or_ge off (strlen text) with h | h
        · exact h
        · exfalso
          have he : off = strlen text := le_antisymm hoff h
          rw [he, GetTextWidth_of_rd_zero glyphWidth spacing text _ (rd_strlen text)] at hc
          have h1 := GetTextWidth_nonneg glyphWidth spacing text cursor hfont
          have h2 : ((0 - GetTextWidth glyphWidth spacing text cursor : Int) : ℚ) ≤ 0 := by
            exact_mod_cast (by omega : 0 - GetTextWidth glyphWidth spacing text cursor ≤ 0)
          linarith
      obtain ⟨-, ⟨h1, -⟩, hle⟩ := decoder_within text off hlt
      obtain ⟨k, hk⟩ := Int.eq_ofNat_of_zero_le
        (show 0 ≤ (GetCodepointNext text (off : Int)).2 by omega)
      rw [hk] at h1 hle ⊢
      have hcast : (off : Int) + (k : Int) = ((off + k : Nat) : Int) := by push_cast; rfl
      rw [hcast]
      exact ih (off + k) (by omega) (by omega)
    · rw [if_neg hc]
      exact ⟨_, rfl⟩

/-- The text index offset loop never exits when the text bounds have no positive width and
the text from the cursor on measures 0 (the cursor is at the end of the text): the loop
condition holds at every test, whatever the offset reached. -/
theorem textIndexOffsetLoop_runs_on (glyphWidth : Int → ℚ) (spacing : Int) (text : Buf)
    (cursor : Int) (width : ℚ) (hfont : ∀ c : Int, 0 ≤ glyphWidth c + (spacing : ℚ))
    (hwidth : width ≤ 0) (hcur : GetTextWidth glyphWidth spacing text cursor = 0) :
    ∀ (fuel : Nat) (off : Int),
      textIndexOffsetLoop glyphWidth spacing text cursor width fuel off
        (GetTextWidth glyphWidth spacing text off
          - GetTextWidth glyphWidth spacing text cursor) = none := by
  intro fuel
  induction fuel with
  | zero =>
    intro off
    rfl
  | succ n ih =>
    intro off
    simp only [textIndexOffsetLoop]
    have hc : ((GetTextWidth glyphWidth spacing text off
        - GetTextWidth glyphWidth spacing text cursor : Int) : ℚ) ≥ width := by
      rw [hcur]
      have h1 := GetTextWidth_nonneg glyphWidth spacing text off hfont
      have h2 : (0 : ℚ) ≤ ((GetTextWidth glyphWidth spacing text off - 0 : Int) : ℚ) := by
        exact_mod_cast (by omega : 0 ≤ GetTextWidth glyphWidth spacing text off - 0)
      linarith
    rw [if_pos hc]
    exact ih _

/-- A call of `GuiTextBox` on text bounds of positive width returns, and does what the
part after the text index offset loop does. -/
theorem GuiTextBoxCall_returns (fuel : Nat) (glyphWidth : Int → ℚ) (st : StyleState)
    (g : GuiSession) (bounds : Rectangle) (bufferSize : Int) (editMode : Bool)
    (inp : TextBoxInput) (s : TextBoxState)
    (hfont : ∀ c : Int, 0 ≤ glyphWidth c + ((getStyle st DEFAULT TEXT_SPACING : Int) : ℚ))
    (hwidth : 0 < (GetTextBounds st TEXTBOX bounds).width)
    (hfuel : strlen s.text < fuel) :
    GuiTextBoxCall fuel glyphWidth st g bounds bufferSize editMode inp s
      = some (GuiTextBox bufferSize editMode (textBoxEditable st g) inp s) := by
  unfold GuiTextBoxCall
  simp only []
  split_ifs
  · obtain ⟨r, hr⟩ := textIndexOffsetLoop_exits glyphWidth (getStyle st DEFAULT TEXT_SPACING)
      s.text s.textBoxCursorIndex (GetTextBounds st TEXTBOX bounds).width hfont hwidth fuel 0
      (Nat.zero_le _) (by omega)
    rw [Nat.cast_zero] at hr
    rw [hr]
  · rfl

/-- A call of `GuiTextBox` in view mode returns: the text index offset loop belongs to the
edit-mode block. -/
theorem GuiTextBoxCall_view (fuel : Nat) (glyphWidth : Int → ℚ) (st : StyleState)
    (g : GuiSession) (bounds : Rectangle) (bufferSize : Int) (inp : TextBoxInput)
    (s : TextBoxState) :
    GuiTextBoxCall fuel glyphWidth st g bounds bufferSize false inp s
      = some (GuiTextBox bufferSize false (textBoxEditable st g) inp s) := by
  unfold GuiTextBoxCall
  simp only []
  rw [if_neg (by simp)]

/-- A call of `GuiTextBox` in edit mode on text bounds without positive width, with the
cursor on a NUL byte, does not return. -/
theorem GuiTextBoxCall_runs_on (glyphWidth : Int → ℚ) (st : StyleState)
    (g : GuiSession) (bounds : Rectangle) (bufferSize : Int) (inp : TextBoxInput)
    (s : TextBoxState) (heditable : textBoxEditable st g = true)
    (hfont : ∀ c : Int, 0 ≤ glyphWidth c + ((getStyle st DEFAULT TEXT_SPACING : Int) : ℚ))
    (hwidth : (GetTextBounds st TEXTBOX bounds).width ≤ 0)
    (hcur : rd s.text s.textBoxCursorIndex = 0) (fuel : Nat) :
    GuiTextBoxCall fuel glyphWidth st g bounds bufferSize true inp s = none := by
  unfold GuiTextBoxCall
  simp only []
  rw [if_pos ⟨heditable, trivial⟩,
    textIndexOffsetLoop_runs_on glyphWidth (getStyle st DEFAULT TEXT_SPACING) s.text
      s.textBoxCursorIndex (GetTextBounds st TEXTBOX bounds).width hfont hwidth
      (GetTextWidth_of_rd_zero _ _ _ _ hcur) fuel 0]

set_option maxRecDepth 100000 in
theorem defaultStyle_textbox_values :
    getStyle defaultStyle TEXTBOX BORDER_WIDTH = 1 ∧
    getStyle defaultStyle TEXTBOX TEXT_PADDING = 4 ∧
    getStyle defaultStyle DEFAULT TEXT_SPACING = 1 ∧
    getStyle defaultStyle TEXTBOX TEXT_READONLY = 0 ∧
    getStyle defaultStyle DEFAULT TEXT_WRAP_MODE = TEXT_WRAP_NONE := by
  decide

/-- The width of the text bounds of a text box under the default style: the width of the box
minus 10. -/
theorem defaultStyle_textBounds_width (bounds : Rectangle) :
    (GetTextBounds defaultStyle TEXTBOX bounds).width = bounds.width - 10 := by
  obtain ⟨h1, h2, -⟩ := defaultStyle_textbox_values
  simp only [GetTextBounds, h1, h2]
  norm_num
  ring

theorem glyphWidth10_font (c : Int) :
    0 ≤ glyphWidth10 c + ((getStyle defaultStyle DEFAULT TEXT_SPACING : Int) : ℚ) := by
  rw [defaultStyle_textbox_values.2.2.1]
  norm_num [glyphWidth10]

theorem defaultStyle_editable : textBoxEditable defaultStyle initialSession = true :=
  textBoxEditable_eq_true defaultStyle initialSession (by decide) (by decide) (by decide)
    defaultStyle_textbox_values.2.2.2.1 defaultStyle_textbox_values.2.2.2.2

/-- C12: leaving the edit session, on the call of `GuiTextBox` as a whole. With the GUI
enabled, unlocked, no drag active, the text box not read-only and wrap mode NONE, and a
font whose glyph advances are not negative:
(1) in edit mode on text bounds of positive width the call returns (after at most
`strlen(text) + 1` tests of the offset loop), it returns 1 if and only if Enter is pressed
or the left button is pressed with the pointer outside the bounds, else 0, and when it
returns 1 the cursor index is 0;
(2) in view mode the call returns, it returns 1 if and only if the left button is pressed
with the pointer inside the bounds, else 0, and then the cursor index is `strlen(text)`;
(3) in edit mode on text bounds whose width is 0 or less, with the cursor on the terminator,
the loop `while (textWidth >= textBounds.width)` never exits: the call does not return,
whatever is pressed;
(4) under the default style, with "abc" and the cursor at its end in edit mode and Enter
pressed: in the box `{0, 0, 100, 20}` the call returns 1 and the cursor index is 0 (it
returns 0 without input); in the box `{0, 0, 10, 20}`, whose text bounds have width 0, and
with the empty text in that box, the call does not return. -/
theorem textbox_exit_not_reached_in_narrow_box :
    (∀ (glyphWidth : Int → ℚ) (st : StyleState) (g : GuiSession) (bounds : Rectangle)
        (bufferSize : Int) (inp : TextBoxInput) (s : TextBoxState) (fuel : Nat),
      g.guiState ≠ STATE_DISABLED → g.guiLocked = false → g.guiSliderDragging = false →
      getStyle st TEXTBOX TEXT_READONLY = 0 →
      getStyle st DEFAULT TEXT_WRAP_MODE = TEXT_WRAP_NONE →
      (∀ c : Int, 0 ≤ glyphWidth c + ((getStyle st DEFAULT TEXT_SPACING : Int) : ℚ)) →
      0 < (GetTextBounds st TEXTBOX bounds).width → strlen s.text < fuel →
      ∃ r, GuiTextBoxCall fuel glyphWidth st g bounds bufferSize true inp s = some r ∧
        (r.2 = 1 ↔ (inp.pressedEnter = true ∨
          (inp.mouseLeftPressed = true ∧ inp.mouseInBounds = false))) ∧
        (r.2 ≠ 1 → r.2 = 0) ∧
        (r.2 = 1 → r.1.textBoxCursorIndex = 0)) ∧
    (∀ (glyphWidth : Int → ℚ) (st : StyleState) (g : GuiSession) (bounds : Rectangle)
        (bufferSize : Int) (inp : TextBoxInput) (s : TextBoxState) (fuel : Nat),
      g.guiState ≠ STATE_DISABLED → g.guiLocked = false → g.guiSliderDragging = false →
      getStyle st TEXTBOX TEXT_READONLY = 0 →
      getStyle st DEFAULT TEXT_WRAP_MODE = TEXT_WRAP_NONE →
      ∃ r, GuiTextBoxCall fuel glyphWidth st g bounds bufferSize false inp s = some r ∧
        (r.2 = 1 ↔ (inp.mouseLeftPressed = true ∧ inp.mouseInBounds = true)) ∧
        (r.2 ≠ 1 → r.2 = 0) ∧
        (r.2 = 1 → r.1.textBoxCursorIndex = (strlen s.text : Nat))) ∧
    (∀ (glyphWidth : Int → ℚ) (st : StyleState) (g : GuiSession) (bounds : Rectangle)
        (bufferSize : Int) (inp : TextBoxInput) (s : TextBoxState),
      g.guiState ≠ STATE_DISABLED → g.guiLocked = false → g.guiSliderDragging = false →
      getStyle st TEXTBOX TEXT_READONLY = 0 →
      getStyle st DEFAULT TEXT_WRAP_MODE = TEXT_WRAP_NONE →
      (∀ c : Int, 0 ≤ glyphWidth c + ((getStyle st DEFAULT TEXT_SPACING : Int) : ℚ)) →
      (GetTextBounds st TEXTBOX bounds).width ≤ 0 →
      s.textBoxCursorIndex = (strlen s.text : Nat) →
      ∀ fuel : Nat,
        GuiTextBoxCall fuel glyphWidth st g bounds bufferSize true inp s = none) ∧
    (GetTextBounds defaultStyle TEXTBOX ⟨0, 0, 100, 20⟩).width = 90 ∧
    (GuiTextBoxCall 4 glyphWidth10 defaultStyle initialSession ⟨0, 0, 100, 20⟩ 4 true
        enterInput textABC).map Prod.snd = some 1 ∧
    (GuiTextBoxCall 4 glyphWidth10 defaultStyle initialSession ⟨0, 0, 100, 20⟩ 4 true
        enterInput textABC).map (fun r => r.1.textBoxCursorIndex) = some 0 ∧
    (GuiTextBoxCall 4 glyphWidth10 defaultStyle initialSession ⟨0, 0, 100, 20⟩ 4 true
        noInput textABC).map Prod.snd = some 0 ∧
    (GetTextBounds defaultStyle TEXTBOX ⟨0, 0, 10, 20⟩).width = 0 ∧
    textABC.textBoxCursorIndex = (strlen textABC.text : Nat) ∧
    (∀ fuel : Nat, GuiTextBoxCall fuel glyphWidth10 defaultStyle initialSession
        ⟨0, 0, 10, 20⟩ 4 true enterInput textABC = none) ∧
    (∀ fuel : Nat, GuiTextBoxCall fuel glyphWidth10 defaultStyle initialSession
        ⟨0, 0, 10, 20⟩ 8 true noInput textEmpty = none) := by
  have hw100 : (GetTextBounds defaultStyle TEXTBOX ⟨0, 0, 100, 20⟩).width = 90 := by
    rw [defaultStyle_textBounds_width]
    norm_num
  have hw10 : (GetTextBounds defaultStyle TEXTBOX ⟨0, 0, 10, 20⟩).width = 0 := by
    rw [defaultStyle_textBounds_width]
    norm_num
  have hcall : ∀ inp : TextBoxInput,
      GuiTextBoxCall 4 glyphWidth10 defaultStyle initialSession ⟨0, 0, 100, 20⟩ 4 true inp
        textABC = some (GuiTextBox 4 true true inp textABC) := by
    intro inp
    rw [GuiTextBoxCall_returns 4 glyphWidth10 defaultStyle initialSession ⟨0, 0, 100, 20⟩ 4
      true inp textABC glyphWidth10_font (by rw [hw100]; norm_num) (by decide),
      defaultStyle_editable]
  refine ⟨?_, ?_, ?_, hw100, ?_, ?_, ?_, hw10, by decide, ?_, ?_⟩
  · intro glyphWidth st g bounds bufferSize inp s fuel h1 h2 h3 h4 h5 hfont hwidth hfuel
    obtain ⟨e1, e2, e3, -⟩ := textBox_exit_after_loop st g bufferSize inp s h1 h2 h3 h4 h5
    exact ⟨_, GuiTextBoxCall_returns fuel glyphWidth st g bounds bufferSize true inp s hfont
      hwidth hfuel, e1, e2, e3⟩
  · intro glyphWidth st g bounds bufferSize inp s fuel h1 h2 h3 h4 h5
    obtain ⟨-, -, -, e4, e5, e6⟩ := textBox_exit_after_loop st g bufferSize inp s h1 h2 h3 h4 h5
    exact ⟨_, GuiTextBoxCall_view fuel glyphWidth st g bounds bufferSize inp s, e4, e5, e6⟩
  · intro glyphWidth st g bounds bufferSize inp s h1 h2 h3 h4 h5 hfont hwidth hcur fuel
    exact GuiTextBoxCall_runs_on glyphWidth st g bounds bufferSize inp s
      (textBoxEditable_eq_true st g h1 h2 h3 h4 h5) hfont hwidth
      (by rw [hcur]; exact rd_strlen s.text) fuel
  · rw [hcall enterInput]
    decide
  · rw [hcall enterInput]
    decide
  · rw [hcall noInput]
    decide
  · intro fuel
    exact GuiTextBoxCall_runs_on glyphWidth10 defaultStyle initialSession ⟨0, 0, 10, 20⟩ 4
      enterInput textABC defaultStyle_editable glyphWidth10_font (by rw [hw10]) (by decide) fuel
  · intro fuel
    exact GuiTextBoxCall_runs_on glyphWidth10 defaultStyle initialSession ⟨0, 0, 10, 20⟩ 8
      noInput textEmpty defaultStyle_editable glyphWidth10_font (by rw [hw10]) (by decide) fuel

end Raygui
